import Mathlib

/-!
# NPF session state engine (`src/src/npf/npf_state.c`)

A shallow embedding of the state-tracking engine of the dataplane's stateful
firewall.  C enumerations are natural numbers (their ordinals), because the
code itself compares them against `..._LAST` bounds and receives raw ordinals
from peers; unsigned 32-bit counters are natural numbers reduced modulo `2^32`;
pointers to records become values that are passed in and returned; the global
statistics table, the strict flag and the calls into the session layer become
explicit inputs and outputs.  The per-record spinlock only brackets the
read-modify-write sections and has no sequential effect, so it is not modelled.
-/

namespace NpfState

/-! ## Enumerations -/

/-- Modelled from the spec: the ordinals of `enum dp_session_state`, declared in
a header that is not under `src/`.  The spec names the five generic states with
NONE as the initial one; C numbers enumerators from zero, so NONE is `0` and the
last recognised ordinal is `4`. -/
abbrev SESSION_STATE_NONE : Nat := 0

/-- Modelled from the spec: generic state NEW (enum ordinal). -/
abbrev SESSION_STATE_NEW : Nat := 1

/-- Modelled from the spec: generic state ESTABLISHED (enum ordinal). -/
abbrev SESSION_STATE_ESTABLISHED : Nat := 2

/-- Modelled from the spec: generic state TERMINATING (enum ordinal). -/
abbrev SESSION_STATE_TERMINATING : Nat := 3

/-- Modelled from the spec: generic state CLOSED (enum ordinal). -/
abbrev SESSION_STATE_CLOSED : Nat := 4

/-- Modelled from the spec: first generic state ordinal. -/
abbrev SESSION_STATE_FIRST : Nat := SESSION_STATE_NONE

/-- Modelled from the spec: last recognised generic state ordinal. -/
abbrev SESSION_STATE_LAST : Nat := SESSION_STATE_CLOSED

/-- Modelled from the spec: number of rows of tables indexed by generic state. -/
abbrev SESSION_STATE_SIZE : Nat := SESSION_STATE_LAST + 1

/-- Modelled from the spec: the ordinals of `enum npf_proto_idx` (header not
under `src/`): the protocol classes TCP, UDP, ICMP and OTHER, TCP first, as the
loop `for (proto = NPF_PROTO_IDX_FIRST; ...) if (proto == NPF_PROTO_IDX_TCP)
continue;` of `npf_state_stats_json` has it. -/
abbrev NPF_PROTO_IDX_TCP : Nat := 0

/-- Modelled from the spec: protocol class UDP. -/
abbrev NPF_PROTO_IDX_UDP : Nat := 1

/-- Modelled from the spec: protocol class ICMP. -/
abbrev NPF_PROTO_IDX_ICMP : Nat := 2

/-- Modelled from the spec: protocol class OTHER. -/
abbrev NPF_PROTO_IDX_OTHER : Nat := 3

/-- Modelled from the spec: first protocol class. -/
abbrev NPF_PROTO_IDX_FIRST : Nat := NPF_PROTO_IDX_TCP

/-- Modelled from the spec: last protocol class. -/
abbrev NPF_PROTO_IDX_LAST : Nat := NPF_PROTO_IDX_OTHER

/-- Modelled from the spec: the ordinals of `enum tcp_session_state` (header not
under `src/`), in the order of the name table `npf_state_tcp_name`: the NONE
sentinel followed by the thirteen TCP lifecycle states. -/
abbrev NPF_TCPS_NONE : Nat := 0

/-- Modelled from the spec: TCP state SYN-SENT. -/
abbrev NPF_TCPS_SYN_SENT : Nat := 1

/-- Modelled from the spec: TCP state SIMSYN-SENT. -/
abbrev NPF_TCPS_SIMSYN_SENT : Nat := 2

/-- Modelled from the spec: TCP state SYN-RECEIVED. -/
abbrev NPF_TCPS_SYN_RECEIVED : Nat := 3

/-- Modelled from the spec: TCP state ESTABLISHED. -/
abbrev NPF_TCPS_ESTABLISHED : Nat := 4

/-- Modelled from the spec: TCP state FIN-SENT. -/
abbrev NPF_TCPS_FIN_SENT : Nat := 5

/-- Modelled from the spec: TCP state FIN-RECEIVED. -/
abbrev NPF_TCPS_FIN_RECEIVED : Nat := 6

/-- Modelled from the spec: TCP state CLOSE-WAIT. -/
abbrev NPF_TCPS_CLOSE_WAIT : Nat := 7

/-- Modelled from the spec: TCP state FIN-WAIT. -/
abbrev NPF_TCPS_FIN_WAIT : Nat := 8

/-- Modelled from the spec: TCP state CLOSING. -/
abbrev NPF_TCPS_CLOSING : Nat := 9

/-- Modelled from the spec: TCP state LAST-ACK. -/
abbrev NPF_TCPS_LAST_ACK : Nat := 10

/-- Modelled from the spec: TCP state TIME-WAIT. -/
abbrev NPF_TCPS_TIME_WAIT : Nat := 11

/-- Modelled from the spec: TCP state RST-RECEIVED. -/
abbrev NPF_TCPS_RST_RECEIVED : Nat := 12

/-- Modelled from the spec: TCP state CLOSED. -/
abbrev NPF_TCPS_CLOSED : Nat := 13

/-- Modelled from the spec: first TCP state ordinal. -/
abbrev NPF_TCPS_FIRST : Nat := NPF_TCPS_NONE

/-- Modelled from the spec: last recognised TCP state ordinal. -/
abbrev NPF_TCPS_LAST : Nat := NPF_TCPS_CLOSED

/-- Flow direction, `enum npf_flow_dir`: it only ever indexes two-element
arrays, so its ordinals play no role. -/
inductive npf_flow_dir where
  | NPF_FLOW_BACK
  | NPF_FLOW_FORW
  deriving DecidableEq, Repr

open npf_flow_dir

/-- The errno value `EINVAL` of the C library. -/
abbrev EINVAL : Int := 22

/-! ## Data model -/

/-- Modulus of the `uint32_t` statistics counters. -/
abbrev UINT32_MOD : Nat := 4294967296

/-- Modelled from the spec: `struct npf_state_stats`, one row of the per-core
statistics table (declared in a header not under `src/`): counters indexed by
protocol class and generic state, and counters indexed by TCP state.  The
counters are unsigned 32-bit, like the accumulator `uint32_t tmp` that
`npf_state_stats_json` sums them into. -/
structure npf_state_stats where
  ss_ct : Nat → Nat → Nat
  ss_tcp_ct : Nat → Nat

/-- Modelled from the spec: `struct npf_tcp_window`, the window-tracking state
of one flow direction (sequence end, max end seen, max window seen, window
scale).  The widths of the four fields are declared outside `src/`; the
embedding keeps their values as natural numbers and copies them unchanged. -/
structure npf_tcp_window where
  nst_end : Nat
  nst_maxend : Nat
  nst_maxwin : Nat
  nst_wscale : Nat
  deriving DecidableEq, Repr

/-- Modelled from the spec: `npf_state_t`, the state record.  `nst_to` is the
reference to the timeout-policy handle (`none` is the null pointer). -/
structure npf_state_t where
  nst_tcp_win : npf_flow_dir → npf_tcp_window
  nst_to : Option Nat
  nst_tcp_state : Nat
  nst_gen_state : Nat

/-- Modelled from the spec: the packet cache, of which the engine only asks
"is this an ICMP echo request" (`npf_iscached(npc, NPC_ICMP_ECHO_REQ)`); the
other cached fields are only handed on to the TCP validator. -/
structure npf_cache_t where
  npc_icmp_echo_req : Bool
  npc_fields : List Nat
  deriving DecidableEq, Repr

/-- The packet buffer, which is only handed on to the TCP validator. -/
abbrev rte_mbuf := List Nat

/-- Calls into the session layer made after the lock is released:
`npf_session_gen_state_change(se, nst, old, new, proto_idx)` and
`npf_session_tcp_state_change(se, nst, old, new)`. -/
inductive session_event where
  | gen_state_change (old_state new_state proto_idx : Nat)
  | tcp_state_change (old_state new_state : Nat)
  deriving DecidableEq, Repr

/-- Modelled from the spec: what the external TCP validator `npf_state_tcp`
hands back: the new TCP state, the error code it stores through `int *error`
(zero on success), and the window-tracking state it maintains in the record. -/
structure tcp_verdict where
  new_state : Nat
  rc : Int
  nst_tcp_win : npf_flow_dir → npf_tcp_window

/-- Modelled from the spec: the collaborators of `npf_state.c` whose code is not
under `src/`: the TCP sequence/window validator `npf_state_tcp`, the fixed
TCP-to-generic mapping `npf_state_tcp2gen`, and the return-code ordinal
`NPF_RC_ICMP_ECHO`.  They are parameters of the embedding. -/
structure npf_ext where
  npf_state_tcp : npf_cache_t → rte_mbuf → npf_state_t → npf_flow_dir → tcp_verdict
  npf_state_tcp2gen : Nat → Nat
  NPF_RC_ICMP_ECHO : Nat

/-- Modelled from the spec: the timeout-policy store: `vrf_to` is
`vrf_get_npf_timeout_rcu` (the handle of a routing domain, if any) and `refcnt`
the reference count of each handle, moved by `npf_timeout_ref_get` and
`npf_timeout_ref_put`. -/
structure npf_timeout_store where
  vrf_to : Nat → Option Nat
  refcnt : Nat → Nat

/-! ## Transition table and statistics -/

/-- The table `npf_generic_fsm[SESSION_STATE_SIZE][NPF_FLOW_SZ]`.  Entries
without a designated initialiser are zero-initialised by C, which covers the
backward entry of NONE and the whole rows of TERMINATING and CLOSED.  A state
beyond `SESSION_STATE_LAST` indexes outside the array, where C defines no
value; the embedding reads `0` there as well. -/
def npf_generic_fsm (state : Nat) (flow_dir : npf_flow_dir) : Nat :=
  if state = SESSION_STATE_NONE then
    match flow_dir with
    | NPF_FLOW_FORW => SESSION_STATE_NEW
    | NPF_FLOW_BACK => 0
  else if state = SESSION_STATE_NEW then
    match flow_dir with
    | NPF_FLOW_FORW => SESSION_STATE_NEW
    | NPF_FLOW_BACK => SESSION_STATE_ESTABLISHED
  else if state = SESSION_STATE_ESTABLISHED then
    match flow_dir with
    | NPF_FLOW_FORW => SESSION_STATE_ESTABLISHED
    | NPF_FLOW_BACK => SESSION_STATE_ESTABLISHED
  else 0

/-- Increment of an unsigned 32-bit counter. -/
def u32_inc (x : Nat) : Nat := (x + 1) % UINT32_MOD

/-- Decrement of an unsigned 32-bit counter (zero wraps around). -/
def u32_dec (x : Nat) : Nat := (x + UINT32_MOD - 1) % UINT32_MOD

/-- The function `stats_inc_tcp`; `stats` is the global table indexed by core and
`lcore` is `dp_lcore_id()`. -/
def stats_inc_tcp (stats : Nat → npf_state_stats) (lcore tcp_state : Nat) :
    Nat → npf_state_stats :=
  if tcp_state ≤ NPF_TCPS_LAST then
    Function.update stats lcore
      { stats lcore with
        ss_tcp_ct := Function.update (stats lcore).ss_tcp_ct tcp_state
          (u32_inc ((stats lcore).ss_tcp_ct tcp_state)) }
  else stats

/-- The function `stats_dec_tcp`. -/
def stats_dec_tcp (stats : Nat → npf_state_stats) (lcore tcp_state : Nat) :
    Nat → npf_state_stats :=
  if tcp_state ≤ NPF_TCPS_LAST then
    Function.update stats lcore
      { stats lcore with
        ss_tcp_ct := Function.update (stats lcore).ss_tcp_ct tcp_state
          (u32_dec ((stats lcore).ss_tcp_ct tcp_state)) }
  else stats

/-- The function `stats_inc`. -/
def stats_inc (stats : Nat → npf_state_stats) (lcore proto_idx state : Nat) :
    Nat → npf_state_stats :=
  if state ≤ SESSION_STATE_LAST ∧ proto_idx ≤ NPF_PROTO_IDX_LAST then
    Function.update stats lcore
      { stats lcore with
        ss_ct := Function.update (stats lcore).ss_ct proto_idx
          (Function.update ((stats lcore).ss_ct proto_idx) state
            (u32_inc ((stats lcore).ss_ct proto_idx state))) }
  else stats

/-- The function `stats_dec`. -/
def stats_dec (stats : Nat → npf_state_stats) (lcore proto_idx state : Nat) :
    Nat → npf_state_stats :=
  if state ≤ SESSION_STATE_LAST ∧ proto_idx ≤ NPF_PROTO_IDX_LAST then
    Function.update stats lcore
      { stats lcore with
        ss_ct := Function.update (stats lcore).ss_ct proto_idx
          (Function.update ((stats lcore).ss_ct proto_idx) state
            (u32_dec ((stats lcore).ss_ct proto_idx state))) }
  else stats

/-! ## Wire records of the synchronisation codec -/

/-- Modelled from the spec: `struct npf_pack_tcp_window`, the window fields of
the internal (trusted) packed form. -/
structure npf_pack_tcp_window where
  ptw_end : Nat
  ptw_maxend : Nat
  ptw_maxwin : Nat
  ptw_wscale : Nat
  deriving DecidableEq, Repr

/-- Modelled from the spec: `struct npf_pack_session_state`, the internal packed
form of a state record: both window structures and the two state ordinals as
raw bytes. -/
structure npf_pack_session_state where
  pst_tcp_win : npf_flow_dir → npf_pack_tcp_window
  pst_tcp_state : Nat
  pst_gen_state : Nat

/-- Modelled from the spec: the protobuf message `TCPWindowMsg`: four numeric
fields, each with its presence flag. -/
structure TCPWindowMsg where
  has_tw_end : Bool
  tw_end : Nat
  has_tw_maxend : Bool
  tw_maxend : Nat
  has_tw_maxwin : Bool
  tw_maxwin : Nat
  has_tw_wscale : Bool
  tw_wscale : Nat
  deriving DecidableEq, Repr

/-- Modelled from the spec: the protobuf message `NPFSessionStateMsg`: the state
ordinal with its presence flag and the two window messages. -/
structure NPFSessionStateMsg where
  has_nss_state : Bool
  nss_state : Nat
  n_nss_tcpwins : Nat
  nss_tcpwins : npf_flow_dir → TCPWindowMsg

/-! ## Results of the engine's functions -/

/-- What the state-set primitives leave behind: the statistics table, the
record and the caller's `*state_changed` flag. -/
structure set_outcome where
  stats : Nat → npf_state_stats
  nst : npf_state_t
  state_changed : Bool

/-- What a packet-driven or forced transition leaves behind: the return code,
the statistics table, the record and the calls made into the session layer. -/
structure outcome where
  rc : Int
  stats : Nat → npf_state_stats
  nst : npf_state_t
  events : List session_event

/-- What `npf_state_init` leaves behind. -/
structure init_outcome where
  ok : Bool
  store : npf_timeout_store
  stats : Nat → npf_state_stats
  nst : npf_state_t

/-- What `npf_state_destroy` leaves behind. -/
structure destroy_outcome where
  store : npf_timeout_store
  stats : Nat → npf_state_stats
  nst : npf_state_t

/-- What a protobuf decode leaves behind: the return code, the statistics
table, the record behind the `nst` pointer (if not null) and the caller's
`*state_changed` flag. -/
structure pb_outcome where
  rc : Int
  stats : Nat → npf_state_stats
  nst : Option npf_state_t
  state_changed : Bool

/-! ## Lifecycle -/

/-- The function `npf_state_init`. -/
def npf_state_init (store : npf_timeout_store) (stats : Nat → npf_state_stats)
    (lcore vrfid proto_idx : Nat) (nst : npf_state_t) : init_outcome :=
  match store.vrf_to vrfid with
  | none => ⟨false, store, stats, nst⟩
  | some tmo =>
    let store1 : npf_timeout_store :=
      { store with refcnt := Function.update store.refcnt tmo (store.refcnt tmo + 1) }
    let nst1 : npf_state_t := { nst with nst_to := some tmo }
    if proto_idx = NPF_PROTO_IDX_TCP then
      ⟨true, store1, stats_inc_tcp stats lcore NPF_TCPS_NONE,
        { nst1 with nst_tcp_state := NPF_TCPS_NONE, nst_gen_state := SESSION_STATE_NONE }⟩
    else
      ⟨true, store1, stats_inc stats lcore proto_idx SESSION_STATE_NONE,
        { nst1 with nst_gen_state := SESSION_STATE_NONE }⟩

/-- The function `npf_state_destroy`. -/
def npf_state_destroy (store : npf_timeout_store) (stats : Nat → npf_state_stats)
    (lcore : Nat) (nst : npf_state_t) (proto_idx : Nat) : destroy_outcome :=
  let stats1 :=
    if proto_idx = NPF_PROTO_IDX_TCP then stats_dec_tcp stats lcore nst.nst_tcp_state
    else stats_dec stats lcore proto_idx nst.nst_gen_state
  match nst.nst_to with
  | some tmo =>
    ⟨{ store with refcnt := Function.update store.refcnt tmo (store.refcnt tmo - 1) },
      stats1, { nst with nst_to := none }⟩
  | none => ⟨store, stats1, nst⟩

/-! ## State-set primitives -/

/-- The function `npf_state_set_gen`. -/
def npf_state_set_gen (stats : Nat → npf_state_stats) (lcore : Nat) (nst : npf_state_t)
    (proto_idx state : Nat) (state_changed : Bool) : set_outcome :=
  if nst.nst_gen_state ≠ state then
    let old_state := nst.nst_gen_state
    let stats1 := stats_dec stats lcore proto_idx old_state
    let stats2 := stats_inc stats1 lcore proto_idx state
    ⟨stats2, { nst with nst_gen_state := state }, true⟩
  else ⟨stats, nst, state_changed⟩

/-- The function `npf_state_set_tcp`. -/
def npf_state_set_tcp (ext : npf_ext) (stats : Nat → npf_state_stats) (lcore : Nat)
    (nst : npf_state_t) (state : Nat) (state_changed : Bool) : set_outcome :=
  if nst.nst_tcp_state ≠ state then
    let old_state := nst.nst_tcp_state
    let stats1 := stats_dec_tcp stats lcore old_state
    let stats2 := stats_inc_tcp stats1 lcore state
    ⟨stats2, { nst with nst_tcp_state := state, nst_gen_state := ext.npf_state_tcp2gen state },
      true⟩
  else ⟨stats, nst, state_changed⟩

/-! ## Packet-driven inspection -/

/-- The function `npf_state_inspect_other`. -/
def npf_state_inspect_other (stats : Nat → npf_state_stats) (lcore : Nat)
    (nst : npf_state_t) (proto_idx : Nat) (flow_dir : npf_flow_dir) : outcome :=
  let old_state := nst.nst_gen_state
  let new_state := npf_generic_fsm nst.nst_gen_state flow_dir
  let r := npf_state_set_gen stats lcore nst proto_idx new_state false
  ⟨0, r.stats, r.nst,
    if r.state_changed then [session_event.gen_state_change old_state new_state proto_idx]
    else []⟩

/-- The function `npf_state_inspect_tcp`; the validator runs on the record and
leaves its window tracking behind whether or not it accepts the packet. -/
def npf_state_inspect_tcp (ext : npf_ext) (stats : Nat → npf_state_stats) (lcore : Nat)
    (npc : npf_cache_t) (nbuf : rte_mbuf) (nst : npf_state_t) (flow_dir : npf_flow_dir) :
    outcome :=
  let old_state := nst.nst_tcp_state
  let v := ext.npf_state_tcp npc nbuf nst flow_dir
  let nst1 : npf_state_t := { nst with nst_tcp_win := v.nst_tcp_win }
  let r : set_outcome :=
    if v.rc = 0 then npf_state_set_tcp ext stats lcore nst1 v.new_state false
    else ⟨stats, nst1, false⟩
  ⟨v.rc, r.stats, r.nst,
    if r.state_changed then [session_event.tcp_state_change old_state v.new_state] else []⟩

/-- The function `npf_state_inspect_icmp`; `icmp_strict` is the global
`npf_state_icmp_strict`. -/
def npf_state_inspect_icmp (ext : npf_ext) (icmp_strict : Bool)
    (stats : Nat → npf_state_stats) (lcore : Nat) (npc : npf_cache_t) (nst : npf_state_t)
    (flow_dir : npf_flow_dir) : outcome :=
  let old_state := nst.nst_gen_state
  let rc : Int :=
    if (icmp_strict || old_state == SESSION_STATE_NONE) &&
        xor (flow_dir == NPF_FLOW_FORW) npc.npc_icmp_echo_req then
      -(ext.NPF_RC_ICMP_ECHO : Int)
    else 0
  if rc = 0 then
    let new_state := npf_generic_fsm nst.nst_gen_state flow_dir
    let r := npf_state_set_gen stats lcore nst NPF_PROTO_IDX_ICMP new_state false
    ⟨rc, r.stats, r.nst,
      if r.state_changed then
        [session_event.gen_state_change old_state new_state NPF_PROTO_IDX_ICMP]
      else []⟩
  else ⟨rc, stats, nst, []⟩

/-- The function `npf_state_inspect`. -/
def npf_state_inspect (ext : npf_ext) (icmp_strict : Bool) (stats : Nat → npf_state_stats)
    (lcore : Nat) (npc : npf_cache_t) (nbuf : rte_mbuf) (nst : npf_state_t)
    (proto_idx : Nat) (forw : Bool) : outcome :=
  let flow_dir := if forw then NPF_FLOW_FORW else NPF_FLOW_BACK
  if proto_idx = NPF_PROTO_IDX_UDP ∨ proto_idx = NPF_PROTO_IDX_OTHER then
    npf_state_inspect_other stats lcore nst proto_idx flow_dir
  else if proto_idx = NPF_PROTO_IDX_TCP then
    npf_state_inspect_tcp ext stats lcore npc nbuf nst flow_dir
  else if proto_idx = NPF_PROTO_IDX_ICMP then
    npf_state_inspect_icmp ext icmp_strict stats lcore npc nst flow_dir
  else ⟨0, stats, nst, []⟩

/-! ## Forced-closed transitions -/

/-- The function `npf_state_set_gen_closed`; `lock` only selects whether the
spinlock is taken. -/
def npf_state_set_gen_closed (stats : Nat → npf_state_stats) (lcore : Nat)
    (nst : npf_state_t) ( lock : Bool) (proto_idx : Nat) : outcome :=
  let old_state := nst.nst_gen_state
  let r := npf_state_set_gen stats lcore nst proto_idx SESSION_STATE_CLOSED false
  ⟨0, r.stats, r.nst,
    if r.state_changed then
      [session_event.gen_state_change old_state SESSION_STATE_CLOSED proto_idx]
    else []⟩

/-- The function `npf_state_set_tcp_closed`. -/
def npf_state_set_tcp_closed (ext : npf_ext) (stats : Nat → npf_state_stats) (lcore : Nat)
    (nst : npf_state_t) ( lock : Bool) : outcome :=
  let old_state := nst.nst_tcp_state
  let r := npf_state_set_tcp ext stats lcore nst NPF_TCPS_CLOSED false
  ⟨0, r.stats, r.nst,
    if r.state_changed then [session_event.tcp_state_change old_state NPF_TCPS_CLOSED]
    else []⟩

/-! ## Internal pack/restore -/

/-- The function `npf_state_pack_update_gen`. -/
def npf_state_pack_update_gen (stats : Nat → npf_state_stats) (lcore : Nat)
    (nst : npf_state_t) (pst : npf_pack_session_state) (proto_idx : Nat)
    (state_changed : Bool) : set_outcome :=
  npf_state_set_gen stats lcore nst proto_idx pst.pst_gen_state state_changed

/-- The function `npf_state_pack_update_tcp`. -/
def npf_state_pack_update_tcp (ext : npf_ext) (stats : Nat → npf_state_stats) (lcore : Nat)
    (nst : npf_state_t) (pst : npf_pack_session_state) (state_changed : Bool) :
    set_outcome :=
  let nst1 : npf_state_t :=
    { nst with
      nst_tcp_win := fun fl =>
        { nst_end := (pst.pst_tcp_win fl).ptw_end
          nst_maxend := (pst.pst_tcp_win fl).ptw_maxend
          nst_maxwin := (pst.pst_tcp_win fl).ptw_maxwin
          nst_wscale := (pst.pst_tcp_win fl).ptw_wscale } }
  npf_state_set_tcp ext stats lcore nst1 pst.pst_tcp_state state_changed

/-! ## Protobuf restore and update -/

/-- The function `npf_state_restore_gen_pb`; a null pointer is `none`. -/
def npf_state_restore_gen_pb (stats : Nat → npf_state_stats) (nst : Option npf_state_t)
    (nss : Option NPFSessionStateMsg) : pb_outcome :=
  match nst, nss with
  | some n, some m =>
    if m.nss_state > SESSION_STATE_LAST then ⟨-EINVAL, stats, some n, false⟩
    else ⟨0, stats, some { n with nst_gen_state := m.nss_state }, false⟩
  | _, _ => ⟨-EINVAL, stats, nst, false⟩

/-- The function `npf_state_update_gen_pb`. -/
def npf_state_update_gen_pb (stats : Nat → npf_state_stats) (lcore : Nat)
    (nst : Option npf_state_t) (nss : Option NPFSessionStateMsg) (proto_idx : Nat)
    (state_changed : Bool) : pb_outcome :=
  match nst, nss with
  | some n, some m =>
    if m.nss_state > SESSION_STATE_LAST then ⟨-EINVAL, stats, some n, state_changed⟩
    else
      let r := npf_state_set_gen stats lcore n proto_idx m.nss_state state_changed
      ⟨0, r.stats, some r.nst, r.state_changed⟩
  | _, _ => ⟨-EINVAL, stats, nst, state_changed⟩

/-- The function `npf_state_restore_tcpwin_pb`. -/
def npf_state_restore_tcpwin_pb (tcp_win : npf_tcp_window) (pb_tcp_win : TCPWindowMsg) :
    npf_tcp_window :=
  let w1 := if pb_tcp_win.has_tw_end then { tcp_win with nst_end := pb_tcp_win.tw_end }
    else tcp_win
  let w2 := if pb_tcp_win.has_tw_maxend then { w1 with nst_maxend := pb_tcp_win.tw_maxend }
    else w1
  let w3 := if pb_tcp_win.has_tw_maxwin then { w2 with nst_maxwin := pb_tcp_win.tw_maxwin }
    else w2
  if pb_tcp_win.has_tw_wscale then { w3 with nst_wscale := pb_tcp_win.tw_wscale } else w3

/-- The function `npf_state_restore_tcp_pb`. -/
def npf_state_restore_tcp_pb (stats : Nat → npf_state_stats) (nst : Option npf_state_t)
    (nss : Option NPFSessionStateMsg) : pb_outcome :=
  match nst, nss with
  | some n, some m =>
    if m.nss_state > NPF_TCPS_LAST then ⟨-EINVAL, stats, some n, false⟩
    else
      ⟨0, stats,
        some { n with
          nst_tcp_state := m.nss_state
          nst_tcp_win := fun fl =>
            npf_state_restore_tcpwin_pb (n.nst_tcp_win fl) (m.nss_tcpwins fl) },
        false⟩
  | _, _ => ⟨-EINVAL, stats, nst, false⟩

/-- The function `npf_state_update_tcp_pb`. -/
def npf_state_update_tcp_pb (ext : npf_ext) (stats : Nat → npf_state_stats) (lcore : Nat)
    (nst : Option npf_state_t) (nss : Option NPFSessionStateMsg) (state_changed : Bool) :
    pb_outcome :=
  match nst, nss with
  | some n, some m =>
    if m.nss_state > NPF_TCPS_LAST then ⟨-EINVAL, stats, some n, state_changed⟩
    else
      let n1 : npf_state_t :=
        { n with
          nst_tcp_win := fun fl =>
            npf_state_restore_tcpwin_pb (n.nst_tcp_win fl) (m.nss_tcpwins fl) }
      let r := npf_state_set_tcp ext stats lcore n1 m.nss_state state_changed
      ⟨0, r.stats, some r.nst, r.state_changed⟩
  | _, _ => ⟨-EINVAL, stats, nst, state_changed⟩

/-! ## Protobuf pack -/

/-- Modelled from the spec: `NPF_FLOW_SZ`, the number of flow directions (the
size of the two-element window arrays). -/
abbrev NPF_FLOW_SZ : Nat := 2

/-- What a protobuf pack leaves behind: the return code and the message behind
the `nss` pointer (if not null). -/
structure pack_outcome where
  rc : Int
  nss : Option NPFSessionStateMsg

/-- The function `npf_state_pack_gen_pb`; a null pointer is `none`. -/
def npf_state_pack_gen_pb (nst : Option npf_state_t) (nss : Option NPFSessionStateMsg) :
    pack_outcome :=
  match nst, nss with
  | some n, some m => ⟨0, some { m with has_nss_state := true, nss_state := n.nst_gen_state }⟩
  | _, _ => ⟨-EINVAL, nss⟩

/-- The function `npf_state_pack_tcp_pb`; the two window messages behind
`nss->nss_tcpwins[i]` are filled in place. -/
def npf_state_pack_tcp_pb (nst : Option npf_state_t) (nss : Option NPFSessionStateMsg) :
    pack_outcome :=
  match nst, nss with
  | some n, some m =>
    ⟨0, some
      { m with
        has_nss_state := true
        nss_state := n.nst_tcp_state
        n_nss_tcpwins := NPF_FLOW_SZ
        nss_tcpwins := fun fl =>
          { m.nss_tcpwins fl with
            has_tw_end := true
            tw_end := (n.nst_tcp_win fl).nst_end
            has_tw_maxend := true
            tw_maxend := (n.nst_tcp_win fl).nst_maxend
            has_tw_maxwin := true
            tw_maxwin := (n.nst_tcp_win fl).nst_maxwin
            has_tw_wscale := true
            tw_wscale := (n.nst_tcp_win fl).nst_wscale } }⟩
  | _, _ => ⟨-EINVAL, nss⟩

/-! ## State names -/

/-- A C string: the characters before the terminating NUL. -/
abbrev cstring := List Char

/-- The table `npf_state_tcp_name[NPF_TCP_NSTATES]`, indexed by TCP state
ordinal; an index outside the table reads as the empty string here (the code
never indexes it there). -/
def npf_state_tcp_name (state : Nat) : cstring :=
  if state = NPF_TCPS_NONE then "NONE".toList
  else if state = NPF_TCPS_SYN_SENT then "SYN-SENT".toList
  else if state = NPF_TCPS_SIMSYN_SENT then "SIMSYN-SENT".toList
  else if state = NPF_TCPS_SYN_RECEIVED then "SYN-RECEIVED".toList
  else if state = NPF_TCPS_ESTABLISHED then "ESTABLISHED".toList
  else if state = NPF_TCPS_FIN_SENT then "FIN-SENT".toList
  else if state = NPF_TCPS_FIN_RECEIVED then "FIN-RECEIVED".toList
  else if state = NPF_TCPS_CLOSE_WAIT then "CLOSE-WAIT".toList
  else if state = NPF_TCPS_FIN_WAIT then "FIN-WAIT".toList
  else if state = NPF_TCPS_CLOSING then "CLOSING".toList
  else if state = NPF_TCPS_LAST_ACK then "LAST-ACK".toList
  else if state = NPF_TCPS_TIME_WAIT then "TIME-WAIT".toList
  else if state = NPF_TCPS_RST_RECEIVED then "RST-RECEIVED".toList
  else if state = NPF_TCPS_CLOSED then "CLOSED".toList
  else []

/-- The function `npf_state_get_tcp_name`. -/
def npf_state_get_tcp_name (state : Nat) : cstring :=
  if state ≤ NPF_TCPS_LAST then npf_state_tcp_name state else "none".toList

/-- The function `npf_str_to_json_name`: at most `len - 1` characters of `src`
are copied, a hyphen as an underscore and any other character through
`tolower` (of the C locale: only the ASCII capitals change). -/
def npf_str_to_json_name (src : cstring) (len : Nat) : cstring :=
  (src.take (len - 1)).map (fun c => if c = '-' then '_' else c.toLower)

/-- The function `npf_str_to_log_name`: at most `len - 1` characters of `src`
are copied, an underscore as a hyphen and any other character through
`toupper` (of the C locale: only the ASCII small letters change). -/
def npf_str_to_log_name (src : cstring) (len : Nat) : cstring :=
  (src.take (len - 1)).map (fun c => if c = '_' then '-' else c.toUpper)

/-- The function `npf_state_name_summary_json`. -/
def npf_state_name_summary_json (state : Nat) : cstring :=
  if state = SESSION_STATE_NEW then "new".toList
  else if state = SESSION_STATE_ESTABLISHED then "established".toList
  else if state = SESSION_STATE_CLOSED then "closed".toList
  else "none".toList

/-- The TCP state ordinals `NPF_TCPS_FIRST .. NPF_TCPS_LAST` in loop order. -/
def tcp_states : List Nat :=
  List.range' NPF_TCPS_FIRST (NPF_TCPS_LAST + 1 - NPF_TCPS_FIRST)

/-- The generic state ordinals `SESSION_STATE_FIRST .. SESSION_STATE_LAST` in
loop order. -/
def gen_states : List Nat :=
  List.range' SESSION_STATE_FIRST (SESSION_STATE_LAST + 1 - SESSION_STATE_FIRST)

/-- The protocol classes `NPF_PROTO_IDX_FIRST .. NPF_PROTO_IDX_LAST` in loop
order. -/
def proto_idxs : List Nat :=
  List.range' NPF_PROTO_IDX_FIRST (NPF_PROTO_IDX_LAST + 1 - NPF_PROTO_IDX_FIRST)

/-- The function `npf_map_str_to_tcp_state`: the argument is converted into the
buffer `char upper[40]` and compared with the name of each state in turn. -/
def npf_map_str_to_tcp_state (name : cstring) : Nat :=
  ((tcp_states.find? (fun state =>
      decide (npf_str_to_log_name name 40 = npf_state_tcp_name state))).getD NPF_TCPS_NONE)

/-! ## Custom timeout -/

/-- Modelled from the spec: the rule engine and configuration lookups used by
`npf_state_get_custom_timeout`, whose code is not under `src/`; configurations,
rulesets and rules are handles and `none` is the null pointer.
`npf_rule_rproc_tag` gives the tag value it returns and the value it leaves in
`*tag_present`, which the caller cleared before the call. -/
structure npf_rule_ext where
  vrf_get_npf_conf_rcu : Nat → Option Nat
  npf_get_ruleset : Option Nat → Nat → Option Nat
  npf_ruleset_inspect : npf_cache_t → rte_mbuf → Option Nat → Option Nat
  npf_rule_rproc_tag : Nat → Nat × Bool
  NPF_RS_CUSTOM_TIMEOUT : Nat

/-- The function `npf_state_get_custom_timeout`. -/
def npf_state_get_custom_timeout (rx : npf_rule_ext) (vrfid : Nat) (npc : npf_cache_t)
    (nbuf : rte_mbuf) : Nat :=
  let npf_config := rx.vrf_get_npf_conf_rcu vrfid
  let npf_rs := rx.npf_get_ruleset npf_config rx.NPF_RS_CUSTOM_TIMEOUT
  let rl := rx.npf_ruleset_inspect npc nbuf npf_rs
  match rl with
  | some r => if (rx.npf_rule_rproc_tag r).2 then (rx.npf_rule_rproc_tag r).1 else 0
  | none => 0

/-! ## Statistics report -/

/-- Calls into the JSON writer, in order: `jsonw_name`, `jsonw_start_object`,
`jsonw_uint_field` and `jsonw_end_object`. -/
inductive json_event where
  | jsonw_name (n : cstring)
  | jsonw_start_object
  | jsonw_uint_field (n : cstring) (value : Nat)
  | jsonw_end_object
  deriving DecidableEq, Repr

/-- Addition of unsigned 32-bit values (`+=` on a `uint32_t`). -/
def u32_add (x y : Nat) : Nat := (x + y) % UINT32_MOD

/-- The statement `stats[i].ss_tcp_ct[NPF_TCPS_CLOSED] +=
stats[i].ss_tcp_ct[NPF_TCPS_NONE]` on the row of one core. -/
def fold_tcp_none (row : npf_state_stats) : npf_state_stats :=
  { row with
    ss_tcp_ct := Function.update row.ss_tcp_ct NPF_TCPS_CLOSED
      (u32_add (row.ss_tcp_ct NPF_TCPS_CLOSED) (row.ss_tcp_ct NPF_TCPS_NONE)) }

/-- The statement `stats[i].ss_ct[proto][SESSION_STATE_CLOSED] +=
stats[i].ss_ct[proto][SESSION_STATE_NONE]` on the row of one core. -/
def fold_gen_none (row : npf_state_stats) (proto : Nat) : npf_state_stats :=
  { row with
    ss_ct := Function.update row.ss_ct proto
      (Function.update (row.ss_ct proto) SESSION_STATE_CLOSED
        (u32_add (row.ss_ct proto SESSION_STATE_CLOSED) (row.ss_ct proto SESSION_STATE_NONE))) }

/-- The loop `tmp = 0; FOREACH_DP_LCORE(i) tmp += f(i);` with `uint32_t tmp`;
`lcores` are the cores `FOREACH_DP_LCORE` visits. -/
def lcore_sum (lcores : List Nat) (f : Nat → Nat) : Nat :=
  lcores.foldl (fun tmp i => u32_add tmp (f i)) 0

/-- The emitting part of `npf_state_stats_json`, given the count it emits for
each TCP state and for each protocol class and generic state: the object "tcp"
with one field per TCP state, then one object per protocol class other than
TCP with one field per generic state.  `proto_name` is
`npf_get_protocol_name_from_idx`, whose code is not under `src/`. -/
def emit_report (proto_name : Nat → cstring) (tcp_count : Nat → Nat)
    (gen_count : Nat → Nat → Nat) : List json_event :=
  [json_event.jsonw_name "tcp".toList, json_event.jsonw_start_object] ++
  tcp_states.map (fun tcp_state =>
    json_event.jsonw_uint_field
      (npf_str_to_json_name (npf_state_get_tcp_name tcp_state) 40) (tcp_count tcp_state)) ++
  [json_event.jsonw_end_object] ++
  (proto_idxs.filter (fun proto => decide (proto ≠ NPF_PROTO_IDX_TCP))).flatMap (fun proto =>
    [json_event.jsonw_name (proto_name proto), json_event.jsonw_start_object] ++
    gen_states.map (fun state =>
      json_event.jsonw_uint_field
        (npf_str_to_json_name (npf_state_name_summary_json state) 40)
        (gen_count proto state)) ++
    [json_event.jsonw_end_object])

/-- The fix-up loops at the head of `npf_state_stats_json`: on every core the
NONE counts are added into the CLOSED counts, first for TCP, then for each
protocol class. -/
def stats_json_fixup (lcores : List Nat) (stats : Nat → npf_state_stats) :
    Nat → npf_state_stats :=
  let stats1 := lcores.foldl (fun st i => Function.update st i (fold_tcp_none (st i))) stats
  lcores.foldl (fun st i => Function.update st i (proto_idxs.foldl fold_gen_none (st i)))
    stats1

/-- The function `npf_state_stats_json`: the statistics table it leaves behind
and the calls it makes into the JSON writer. -/
def npf_state_stats_json (lcores : List Nat) (proto_name : Nat → cstring)
    (stats : Nat → npf_state_stats) : (Nat → npf_state_stats) × List json_event :=
  let stats2 := stats_json_fixup lcores stats
  (stats2,
    emit_report proto_name
      (fun tcp_state => lcore_sum lcores (fun i => (stats2 i).ss_tcp_ct tcp_state))
      (fun proto state => lcore_sum lcores (fun i => (stats2 i).ss_ct proto state)))

/-- The statistics table after `k` consecutive reports. -/
def stats_after_reports (lcores : List Nat) (proto_name : Nat → cstring) :
    Nat → (Nat → npf_state_stats) → (Nat → npf_state_stats)
  | 0, stats => stats
  | k + 1, stats =>
    stats_after_reports lcores proto_name k (npf_state_stats_json lcores proto_name stats).1

/-- The sum over the cores of a bucket, as a natural number. -/
def core_total (lcores : List Nat) (f : Nat → Nat) : Nat := (lcores.map f).sum

/-- The sum over the cores of the TCP bucket of state `s`, as a natural
number. -/
def tcp_total (lcores : List Nat) (stats : Nat → npf_state_stats) (s : Nat) : Nat :=
  core_total lcores (fun i => (stats i).ss_tcp_ct s)

/-- The sum over the cores of the bucket of protocol class `p` and generic
state `s`, as a natural number. -/
def gen_total (lcores : List Nat) (stats : Nat → npf_state_stats) (p s : Nat) : Nat :=
  core_total lcores (fun i => (stats i).ss_ct p s)

/-! ## Runs of calls on one record -/

/-- A run of `npf_state_inspect` calls on one record of protocol class
`proto_idx`: each packet is a cache, a buffer and the `forw` flag; the
statistics table and the record are threaded through, return codes and
session-layer calls are collected in order. -/
def inspect_run (ext : npf_ext) (icmp_strict : Bool) (lcore proto_idx : Nat) :
    (Nat → npf_state_stats) → npf_state_t → List (npf_cache_t × rte_mbuf × Bool) →
    List Int × outcome
  | stats, nst, [] => ([], ⟨0, stats, nst, []⟩)
  | stats, nst, (npc, nbuf, forw) :: rest =>
    let r := npf_state_inspect ext icmp_strict stats lcore npc nbuf nst proto_idx forw
    let t := inspect_run ext icmp_strict lcore proto_idx r.stats r.nst rest
    (r.rc :: t.1, ⟨t.2.rc, t.2.stats, t.2.nst, r.events ++ t.2.events⟩)

/-- The stages of a UDP flow: the record is created, sees a forward packet,
sees a backward packet and is destroyed. -/
structure udp_flow where
  created : init_outcome
  forward : outcome
  backward : outcome
  destroyed : destroy_outcome

/-- A UDP flow in domain `vrfid` on core `lcore`: `npf_state_init`, then
`npf_state_inspect` with `forw = true`, then with `forw = false`, then
`npf_state_destroy`, each call on the statistics table and the record the
previous one left. -/
def udp_flow_run (ext : npf_ext) (icmp_strict : Bool) (store : npf_timeout_store)
    (stats : Nat → npf_state_stats) (lcore vrfid : Nat) (nst0 : npf_state_t)
    (npc1 : npf_cache_t) (nbuf1 : rte_mbuf) (npc2 : npf_cache_t) (nbuf2 : rte_mbuf) :
    udp_flow :=
  let i := npf_state_init store stats lcore vrfid NPF_PROTO_IDX_UDP nst0
  let r1 := npf_state_inspect ext icmp_strict i.stats lcore npc1 nbuf1 i.nst
    NPF_PROTO_IDX_UDP true
  let r2 := npf_state_inspect ext icmp_strict r1.stats lcore npc2 nbuf2 r1.nst
    NPF_PROTO_IDX_UDP false
  ⟨i, r1, r2, npf_state_destroy i.store r2.stats lcore r2.nst NPF_PROTO_IDX_UDP⟩

/-! ## Sample collaborators used to evaluate the code on concrete inputs -/

/-- A statistics table with every counter at zero (`zmalloc_aligned`). -/
def zero_stats : Nat → npf_state_stats := fun _ => ⟨fun _ _ => 0, fun _ => 0⟩

/-- A window structure with every field at zero. -/
def zero_win : npf_tcp_window := ⟨0, 0, 0, 0⟩

/-- A zeroed state record (memory before `npf_state_init`). -/
def zero_nst : npf_state_t := ⟨fun _ => zero_win, none, 0, 0⟩

/-- A timeout-policy store in which domain `1` has handle `7` with one
reference and no other domain has a handle. -/
def sample_store : npf_timeout_store :=
  ⟨fun vrfid => if vrfid = 1 then some 7 else none, fun h => if h = 7 then 1 else 0⟩

/-- A TCP-to-generic mapping of the expected shape: NONE to NONE, the
handshake states to NEW, ESTABLISHED to ESTABLISHED, CLOSED to CLOSED and the
teardown states to TERMINATING. -/
def sample_tcp2gen (tcp_state : Nat) : Nat :=
  if tcp_state = NPF_TCPS_NONE then SESSION_STATE_NONE
  else if tcp_state ≤ NPF_TCPS_SYN_RECEIVED then SESSION_STATE_NEW
  else if tcp_state = NPF_TCPS_ESTABLISHED then SESSION_STATE_ESTABLISHED
  else if tcp_state = NPF_TCPS_CLOSED then SESSION_STATE_CLOSED
  else SESSION_STATE_TERMINATING

/-- A toy validator: the first cached field names the TCP state the packet
leads to; a packet without cached fields, or naming no recognised state, is
rejected with code `-1`; the windows are left as they are. -/
def sample_validator (npc : npf_cache_t) (_nbuf : rte_mbuf) (nst : npf_state_t)
    (_flow_dir : npf_flow_dir) : tcp_verdict :=
  match npc.npc_fields with
  | [] => ⟨NPF_TCPS_NONE, -1, nst.nst_tcp_win⟩
  | t :: _ =>
    if t ≤ NPF_TCPS_LAST then ⟨t, 0, nst.nst_tcp_win⟩ else ⟨NPF_TCPS_NONE, -1, nst.nst_tcp_win⟩

/-- Sample collaborators: the toy validator, the sample mapping and `5` for the
return-code ordinal `NPF_RC_ICMP_ECHO`. -/
def sample_ext : npf_ext := ⟨sample_validator, sample_tcp2gen, 5⟩

/-- A packet cache of a packet that is not an echo request and has no cached
fields. -/
def plain_npc : npf_cache_t := ⟨false, []⟩

/-- A statistics table with counts on two cores: core `0` has 2 TCP records in
NONE, 3 in CLOSED and 5 in ESTABLISHED, core `1` has 1 TCP record in NONE, 4 UDP
records in NONE, 6 in CLOSED and 1 in NEW; every other counter is zero. -/
def sample_table : Nat → npf_state_stats := fun i =>
  if i = 0 then
    ⟨fun _ _ => 0,
      fun s => if s = NPF_TCPS_NONE then 2 else if s = NPF_TCPS_CLOSED then 3
        else if s = NPF_TCPS_ESTABLISHED then 5 else 0⟩
  else if i = 1 then
    ⟨fun p s => if p = NPF_PROTO_IDX_UDP then
        (if s = SESSION_STATE_NONE then 4 else if s = SESSION_STATE_CLOSED then 6
          else if s = SESSION_STATE_NEW then 1 else 0)
        else 0,
      fun s => if s = NPF_TCPS_NONE then 1 else 0⟩
  else ⟨fun _ _ => 0, fun _ => 0⟩

/-- Sample protocol names for the report. -/
def sample_proto_name (proto : Nat) : cstring :=
  if proto = NPF_PROTO_IDX_UDP then "udp".toList
  else if proto = NPF_PROTO_IDX_ICMP then "icmp".toList
  else if proto = NPF_PROTO_IDX_OTHER then "other".toList
  else "tcp".toList

/-- A sample rule engine: every domain has configuration `0`, whose
custom-timeout ruleset is `0`; a packet whose first cached field is `r` matches
rule `r`, a packet without cached fields matches none; an even rule carries no
tag, an odd rule `r` carries the tag `10 * r`. -/
def sample_rule_ext : npf_rule_ext :=
  ⟨fun _ => some 0, fun cfg _ => cfg,
    fun npc _ rs => match rs, npc.npc_fields with
      | some _, r :: _ => some r
      | _, _ => none,
    fun r => if r % 2 = 1 then (10 * r, true) else (0, false), 0⟩

/-- An internal packed form with every field at zero. -/
def zero_pst : npf_pack_session_state := ⟨fun _ => ⟨0, 0, 0, 0⟩, 0, 0⟩

/-- A protobuf window message with no field present. -/
def empty_tw : TCPWindowMsg := ⟨false, 0, false, 0, false, 0, false, 0⟩

/-- A protobuf state message carrying the state ordinal `state` and two window
messages without fields. -/
def state_msg (state : Nat) : NPFSessionStateMsg := ⟨true, state, 2, fun _ => empty_tw⟩

/-- A protobuf window message with every field present. -/
def full_tw : TCPWindowMsg := ⟨true, 100, true, 200, true, 300, true, 7⟩

/-- A protobuf state message carrying the state ordinal `state` and two window
messages with every field present. -/
def full_msg (state : Nat) : NPFSessionStateMsg := ⟨true, state, 2, fun _ => full_tw⟩

/-- A TCP record in state ESTABLISHED with distinct window values in the two
flow directions and the generic state its class projects to. -/
def sample_tcp_nst : npf_state_t :=
  ⟨fun fl =>
      match fl with
      | NPF_FLOW_FORW => ⟨1000, 2000, 512, 3⟩
      | NPF_FLOW_BACK => ⟨5000, 6000, 1024, 2⟩,
    some 7, NPF_TCPS_ESTABLISHED, SESSION_STATE_ESTABLISHED⟩

/-! ## The engine on one core

The session layer owns the records: it creates one per flow with
`npf_state_init`, passes the record and its protocol class to every later call,
uses the generic entry points for UDP, ICMP and OTHER records and the TCP entry
points for TCP records, and calls `npf_state_destroy` once at teardown. -/

/-- A live session as far as the state engine is concerned: the protocol class
the session layer passes with every call (`s_proto_idx`) and the embedded state
record (`s_state`). -/
structure session where
  s_proto_idx : Nat
  s_state : npf_state_t

/-- The engine as seen from one core: the timeout-policy store, the statistics
table and the live sessions in creation order. -/
structure engine where
  store : npf_timeout_store
  stats : Nat → npf_state_stats
  sessions : List session

/-- The calls the session layer makes into the engine; `i` is the position of
the session among the live ones. -/
inductive engine_op where
  | init (vrfid proto_idx : Nat) (nst0 : npf_state_t)
  | inspect (i : Nat) (npc : npf_cache_t) (nbuf : rte_mbuf) (forw : Bool)
  | set_gen_closed (i : Nat) ( lock : Bool)
  | set_tcp_closed (i : Nat) ( lock : Bool)
  | pack_update_gen (i : Nat) (pst : npf_pack_session_state)
  | pack_update_tcp (i : Nat) (pst : npf_pack_session_state)
  | restore_gen_pb (i : Nat) (nss : NPFSessionStateMsg)
  | restore_tcp_pb (i : Nat) (nss : NPFSessionStateMsg)
  | update_gen_pb (i : Nat) (nss : NPFSessionStateMsg)
  | update_tcp_pb (i : Nat) (nss : NPFSessionStateMsg)
  | destroy (i : Nat)

/-- Replace the record of session `i`, keeping its protocol class. -/
def put_state (e : engine) (stats : Nat → npf_state_stats) (i : Nat) (se : session)
    (nst : npf_state_t) : engine :=
  { e with stats := stats, sessions := e.sessions.set i ⟨se.s_proto_idx, nst⟩ }

/-- One call into the engine on core `lcore`.  A call on a position without a
live session, a generic call on a TCP session and a TCP call on a non-TCP
session are calls the session layer does not make; they leave the engine as it
is.  A failed `npf_state_init` creates no session. -/
def engine_step (ext : npf_ext) (icmp_strict : Bool) (lcore : Nat) (e : engine) :
    engine_op → engine
  | .init vrfid proto_idx nst0 =>
    let r := npf_state_init e.store e.stats lcore vrfid proto_idx nst0
    if r.ok then ⟨r.store, r.stats, e.sessions ++ [⟨proto_idx, r.nst⟩]⟩ else e
  | .inspect i npc nbuf forw =>
    match e.sessions[i]? with
    | none => e
    | some se =>
      let r := npf_state_inspect ext icmp_strict e.stats lcore npc nbuf se.s_state
        se.s_proto_idx forw
      put_state e r.stats i se r.nst
  | .set_gen_closed i lk =>
    match e.sessions[i]? with
    | none => e
    | some se =>
      if se.s_proto_idx = NPF_PROTO_IDX_TCP then e
      else
        let r := npf_state_set_gen_closed e.stats lcore se.s_state lk se.s_proto_idx
        put_state e r.stats i se r.nst
  | .set_tcp_closed i lk =>
    match e.sessions[i]? with
    | none => e
    | some se =>
      if se.s_proto_idx = NPF_PROTO_IDX_TCP then
        let r := npf_state_set_tcp_closed ext e.stats lcore se.s_state lk
        put_state e r.stats i se r.nst
      else e
  | .pack_update_gen i pst =>
    match e.sessions[i]? with
    | none => e
    | some se =>
      if se.s_proto_idx = NPF_PROTO_IDX_TCP then e
      else
        let r := npf_state_pack_update_gen e.stats lcore se.s_state pst se.s_proto_idx false
        put_state e r.stats i se r.nst
  | .pack_update_tcp i pst =>
    match e.sessions[i]? with
    | none => e
    | some se =>
      if se.s_proto_idx = NPF_PROTO_IDX_TCP then
        let r := npf_state_pack_update_tcp ext e.stats lcore se.s_state pst false
        put_state e r.stats i se r.nst
      else e
  | .restore_gen_pb i nss =>
    match e.sessions[i]? with
    | none => e
    | some se =>
      if se.s_proto_idx = NPF_PROTO_IDX_TCP then e
      else
        let r := npf_state_restore_gen_pb e.stats (some se.s_state) (some nss)
        put_state e r.stats i se (r.nst.getD se.s_state)
  | .restore_tcp_pb i nss =>
    match e.sessions[i]? with
    | none => e
    | some se =>
      if se.s_proto_idx = NPF_PROTO_IDX_TCP then
        let r := npf_state_restore_tcp_pb e.stats (some se.s_state) (some nss)
        put_state e r.stats i se (r.nst.getD se.s_state)
      else e
  | .update_gen_pb i nss =>
    match e.sessions[i]? with
    | none => e
    | some se =>
      if se.s_proto_idx = NPF_PROTO_IDX_TCP then e
      else
        let r := npf_state_update_gen_pb e.stats lcore (some se.s_state) (some nss)
          se.s_proto_idx false
        put_state e r.stats i se (r.nst.getD se.s_state)
  | .update_tcp_pb i nss =>
    match e.sessions[i]? with
    | none => e
    | some se =>
      if se.s_proto_idx = NPF_PROTO_IDX_TCP then
        let r := npf_state_update_tcp_pb ext e.stats lcore (some se.s_state) (some nss) false
        put_state e r.stats i se (r.nst.getD se.s_state)
      else e
  | .destroy i =>
    match e.sessions[i]? with
    | none => e
    | some se =>
      let r := npf_state_destroy e.store e.stats lcore se.s_state se.s_proto_idx
      ⟨r.store, r.stats, e.sessions.eraseIdx i⟩

/-- A sequence of calls into the engine on core `lcore`. -/
def engine_run (ext : npf_ext) (icmp_strict : Bool) (lcore : Nat) (e : engine)
    (ops : List engine_op) : engine :=
  ops.foldl (engine_step ext icmp_strict lcore) e

/-- The engine at system start: the statistics table is zeroed
(`npf_state_stats_create`) and no session is live. -/
def engine_start (store : npf_timeout_store) : engine := ⟨store, zero_stats, []⟩

/-- The statistics bucket of a protocol class and state: the TCP counters for
class TCP, the generic counters of the class otherwise. -/
def bucket (st : npf_state_stats) (proto_idx state : Nat) : Nat :=
  if proto_idx = NPF_PROTO_IDX_TCP then st.ss_tcp_ct state else st.ss_ct proto_idx state

/-- The last recognised state of a protocol class. -/
def last_state (proto_idx : Nat) : Nat :=
  if proto_idx = NPF_PROTO_IDX_TCP then NPF_TCPS_LAST else SESSION_STATE_LAST

/-- The sum of all per-state buckets of a protocol class. -/
def bucket_sum (st : npf_state_stats) (proto_idx : Nat) : Nat :=
  ((List.range (last_state proto_idx + 1)).map (bucket st proto_idx)).sum

/-- The authoritative state of a session: `nst_tcp_state` for TCP,
`nst_gen_state` otherwise. -/
def cur_state (se : session) : Nat :=
  if se.s_proto_idx = NPF_PROTO_IDX_TCP then se.s_state.nst_tcp_state
  else se.s_state.nst_gen_state

/-- Number of live sessions of a protocol class. -/
def live_count (sessions : List session) (proto_idx : Nat) : Nat :=
  sessions.countP (fun se => decide (se.s_proto_idx = proto_idx))

/-- Number of live sessions of a protocol class that are in a given state. -/
def live_in_state (sessions : List session) (proto_idx state : Nat) : Nat :=
  sessions.countP (fun se => decide (se.s_proto_idx = proto_idx ∧ cur_state se = state))

/-- The calls covered by the conservation theorem: every call except the two
protobuf restores, with a recognised state in every internal packed form. -/
def op_recognised : engine_op → Bool
  | .pack_update_gen _ pst => decide (pst.pst_gen_state ≤ SESSION_STATE_LAST)
  | .pack_update_tcp _ pst => decide (pst.pst_tcp_state ≤ NPF_TCPS_LAST)
  | .restore_gen_pb _ _ => false
  | .restore_tcp_pb _ _ => false
  | _ => true

/-- Statistics and sessions agree on core `lcore`: every live session of a
protocol class is in a recognised state, and every bucket of a protocol class
and recognised state holds the number of live sessions of that class in that
state. -/
def engine_consistent (lcore : Nat) (e : engine) : Prop :=
  (∀ se ∈ e.sessions, se.s_proto_idx ≤ NPF_PROTO_IDX_LAST →
    cur_state se ≤ last_state se.s_proto_idx) ∧
  (∀ p s, p ≤ NPF_PROTO_IDX_LAST → s ≤ last_state p →
    bucket (e.stats lcore) p s = live_in_state e.sessions p s)

/-! ## Lemmas on the statistics primitives -/

theorem ss_ct_stats_inc (stats : Nat → npf_state_stats) (lcore proto_idx state c p s : Nat)
    (hs : state ≤ SESSION_STATE_LAST) (hp : proto_idx ≤ NPF_PROTO_IDX_LAST) :
    ((stats_inc stats lcore proto_idx state) c).ss_ct p s =
      if c = lcore ∧ p = proto_idx ∧ s = state then u32_inc ((stats c).ss_ct p s)
      else (stats c).ss_ct p s := by
  unfold stats_inc
  rw [if_pos ⟨hs, hp⟩]
  by_cases hc : c = lcore
  · subst hc
    by_cases hpp : p = proto_idx
    · subst hpp
      by_cases hss : s = state
      · subst hss; simp
      · simp [hss]
    · simp [hpp]
  · simp [hc]

theorem ss_ct_stats_dec (stats : Nat → npf_state_stats) (lcore proto_idx state c p s : Nat)
    (hs : state ≤ SESSION_STATE_LAST) (hp : proto_idx ≤ NPF_PROTO_IDX_LAST) :
    ((stats_dec stats lcore proto_idx state) c).ss_ct p s =
      if c = lcore ∧ p = proto_idx ∧ s = state then u32_dec ((stats c).ss_ct p s)
      else (stats c).ss_ct p s := by
  unfold stats_dec
  rw [if_pos ⟨hs, hp⟩]
  by_cases hc : c = lcore
  · subst hc
    by_cases hpp : p = proto_idx
    · subst hpp
      by_cases hss : s = state
      · subst hss; simp
      · simp [hss]
    · simp [hpp]
  · simp [hc]

theorem ss_tcp_ct_stats_inc (stats : Nat → npf_state_stats) (lcore proto_idx state c s : Nat) :
    ((stats_inc stats lcore proto_idx state) c).ss_tcp_ct s = (stats c).ss_tcp_ct s := by
  unfold stats_inc
  split
  · by_cases hc : c = lcore
    · subst hc; simp
    · simp [hc]
  · rfl

theorem ss_tcp_ct_stats_dec (stats : Nat → npf_state_stats) (lcore proto_idx state c s : Nat) :
    ((stats_dec stats lcore proto_idx state) c).ss_tcp_ct s = (stats c).ss_tcp_ct s := by
  unfold stats_dec
  split
  · by_cases hc : c = lcore
    · subst hc; simp
    · simp [hc]
  · rfl

theorem ss_tcp_ct_stats_inc_tcp (stats : Nat → npf_state_stats) (lcore state c s : Nat)
    (hs : state ≤ NPF_TCPS_LAST) :
    ((stats_inc_tcp stats lcore state) c).ss_tcp_ct s =
      if c = lcore ∧ s = state then u32_inc ((stats c).ss_tcp_ct s)
      else (stats c).ss_tcp_ct s := by
  unfold stats_inc_tcp
  rw [if_pos hs]
  by_cases hc : c = lcore
  · subst hc
    by_cases hss : s = state
    · subst hss; simp
    · simp [hss]
  · simp [hc]

theorem ss_tcp_ct_stats_dec_tcp (stats : Nat → npf_state_stats) (lcore state c s : Nat)
    (hs : state ≤ NPF_TCPS_LAST) :
    ((stats_dec_tcp stats lcore state) c).ss_tcp_ct s =
      if c = lcore ∧ s = state then u32_dec ((stats c).ss_tcp_ct s)
      else (stats c).ss_tcp_ct s := by
  unfold stats_dec_tcp
  rw [if_pos hs]
  by_cases hc : c = lcore
  · subst hc
    by_cases hss : s = state
    · subst hss; simp
    · simp [hss]
  · simp [hc]

theorem ss_ct_stats_inc_tcp (stats : Nat → npf_state_stats) (lcore state c p s : Nat) :
    ((stats_inc_tcp stats lcore state) c).ss_ct p s = (stats c).ss_ct p s := by
  unfold stats_inc_tcp
  split
  · by_cases hc : c = lcore
    · subst hc; simp
    · simp [hc]
  · rfl

theorem ss_ct_stats_dec_tcp (stats : Nat → npf_state_stats) (lcore state c p s : Nat) :
    ((stats_dec_tcp stats lcore state) c).ss_ct p s = (stats c).ss_ct p s := by
  unfold stats_dec_tcp
  split
  · by_cases hc : c = lcore
    · subst hc; simp
    · simp [hc]
  · rfl

/-! ## The generic FSM on UDP and OTHER records -/

theorem inspect_other_gen_state (stats : Nat → npf_state_stats) (lcore : Nat)
    (nst : npf_state_t) (proto_idx : Nat) (flow_dir : npf_flow_dir) :
    (npf_state_inspect_other stats lcore nst proto_idx flow_dir).nst.nst_gen_state =
      npf_generic_fsm nst.nst_gen_state flow_dir := by
  unfold npf_state_inspect_other npf_state_set_gen
  by_cases h : nst.nst_gen_state = npf_generic_fsm nst.nst_gen_state flow_dir
  · simp [← h]
  · simp [h]

theorem inspect_udp_other_eq (ext : npf_ext) (icmp_strict : Bool)
    (stats : Nat → npf_state_stats) (lcore : Nat) (npc : npf_cache_t) (nbuf : rte_mbuf)
    (nst : npf_state_t) (proto_idx : Nat) (forw : Bool)
    (hp : proto_idx = NPF_PROTO_IDX_UDP ∨ proto_idx = NPF_PROTO_IDX_OTHER) :
    npf_state_inspect ext icmp_strict stats lcore npc nbuf nst proto_idx forw =
      npf_state_inspect_other stats lcore nst proto_idx
        (if forw then NPF_FLOW_FORW else NPF_FLOW_BACK) := by
  unfold npf_state_inspect
  simp [hp]

theorem inspect_run_established (ext : npf_ext) (icmp_strict : Bool) (lcore proto_idx : Nat)
    (hp : proto_idx = NPF_PROTO_IDX_UDP ∨ proto_idx = NPF_PROTO_IDX_OTHER)
    (pkts : List (npf_cache_t × rte_mbuf × Bool)) :
    ∀ (stats : Nat → npf_state_stats) (nst : npf_state_t),
      nst.nst_gen_state = SESSION_STATE_ESTABLISHED →
      (inspect_run ext icmp_strict lcore proto_idx stats nst pkts).2.nst.nst_gen_state =
          SESSION_STATE_ESTABLISHED ∧
        ∀ rc ∈ (inspect_run ext icmp_strict lcore proto_idx stats nst pkts).1, rc = 0 := by
  induction pkts with
  | nil => intro stats nst h; simp [inspect_run, h]
  | cons pkt rest ih =>
    intro stats nst h
    obtain ⟨npc, nbuf, forw⟩ := pkt
    have hstep : (npf_state_inspect ext icmp_strict stats lcore npc nbuf nst proto_idx
        forw).nst.nst_gen_state = SESSION_STATE_ESTABLISHED := by
      rw [inspect_udp_other_eq _ _ _ _ _ _ _ _ _ hp, inspect_other_gen_state, h]
      cases forw <;> simp [npf_generic_fsm]
    have hrc : (npf_state_inspect ext icmp_strict stats lcore npc nbuf nst proto_idx
        forw).rc = 0 := by
      rw [inspect_udp_other_eq _ _ _ _ _ _ _ _ _ hp]; rfl
    have := ih (npf_state_inspect ext icmp_strict stats lcore npc nbuf nst proto_idx forw).stats
      (npf_state_inspect ext icmp_strict stats lcore npc nbuf nst proto_idx forw).nst hstep
    simp only [inspect_run]
    refine ⟨this.1, ?_⟩
    intro rc hmem
    simp only [List.mem_cons] at hmem
    rcases hmem with h1 | h2
    · rw [h1, hrc]
    · exact this.2 rc h2

theorem init_gen_state (store : npf_timeout_store) (stats : Nat → npf_state_stats)
    (lcore vrfid proto_idx : Nat) (nst0 : npf_state_t)
    (hinit : (npf_state_init store stats lcore vrfid proto_idx nst0).ok = true) :
    (npf_state_init store stats lcore vrfid proto_idx nst0).nst.nst_gen_state =
      SESSION_STATE_NONE := by
  unfold npf_state_init at hinit ⊢
  cases hv : store.vrf_to vrfid with
  | none => simp [hv] at hinit
  | some tmo =>
    simp only [hv]
    split <;> rfl

/-- C1: for every UDP or OTHER record `npf_state_inspect` returns 0 and the
generic state moves as the transition table lists: NONE with forward gives NEW,
NEW with forward gives NEW, NEW with backward gives ESTABLISHED, ESTABLISHED
with either direction gives ESTABLISHED; and from a freshly initialised record,
inspect(forward), inspect(backward) and then any further run of inspects ends in
ESTABLISHED with every call returning 0. -/
theorem C1_generic_fsm_inspect (ext : npf_ext) (icmp_strict : Bool)
    (store : npf_timeout_store) (stats : Nat → npf_state_stats)
    (lcore vrfid proto_idx : Nat) (npc npc1 npc2 : npf_cache_t) (nbuf nbuf1 nbuf2 : rte_mbuf)
    (nst nst0 : npf_state_t) (pkts : List (npf_cache_t × rte_mbuf × Bool))
    (hp : proto_idx = NPF_PROTO_IDX_UDP ∨ proto_idx = NPF_PROTO_IDX_OTHER)
    (hinit : (npf_state_init store stats lcore vrfid proto_idx nst0).ok = true) :
    (∀ forw, (npf_state_inspect ext icmp_strict stats lcore npc nbuf nst proto_idx forw).rc
        = 0) ∧
    (npf_state_inspect ext icmp_strict stats lcore npc nbuf
        { nst with nst_gen_state := SESSION_STATE_NONE } proto_idx true).nst.nst_gen_state
      = SESSION_STATE_NEW ∧
    (npf_state_inspect ext icmp_strict stats lcore npc nbuf
        { nst with nst_gen_state := SESSION_STATE_NEW } proto_idx true).nst.nst_gen_state
      = SESSION_STATE_NEW ∧
    (npf_state_inspect ext icmp_strict stats lcore npc nbuf
        { nst with nst_gen_state := SESSION_STATE_NEW } proto_idx false).nst.nst_gen_state
      = SESSION_STATE_ESTABLISHED ∧
    (∀ forw, (npf_state_inspect ext icmp_strict stats lcore npc nbuf
        { nst with nst_gen_state := SESSION_STATE_ESTABLISHED } proto_idx
        forw).nst.nst_gen_state = SESSION_STATE_ESTABLISHED) ∧
    (inspect_run ext icmp_strict lcore proto_idx
        (npf_state_init store stats lcore vrfid proto_idx nst0).stats
        (npf_state_init store stats lcore vrfid proto_idx nst0).nst
        ((npc1, nbuf1, true) :: (npc2, nbuf2, false) :: pkts)).2.nst.nst_gen_state
      = SESSION_STATE_ESTABLISHED ∧
    (∀ rc ∈ (inspect_run ext icmp_strict lcore proto_idx
        (npf_state_init store stats lcore vrfid proto_idx nst0).stats
        (npf_state_init store stats lcore vrfid proto_idx nst0).nst
        ((npc1, nbuf1, true) :: (npc2, nbuf2, false) :: pkts)).1, rc = 0) := by
  have hone : ∀ (st : Nat → npf_state_stats) (n : npf_state_t) (c : npf_cache_t)
      (b : rte_mbuf) (forw : Bool),
      (npf_state_inspect ext icmp_strict st lcore c b n proto_idx forw).nst.nst_gen_state =
        npf_generic_fsm n.nst_gen_state (if forw then NPF_FLOW_FORW else NPF_FLOW_BACK) := by
    intro st n c b forw
    rw [inspect_udp_other_eq _ _ _ _ _ _ _ _ _ hp, inspect_other_gen_state]
  have hrc : ∀ (st : Nat → npf_state_stats) (n : npf_state_t) (c : npf_cache_t)
      (b : rte_mbuf) (forw : Bool),
      (npf_state_inspect ext icmp_strict st lcore c b n proto_idx forw).rc = 0 := by
    intro st n c b forw
    rw [inspect_udp_other_eq _ _ _ _ _ _ _ _ _ hp]; rfl
  refine ⟨fun forw => hrc _ _ _ _ forw, ?_, ?_, ?_, ?_, ?_⟩
  · rw [hone]; simp [npf_generic_fsm]
  · rw [hone]; simp [npf_generic_fsm]
  · rw [hone]; simp [npf_generic_fsm]
  · intro forw; rw [hone]; cases forw <;> simp [npf_generic_fsm]
  · have h0 := init_gen_state store stats lcore vrfid proto_idx nst0 hinit
    simp only [inspect_run]
    have h1n : (npf_state_inspect ext icmp_strict
        (npf_state_init store stats lcore vrfid proto_idx nst0).stats lcore npc1 nbuf1
        (npf_state_init store stats lcore vrfid proto_idx nst0).nst proto_idx
        true).nst.nst_gen_state = SESSION_STATE_NEW := by
      rw [hone, h0]; simp [npf_generic_fsm]
    have h2n : (npf_state_inspect ext icmp_strict
        (npf_state_inspect ext icmp_strict
          (npf_state_init store stats lcore vrfid proto_idx nst0).stats lcore npc1 nbuf1
          (npf_state_init store stats lcore vrfid proto_idx nst0).nst proto_idx true).stats
        lcore npc2 nbuf2
        (npf_state_inspect ext icmp_strict
          (npf_state_init store stats lcore vrfid proto_idx nst0).stats lcore npc1 nbuf1
          (npf_state_init store stats lcore vrfid proto_idx nst0).nst proto_idx true).nst
        proto_idx false).nst.nst_gen_state = SESSION_STATE_ESTABLISHED := by
      rw [hone, h1n]; simp [npf_generic_fsm]
    have hrest := fun st =>
      inspect_run_established ext icmp_strict lcore proto_idx hp pkts st _ h2n
    refine ⟨(hrest _).1, ?_⟩
    intro rc hmem
    simp only [List.mem_cons] at hmem
    rcases hmem with h | h | h
    · rw [h]; exact hrc _ _ _ _ _
    · rw [h]; exact hrc _ _ _ _ _
    · exact (hrest _).2 rc h

/-- Witness of C1: a UDP record initialised in domain `1` of the sample store,
run through forward, backward, backward, forward. -/
theorem C1_generic_fsm_inspect_witness :
    (NPF_PROTO_IDX_UDP = NPF_PROTO_IDX_UDP ∨ NPF_PROTO_IDX_UDP = NPF_PROTO_IDX_OTHER) ∧
    (npf_state_init sample_store zero_stats 0 1 NPF_PROTO_IDX_UDP zero_nst).ok = true ∧
    (inspect_run sample_ext false 0 NPF_PROTO_IDX_UDP
        (npf_state_init sample_store zero_stats 0 1 NPF_PROTO_IDX_UDP zero_nst).stats
        (npf_state_init sample_store zero_stats 0 1 NPF_PROTO_IDX_UDP zero_nst).nst
        ((plain_npc, [], true) :: (plain_npc, [], false) ::
          [(plain_npc, [], false), (plain_npc, [], true)])).2.nst.nst_gen_state
      = SESSION_STATE_ESTABLISHED :=
  ⟨Or.inl rfl, by decide,
    (C1_generic_fsm_inspect sample_ext false sample_store zero_stats 0 1 NPF_PROTO_IDX_UDP
      plain_npc plain_npc plain_npc [] [] [] zero_nst zero_nst
      [(plain_npc, [], false), (plain_npc, [], true)] (Or.inl rfl) (by decide)).2.2.2.2.2.1⟩

/-- C2: the code at a CLOSED record.  A UDP record is initialised, marked closed
and then inspected with a forward packet: the pair (CLOSED, forward) has no
entry in `npf_generic_fsm`, yet the inspect does not leave the record alone: it
moves it to NONE, takes one count out of the UDP CLOSED bucket, adds one to the
UDP NONE bucket and notifies the session layer of a CLOSED to NONE change. -/
theorem C2_closed_record_inspect :
    (npf_state_set_gen_closed
        (npf_state_init sample_store zero_stats 0 1 NPF_PROTO_IDX_UDP zero_nst).stats 0
        (npf_state_init sample_store zero_stats 0 1 NPF_PROTO_IDX_UDP zero_nst).nst true
        NPF_PROTO_IDX_UDP).nst.nst_gen_state = SESSION_STATE_CLOSED ∧
    ((npf_state_set_gen_closed
        (npf_state_init sample_store zero_stats 0 1 NPF_PROTO_IDX_UDP zero_nst).stats 0
        (npf_state_init sample_store zero_stats 0 1 NPF_PROTO_IDX_UDP zero_nst).nst true
        NPF_PROTO_IDX_UDP).stats 0).ss_ct NPF_PROTO_IDX_UDP SESSION_STATE_CLOSED = 1 ∧
    (npf_state_inspect sample_ext false
        (npf_state_set_gen_closed
          (npf_state_init sample_store zero_stats 0 1 NPF_PROTO_IDX_UDP zero_nst).stats 0
          (npf_state_init sample_store zero_stats 0 1 NPF_PROTO_IDX_UDP zero_nst).nst true
          NPF_PROTO_IDX_UDP).stats 0 plain_npc []
        (npf_state_set_gen_closed
          (npf_state_init sample_store zero_stats 0 1 NPF_PROTO_IDX_UDP zero_nst).stats 0
          (npf_state_init sample_store zero_stats 0 1 NPF_PROTO_IDX_UDP zero_nst).nst true
          NPF_PROTO_IDX_UDP).nst NPF_PROTO_IDX_UDP true).nst.nst_gen_state
      = SESSION_STATE_NONE ∧
    ((npf_state_inspect sample_ext false
        (npf_state_set_gen_closed
          (npf_state_init sample_store zero_stats 0 1 NPF_PROTO_IDX_UDP zero_nst).stats 0
          (npf_state_init sample_store zero_stats 0 1 NPF_PROTO_IDX_UDP zero_nst).nst true
          NPF_PROTO_IDX_UDP).stats 0 plain_npc []
        (npf_state_set_gen_closed
          (npf_state_init sample_store zero_stats 0 1 NPF_PROTO_IDX_UDP zero_nst).stats 0
          (npf_state_init sample_store zero_stats 0 1 NPF_PROTO_IDX_UDP zero_nst).nst true
          NPF_PROTO_IDX_UDP).nst NPF_PROTO_IDX_UDP true).stats 0).ss_ct NPF_PROTO_IDX_UDP
        SESSION_STATE_CLOSED = 0 ∧
    ((npf_state_inspect sample_ext false
        (npf_state_set_gen_closed
          (npf_state_init sample_store zero_stats 0 1 NPF_PROTO_IDX_UDP zero_nst).stats 0
          (npf_state_init sample_store zero_stats 0 1 NPF_PROTO_IDX_UDP zero_nst).nst true
          NPF_PROTO_IDX_UDP).stats 0 plain_npc []
        (npf_state_set_gen_closed
          (npf_state_init sample_store zero_stats 0 1 NPF_PROTO_IDX_UDP zero_nst).stats 0
          (npf_state_init sample_store zero_stats 0 1 NPF_PROTO_IDX_UDP zero_nst).nst true
          NPF_PROTO_IDX_UDP).nst NPF_PROTO_IDX_UDP true).stats 0).ss_ct NPF_PROTO_IDX_UDP
        SESSION_STATE_NONE = 1 ∧
    (npf_state_inspect sample_ext false
        (npf_state_set_gen_closed
          (npf_state_init sample_store zero_stats 0 1 NPF_PROTO_IDX_UDP zero_nst).stats 0
          (npf_state_init sample_store zero_stats 0 1 NPF_PROTO_IDX_UDP zero_nst).nst true
          NPF_PROTO_IDX_UDP).stats 0 plain_npc []
        (npf_state_set_gen_closed
          (npf_state_init sample_store zero_stats 0 1 NPF_PROTO_IDX_UDP zero_nst).stats 0
          (npf_state_init sample_store zero_stats 0 1 NPF_PROTO_IDX_UDP zero_nst).nst true
          NPF_PROTO_IDX_UDP).nst NPF_PROTO_IDX_UDP true).events
      = [session_event.gen_state_change SESSION_STATE_CLOSED SESSION_STATE_NONE
          NPF_PROTO_IDX_UDP] := by
  decide

/-- C3: `npf_state_set_gen` on a record, protocol class and requested state (all
recognised values, so that their buckets exist).  If the requested state is the
current one, the statistics table, the record and the changed flag are returned
as they were.  If it differs, the old state's bucket of that class is
decremented by one and the new state's bucket incremented by one (as unsigned
32-bit counters), every other generic bucket and every TCP bucket keeps its
value, the record's generic state becomes the requested state with the rest of
the record as before, and the changed flag is true. -/
theorem C3_set_gen (stats : Nat → npf_state_stats) (lcore : Nat) (nst : npf_state_t)
    (proto_idx state : Nat) (state_changed : Bool)
    (hp : proto_idx ≤ NPF_PROTO_IDX_LAST)
    (hold : nst.nst_gen_state ≤ SESSION_STATE_LAST)
    (hnew : state ≤ SESSION_STATE_LAST) :
    (state = nst.nst_gen_state →
      (npf_state_set_gen stats lcore nst proto_idx state state_changed).stats = stats ∧
      (npf_state_set_gen stats lcore nst proto_idx state state_changed).nst = nst ∧
      (npf_state_set_gen stats lcore nst proto_idx state state_changed).state_changed
        = state_changed) ∧
    (state ≠ nst.nst_gen_state →
      ((npf_state_set_gen stats lcore nst proto_idx state state_changed).stats
          lcore).ss_ct proto_idx nst.nst_gen_state
        = u32_dec ((stats lcore).ss_ct proto_idx nst.nst_gen_state) ∧
      ((npf_state_set_gen stats lcore nst proto_idx state state_changed).stats
          lcore).ss_ct proto_idx state
        = u32_inc ((stats lcore).ss_ct proto_idx state) ∧
      (∀ c p s, ¬ (c = lcore ∧ p = proto_idx ∧ s = nst.nst_gen_state) →
        ¬ (c = lcore ∧ p = proto_idx ∧ s = state) →
        ((npf_state_set_gen stats lcore nst proto_idx state state_changed).stats c).ss_ct p s
          = (stats c).ss_ct p s) ∧
      (∀ c s,
        ((npf_state_set_gen stats lcore nst proto_idx state state_changed).stats c).ss_tcp_ct s
          = (stats c).ss_tcp_ct s) ∧
      (npf_state_set_gen stats lcore nst proto_idx state state_changed).nst
        = { nst with nst_gen_state := state } ∧
      (npf_state_set_gen stats lcore nst proto_idx state state_changed).state_changed
        = true) := by
  constructor
  · intro h
    unfold npf_state_set_gen
    simp [h]
  · intro h
    have h2 : nst.nst_gen_state ≠ state := fun e => h e.symm
    unfold npf_state_set_gen
    rw [if_pos h2]
    refine ⟨?_, ?_, ?_, ?_, rfl, rfl⟩
    · rw [ss_ct_stats_inc _ _ _ _ _ _ _ hnew hp, ss_ct_stats_dec _ _ _ _ _ _ _ hold hp]
      simp [h2]
    · rw [ss_ct_stats_inc _ _ _ _ _ _ _ hnew hp, ss_ct_stats_dec _ _ _ _ _ _ _ hold hp]
      simp [h]
    · intro c p s hn1 hn2
      rw [ss_ct_stats_inc _ _ _ _ _ _ _ hnew hp, ss_ct_stats_dec _ _ _ _ _ _ _ hold hp]
      rw [if_neg hn2, if_neg hn1]
    · intro c s
      rw [ss_tcp_ct_stats_inc, ss_tcp_ct_stats_dec]

/-- Witness of C3: a UDP record in state NEW is set to ESTABLISHED on core 0
with one record counted in the NEW bucket. -/
theorem C3_set_gen_witness :
    NPF_PROTO_IDX_UDP ≤ NPF_PROTO_IDX_LAST ∧
    SESSION_STATE_NEW ≤ SESSION_STATE_LAST ∧
    SESSION_STATE_ESTABLISHED ≤ SESSION_STATE_LAST ∧
    ((npf_state_set_gen (stats_inc zero_stats 0 NPF_PROTO_IDX_UDP SESSION_STATE_NEW) 0
        { zero_nst with nst_gen_state := SESSION_STATE_NEW } NPF_PROTO_IDX_UDP
        SESSION_STATE_ESTABLISHED false).stats 0).ss_ct NPF_PROTO_IDX_UDP SESSION_STATE_NEW
      = u32_dec 1 ∧
    (npf_state_set_gen (stats_inc zero_stats 0 NPF_PROTO_IDX_UDP SESSION_STATE_NEW) 0
        { zero_nst with nst_gen_state := SESSION_STATE_NEW } NPF_PROTO_IDX_UDP
        SESSION_STATE_ESTABLISHED false).state_changed = true :=
  ⟨by decide, by decide, by decide,
    ((C3_set_gen (stats_inc zero_stats 0 NPF_PROTO_IDX_UDP SESSION_STATE_NEW) 0
      { zero_nst with nst_gen_state := SESSION_STATE_NEW } NPF_PROTO_IDX_UDP
      SESSION_STATE_ESTABLISHED false (by decide) (by decide) (by decide)).2 (by decide)).1,
    ((C3_set_gen (stats_inc zero_stats 0 NPF_PROTO_IDX_UDP SESSION_STATE_NEW) 0
      { zero_nst with nst_gen_state := SESSION_STATE_NEW } NPF_PROTO_IDX_UDP
      SESSION_STATE_ESTABLISHED false (by decide) (by decide) (by decide)).2
        (by decide)).2.2.2.2.2⟩

/-! ## The TCP driver -/

theorem inspect_tcp_eq (ext : npf_ext) (icmp_strict : Bool) (stats : Nat → npf_state_stats)
    (lcore : Nat) (npc : npf_cache_t) (nbuf : rte_mbuf) (nst : npf_state_t) (forw : Bool) :
    npf_state_inspect ext icmp_strict stats lcore npc nbuf nst NPF_PROTO_IDX_TCP forw =
      npf_state_inspect_tcp ext stats lcore npc nbuf nst
        (if forw then NPF_FLOW_FORW else NPF_FLOW_BACK) := by
  unfold npf_state_inspect
  simp

theorem inspect_tcp_success (ext : npf_ext) (stats : Nat → npf_state_stats) (lcore : Nat)
    (npc : npf_cache_t) (nbuf : rte_mbuf) (nst : npf_state_t) (flow_dir : npf_flow_dir)
    (hok : (ext.npf_state_tcp npc nbuf nst flow_dir).rc = 0)
    (hne : nst.nst_tcp_state ≠ (ext.npf_state_tcp npc nbuf nst flow_dir).new_state) :
    npf_state_inspect_tcp ext stats lcore npc nbuf nst flow_dir =
      ⟨0,
        stats_inc_tcp (stats_dec_tcp stats lcore nst.nst_tcp_state) lcore
          (ext.npf_state_tcp npc nbuf nst flow_dir).new_state,
        { nst with
          nst_tcp_win := (ext.npf_state_tcp npc nbuf nst flow_dir).nst_tcp_win
          nst_tcp_state := (ext.npf_state_tcp npc nbuf nst flow_dir).new_state
          nst_gen_state :=
            ext.npf_state_tcp2gen (ext.npf_state_tcp npc nbuf nst flow_dir).new_state },
        [session_event.tcp_state_change nst.nst_tcp_state
          (ext.npf_state_tcp npc nbuf nst flow_dir).new_state]⟩ := by
  unfold npf_state_inspect_tcp npf_state_set_tcp
  simp [hok, hne]

/-- C6: on a TCP record, when the validator reports a failure (a non-zero
code), `npf_state_inspect` returns exactly that code, `tcp_state`,
`generic_state`, the timeout reference and the whole statistics table are as
before, and no call into the session layer is made. -/
theorem C6_tcp_validator_failure (ext : npf_ext) (icmp_strict : Bool)
    (stats : Nat → npf_state_stats) (lcore : Nat) (npc : npf_cache_t) (nbuf : rte_mbuf)
    (nst : npf_state_t) (forw : Bool)
    (hfail : (ext.npf_state_tcp npc nbuf nst
      (if forw then NPF_FLOW_FORW else NPF_FLOW_BACK)).rc ≠ 0) :
    (npf_state_inspect ext icmp_strict stats lcore npc nbuf nst NPF_PROTO_IDX_TCP forw).rc
      = (ext.npf_state_tcp npc nbuf nst (if forw then NPF_FLOW_FORW else NPF_FLOW_BACK)).rc ∧
    (npf_state_inspect ext icmp_strict stats lcore npc nbuf nst NPF_PROTO_IDX_TCP
      forw).nst.nst_tcp_state = nst.nst_tcp_state ∧
    (npf_state_inspect ext icmp_strict stats lcore npc nbuf nst NPF_PROTO_IDX_TCP
      forw).nst.nst_gen_state = nst.nst_gen_state ∧
    (npf_state_inspect ext icmp_strict stats lcore npc nbuf nst NPF_PROTO_IDX_TCP
      forw).nst.nst_to = nst.nst_to ∧
    (npf_state_inspect ext icmp_strict stats lcore npc nbuf nst NPF_PROTO_IDX_TCP forw).stats
      = stats ∧
    (npf_state_inspect ext icmp_strict stats lcore npc nbuf nst NPF_PROTO_IDX_TCP forw).events
      = [] := by
  rw [inspect_tcp_eq]
  unfold npf_state_inspect_tcp
  simp only [if_neg hfail]
  simp

/-- Witness of C6: the toy validator rejects a packet without cached fields. -/
theorem C6_tcp_validator_failure_witness :
    (sample_ext.npf_state_tcp plain_npc [] zero_nst
      (if true then NPF_FLOW_FORW else NPF_FLOW_BACK)).rc ≠ 0 ∧
    (npf_state_inspect sample_ext false zero_stats 0 plain_npc [] zero_nst NPF_PROTO_IDX_TCP
      true).rc = -1 :=
  ⟨by decide,
    (C6_tcp_validator_failure sample_ext false zero_stats 0 plain_npc [] zero_nst true
      (by decide)).1⟩

/-- C7: on a TCP record in recognised state `s`, when the validator succeeds
with a recognised state `t` different from `s`, `npf_state_inspect` returns 0,
`tcp_state` becomes `t`, `generic_state` becomes the TCP-to-generic mapping of
`t`, the TCP bucket of `s` is decremented by one and the TCP bucket of `t`
incremented by one (as unsigned 32-bit counters), and every other TCP bucket
and every generic bucket keeps its value. -/
theorem C7_tcp_transition (ext : npf_ext) (icmp_strict : Bool)
    (stats : Nat → npf_state_stats) (lcore : Nat) (npc : npf_cache_t) (nbuf : rte_mbuf)
    (nst : npf_state_t) (forw : Bool)
    (hok : (ext.npf_state_tcp npc nbuf nst
      (if forw then NPF_FLOW_FORW else NPF_FLOW_BACK)).rc = 0)
    (hne : (ext.npf_state_tcp npc nbuf nst
      (if forw then NPF_FLOW_FORW else NPF_FLOW_BACK)).new_state ≠ nst.nst_tcp_state)
    (hs : nst.nst_tcp_state ≤ NPF_TCPS_LAST)
    (ht : (ext.npf_state_tcp npc nbuf nst
      (if forw then NPF_FLOW_FORW else NPF_FLOW_BACK)).new_state ≤ NPF_TCPS_LAST) :
    (npf_state_inspect ext icmp_strict stats lcore npc nbuf nst NPF_PROTO_IDX_TCP forw).rc
      = 0 ∧
    (npf_state_inspect ext icmp_strict stats lcore npc nbuf nst NPF_PROTO_IDX_TCP
      forw).nst.nst_tcp_state
      = (ext.npf_state_tcp npc nbuf nst
          (if forw then NPF_FLOW_FORW else NPF_FLOW_BACK)).new_state ∧
    (npf_state_inspect ext icmp_strict stats lcore npc nbuf nst NPF_PROTO_IDX_TCP
      forw).nst.nst_gen_state
      = ext.npf_state_tcp2gen (ext.npf_state_tcp npc nbuf nst
          (if forw then NPF_FLOW_FORW else NPF_FLOW_BACK)).new_state ∧
    ((npf_state_inspect ext icmp_strict stats lcore npc nbuf nst NPF_PROTO_IDX_TCP
      forw).stats lcore).ss_tcp_ct nst.nst_tcp_state
      = u32_dec ((stats lcore).ss_tcp_ct nst.nst_tcp_state) ∧
    ((npf_state_inspect ext icmp_strict stats lcore npc nbuf nst NPF_PROTO_IDX_TCP
      forw).stats lcore).ss_tcp_ct (ext.npf_state_tcp npc nbuf nst
          (if forw then NPF_FLOW_FORW else NPF_FLOW_BACK)).new_state
      = u32_inc ((stats lcore).ss_tcp_ct (ext.npf_state_tcp npc nbuf nst
          (if forw then NPF_FLOW_FORW else NPF_FLOW_BACK)).new_state) ∧
    (∀ c s, ¬ (c = lcore ∧ s = nst.nst_tcp_state) →
      ¬ (c = lcore ∧ s = (ext.npf_state_tcp npc nbuf nst
          (if forw then NPF_FLOW_FORW else NPF_FLOW_BACK)).new_state) →
      ((npf_state_inspect ext icmp_strict stats lcore npc nbuf nst NPF_PROTO_IDX_TCP
        forw).stats c).ss_tcp_ct s = (stats c).ss_tcp_ct s) ∧
    (∀ c p s,
      ((npf_state_inspect ext icmp_strict stats lcore npc nbuf nst NPF_PROTO_IDX_TCP
        forw).stats c).ss_ct p s = (stats c).ss_ct p s) := by
  rw [inspect_tcp_eq]
  generalize hv : ext.npf_state_tcp npc nbuf nst
    (if forw then NPF_FLOW_FORW else NPF_FLOW_BACK) = v at hok hne hs ht ⊢
  have hne2 : nst.nst_tcp_state ≠ v.new_state := fun e => hne e.symm
  rw [inspect_tcp_success ext stats lcore npc nbuf nst _ (by rw [hv]; exact hok)
    (by rw [hv]; exact hne2), hv]
  refine ⟨rfl, rfl, rfl, ?_, ?_, ?_, ?_⟩
  · show ((stats_inc_tcp (stats_dec_tcp stats lcore nst.nst_tcp_state) lcore v.new_state)
      lcore).ss_tcp_ct nst.nst_tcp_state = _
    rw [ss_tcp_ct_stats_inc_tcp _ _ _ _ _ ht, ss_tcp_ct_stats_dec_tcp _ _ _ _ _ hs]
    simp [hne2]
  · show ((stats_inc_tcp (stats_dec_tcp stats lcore nst.nst_tcp_state) lcore v.new_state)
      lcore).ss_tcp_ct v.new_state = _
    rw [ss_tcp_ct_stats_inc_tcp _ _ _ _ _ ht, ss_tcp_ct_stats_dec_tcp _ _ _ _ _ hs]
    simp [hne]
  · intro c s hn1 hn2
    show ((stats_inc_tcp (stats_dec_tcp stats lcore nst.nst_tcp_state) lcore v.new_state)
      c).ss_tcp_ct s = _
    rw [ss_tcp_ct_stats_inc_tcp _ _ _ _ _ ht, ss_tcp_ct_stats_dec_tcp _ _ _ _ _ hs]
    rw [if_neg hn2, if_neg hn1]
  · intro c p s
    show ((stats_inc_tcp (stats_dec_tcp stats lcore nst.nst_tcp_state) lcore v.new_state)
      c).ss_ct p s = _
    rw [ss_ct_stats_inc_tcp, ss_ct_stats_dec_tcp]

/-- Witness of C7: on a fresh TCP record the toy validator accepts a packet
leading to SYN-SENT. -/
theorem C7_tcp_transition_witness :
    (sample_ext.npf_state_tcp ⟨false, [NPF_TCPS_SYN_SENT]⟩ [] zero_nst
      (if true then NPF_FLOW_FORW else NPF_FLOW_BACK)).rc = 0 ∧
    (sample_ext.npf_state_tcp ⟨false, [NPF_TCPS_SYN_SENT]⟩ [] zero_nst
      (if true then NPF_FLOW_FORW else NPF_FLOW_BACK)).new_state ≠ zero_nst.nst_tcp_state ∧
    zero_nst.nst_tcp_state ≤ NPF_TCPS_LAST ∧
    (sample_ext.npf_state_tcp ⟨false, [NPF_TCPS_SYN_SENT]⟩ [] zero_nst
      (if true then NPF_FLOW_FORW else NPF_FLOW_BACK)).new_state ≤ NPF_TCPS_LAST ∧
    (npf_state_inspect sample_ext false (stats_inc_tcp zero_stats 0 NPF_TCPS_NONE) 0
      ⟨false, [NPF_TCPS_SYN_SENT]⟩ [] zero_nst NPF_PROTO_IDX_TCP true).nst.nst_tcp_state
      = (sample_ext.npf_state_tcp ⟨false, [NPF_TCPS_SYN_SENT]⟩ [] zero_nst
          (if true then NPF_FLOW_FORW else NPF_FLOW_BACK)).new_state :=
  ⟨by decide, by decide, by decide, by decide,
    (C7_tcp_transition sample_ext false (stats_inc_tcp zero_stats 0 NPF_TCPS_NONE) 0
      ⟨false, [NPF_TCPS_SYN_SENT]⟩ [] zero_nst true (by decide) (by decide) (by decide)
      (by decide)).2.1⟩

/-! ## The ICMP direction guard -/

theorem inspect_icmp_eq (ext : npf_ext) (icmp_strict : Bool) (stats : Nat → npf_state_stats)
    (lcore : Nat) (npc : npf_cache_t) (nbuf : rte_mbuf) (nst : npf_state_t) (forw : Bool) :
    npf_state_inspect ext icmp_strict stats lcore npc nbuf nst NPF_PROTO_IDX_ICMP forw =
      npf_state_inspect_icmp ext icmp_strict stats lcore npc nst
        (if forw then NPF_FLOW_FORW else NPF_FLOW_BACK) := by
  unfold npf_state_inspect
  simp

/-- C9: on an ICMP record `npf_state_inspect` returns `-NPF_RC_ICMP_ECHO` if and
only if (strict mode is enabled or the record's generic state is NONE) and
exactly one of "direction is forward" and "packet is an echo request" holds; in
every other case it returns 0.  (`NPF_RC_ICMP_ECHO` is a non-zero return-code
ordinal.) -/
theorem C9_icmp_guard_rc (ext : npf_ext) (icmp_strict : Bool)
    (stats : Nat → npf_state_stats) (lcore : Nat) (npc : npf_cache_t) (nbuf : rte_mbuf)
    (nst : npf_state_t) (forw : Bool) (hrc : 0 < ext.NPF_RC_ICMP_ECHO) :
    ((npf_state_inspect ext icmp_strict stats lcore npc nbuf nst NPF_PROTO_IDX_ICMP forw).rc
        = -(ext.NPF_RC_ICMP_ECHO : Int) ↔
      ((icmp_strict = true ∨ nst.nst_gen_state = SESSION_STATE_NONE) ∧
        ((forw = true ∧ npc.npc_icmp_echo_req = false) ∨
          (forw = false ∧ npc.npc_icmp_echo_req = true)))) ∧
    (¬ ((icmp_strict = true ∨ nst.nst_gen_state = SESSION_STATE_NONE) ∧
        ((forw = true ∧ npc.npc_icmp_echo_req = false) ∨
          (forw = false ∧ npc.npc_icmp_echo_req = true))) →
      (npf_state_inspect ext icmp_strict stats lcore npc nbuf nst NPF_PROTO_IDX_ICMP forw).rc
        = 0) := by
  rw [inspect_icmp_eq]
  have hpos : (0 : Int) < (ext.NPF_RC_ICMP_ECHO : Int) := by exact_mod_cast hrc
  have hne : -(ext.NPF_RC_ICMP_ECHO : Int) ≠ 0 := by omega
  have hne2 : (0 : Int) ≠ -(ext.NPF_RC_ICMP_ECHO : Int) := by omega
  unfold npf_state_inspect_icmp
  cases icmp_strict <;> cases forw <;> cases hreq : npc.npc_icmp_echo_req <;>
    by_cases hst : nst.nst_gen_state = SESSION_STATE_NONE <;>
    simp [hst, hne, hne2]

/-- Witness of C9: the sample collaborators have `NPF_RC_ICMP_ECHO = 5`; a
forward packet that is not an echo request on a fresh record is rejected. -/
theorem C9_icmp_guard_rc_witness :
    0 < sample_ext.NPF_RC_ICMP_ECHO ∧
    (npf_state_inspect sample_ext false zero_stats 0 plain_npc [] zero_nst
      NPF_PROTO_IDX_ICMP true).rc = -5 :=
  ⟨by decide,
    ((C9_icmp_guard_rc sample_ext false zero_stats 0 plain_npc [] zero_nst true
      (by decide)).1).2 ⟨Or.inr rfl, Or.inl ⟨rfl, rfl⟩⟩⟩

/-- C10: whenever `npf_state_inspect` rejects a packet on an ICMP record (the
direction guard is the only source of a non-zero return code there), the record
is returned as it was (generic state, timeout reference and every other field),
the statistics table is as before and no call into the session layer is
made. -/
theorem C10_icmp_reject_untouched (ext : npf_ext) (icmp_strict : Bool)
    (stats : Nat → npf_state_stats) (lcore : Nat) (npc : npf_cache_t) (nbuf : rte_mbuf)
    (nst : npf_state_t) (forw : Bool)
    (hrej : (npf_state_inspect ext icmp_strict stats lcore npc nbuf nst NPF_PROTO_IDX_ICMP
      forw).rc ≠ 0) :
    (npf_state_inspect ext icmp_strict stats lcore npc nbuf nst NPF_PROTO_IDX_ICMP forw).nst
      = nst ∧
    (npf_state_inspect ext icmp_strict stats lcore npc nbuf nst NPF_PROTO_IDX_ICMP forw).stats
      = stats ∧
    (npf_state_inspect ext icmp_strict stats lcore npc nbuf nst NPF_PROTO_IDX_ICMP forw).events
      = [] := by
  rw [inspect_icmp_eq] at hrej ⊢
  unfold npf_state_inspect_icmp at hrej ⊢
  by_cases hz : ext.NPF_RC_ICMP_ECHO = 0 <;>
    cases icmp_strict <;> cases forw <;> cases hreq : npc.npc_icmp_echo_req <;>
    by_cases hst : nst.nst_gen_state = SESSION_STATE_NONE <;>
    simp_all

/-- Witness of C10: a backward echo request on a fresh ICMP record is
rejected. -/
theorem C10_icmp_reject_untouched_witness :
    (npf_state_inspect sample_ext false zero_stats 0 ⟨true, []⟩ [] zero_nst
      NPF_PROTO_IDX_ICMP false).rc ≠ 0 ∧
    (npf_state_inspect sample_ext false zero_stats 0 ⟨true, []⟩ [] zero_nst
      NPF_PROTO_IDX_ICMP false).events = [] :=
  ⟨by decide,
    (C10_icmp_reject_untouched sample_ext false zero_stats 0 ⟨true, []⟩ [] zero_nst false
      (by decide)).2.2⟩

/-! ## Counting live sessions -/

theorem countP_set_add {α : Type} (q : α → Bool) :
    ∀ (l : List α) (i : Nat) (a x : α), l[i]? = some a →
      (l.set i x).countP q + (if q a then 1 else 0) =
        l.countP q + (if q x then 1 else 0) := by
  intro l
  induction l with
  | nil => intro i a x h; simp at h
  | cons b t ih =>
    intro i a x h
    cases i with
    | zero =>
      simp only [List.getElem?_cons_zero, Option.some.injEq] at h
      subst h
      simp only [List.set_cons_zero, List.countP_cons]
      omega
    | succ j =>
      simp only [List.getElem?_cons_succ] at h
      have := ih j a x h
      simp only [List.set_cons_succ, List.countP_cons]
      omega

theorem countP_eraseIdx_add {α : Type} (q : α → Bool) :
    ∀ (l : List α) (i : Nat) (a : α), l[i]? = some a →
      (l.eraseIdx i).countP q + (if q a then 1 else 0) = l.countP q := by
  intro l
  induction l with
  | nil => intro i a h; simp at h
  | cons b t ih =>
    intro i a h
    cases i with
    | zero =>
      simp only [List.getElem?_cons_zero, Option.some.injEq] at h
      subst h
      simp only [List.eraseIdx_cons_zero, List.countP_cons]
    | succ j =>
      simp only [List.getElem?_cons_succ] at h
      have := ih j a h
      simp only [List.eraseIdx_cons_succ, List.countP_cons]
      omega

theorem countP_lt_succ {α : Type} (f : α → Bool) (g : α → Nat) (n : Nat) (l : List α) :
    l.countP (fun x => f x && decide (g x < n + 1)) =
      l.countP (fun x => f x && decide (g x < n)) +
        l.countP (fun x => f x && decide (g x = n)) := by
  induction l with
  | nil => simp
  | cons b t ih =>
    simp only [List.countP_cons, ih]
    cases hf : f b
    · simp
    · by_cases h1 : g b < n
      · have h2 : g b < n + 1 := by omega
        have h3 : g b ≠ n := by omega
        simp [h1, h2, h3]
        omega
      · by_cases h3 : g b = n
        · have h2 : g b < n + 1 := by omega
          simp [h1, h2, h3]
          omega
        · have h2 : ¬ g b < n + 1 := by omega
          simp [h1, h2, h3]

theorem live_in_state_eq (l : List session) (p s : Nat) :
    live_in_state l p s =
      l.countP (fun se => decide (se.s_proto_idx = p) && decide (cur_state se = s)) := by
  unfold live_in_state
  apply List.countP_congr
  intro x _
  simp

theorem sum_live_in_state (l : List session) (p : Nat) :
    ∀ n, ((List.range n).map (live_in_state l p)).sum =
      l.countP (fun se => decide (se.s_proto_idx = p) && decide (cur_state se < n)) := by
  intro n
  induction n with
  | zero => simp
  | succ n ih =>
    rw [List.range_succ, List.map_append, List.sum_append, ih, countP_lt_succ]
    simp [live_in_state_eq]

theorem bucket_sum_eq_live_count (lcore : Nat) (e : engine) (h : engine_consistent lcore e)
    (p : Nat) (hp : p ≤ NPF_PROTO_IDX_LAST) :
    bucket_sum (e.stats lcore) p = live_count e.sessions p := by
  unfold bucket_sum
  have hmap : (List.range (last_state p + 1)).map (bucket (e.stats lcore) p) =
      (List.range (last_state p + 1)).map (live_in_state e.sessions p) := by
    apply List.map_congr_left
    intro s hs
    have : s ≤ last_state p := by
      have := List.mem_range.mp hs
      omega
    exact h.2 p s hp this
  rw [hmap, sum_live_in_state]
  unfold live_count
  apply List.countP_congr
  intro se hse
  by_cases hpp : se.s_proto_idx = p
  · have := h.1 se hse (by rw [hpp]; exact hp)
    rw [hpp] at this
    have h2 : cur_state se < last_state p + 1 := by omega
    simp [hpp, h2]
  · simp [hpp]

/-! ## Buckets under the state-set primitives -/

theorem stats_dec_unrecognised (stats : Nat → npf_state_stats) (lcore q a : Nat)
    (h : ¬ (a ≤ SESSION_STATE_LAST ∧ q ≤ NPF_PROTO_IDX_LAST)) :
    stats_dec stats lcore q a = stats := by
  unfold stats_dec
  rw [if_neg h]

theorem stats_inc_unrecognised (stats : Nat → npf_state_stats) (lcore q a : Nat)
    (h : ¬ (a ≤ SESSION_STATE_LAST ∧ q ≤ NPF_PROTO_IDX_LAST)) :
    stats_inc stats lcore q a = stats := by
  unfold stats_inc
  rw [if_neg h]

theorem bucket_set_gen (stats : Nat → npf_state_stats) (lcore : Nat) (nst : npf_state_t)
    (q b : Nat) (flag : Bool) (hq : q ≠ NPF_PROTO_IDX_TCP)
    (ha : q ≤ NPF_PROTO_IDX_LAST → nst.nst_gen_state ≤ SESSION_STATE_LAST)
    (hb : b ≤ SESSION_STATE_LAST) (p s : Nat) :
    bucket ((npf_state_set_gen stats lcore nst q b flag).stats lcore) p s =
      if q ≤ NPF_PROTO_IDX_LAST ∧ b ≠ nst.nst_gen_state then
        if p = q ∧ s = b then u32_inc (bucket (stats lcore) p s)
        else if p = q ∧ s = nst.nst_gen_state then u32_dec (bucket (stats lcore) p s)
        else bucket (stats lcore) p s
      else bucket (stats lcore) p s := by
  unfold npf_state_set_gen
  by_cases heq : nst.nst_gen_state = b
  · have : ¬ (q ≤ NPF_PROTO_IDX_LAST ∧ b ≠ nst.nst_gen_state) := fun h => h.2 heq.symm
    rw [if_neg this]
    simp [heq]
  · rw [if_pos heq]
    have hne : b ≠ nst.nst_gen_state := fun e => heq e.symm
    by_cases hql : q ≤ NPF_PROTO_IDX_LAST
    · rw [if_pos ⟨hql, hne⟩]
      unfold bucket
      by_cases hp : p = NPF_PROTO_IDX_TCP
      · have hpq : p ≠ q := fun e => hq (e ▸ hp)
        simp only [hp, if_true]
        rw [ss_tcp_ct_stats_inc, ss_tcp_ct_stats_dec]
        have hq2 : ¬ NPF_PROTO_IDX_TCP = q := fun e => hq e.symm
        simp [hq2]
      · simp only [hp, if_false]
        rw [ss_ct_stats_inc _ _ _ _ _ _ _ hb hql, ss_ct_stats_dec _ _ _ _ _ _ _ (ha hql) hql]
        by_cases h1 : p = q ∧ s = b
        · have h2 : ¬ (p = q ∧ s = nst.nst_gen_state) := fun h => hne (h1.2 ▸ h.2)
          simp [h1, h2, hne]
        · by_cases h2 : p = q ∧ s = nst.nst_gen_state
          · simp [h1, h2, heq]
          · simp [h1, h2]
    · have hn : ¬ (q ≤ NPF_PROTO_IDX_LAST ∧ b ≠ nst.nst_gen_state) := fun h => hql h.1
      rw [if_neg hn]
      simp only []
      rw [stats_dec_unrecognised _ _ _ _ (fun h => hql h.2),
        stats_inc_unrecognised _ _ _ _ (fun h => hql h.2)]

theorem gen_state_set_gen (stats : Nat → npf_state_stats) (lcore : Nat) (nst : npf_state_t)
    (q b : Nat) (flag : Bool) :
    (npf_state_set_gen stats lcore nst q b flag).nst.nst_gen_state = b ∧
    (npf_state_set_gen stats lcore nst q b flag).nst.nst_tcp_state = nst.nst_tcp_state := by
  unfold npf_state_set_gen
  by_cases heq : nst.nst_gen_state = b
  · simp [heq]
  · simp [heq]

theorem bucket_set_tcp (ext : npf_ext) (stats : Nat → npf_state_stats) (lcore : Nat)
    (nst : npf_state_t) (b : Nat) (flag : Bool)
    (ha : nst.nst_tcp_state ≤ NPF_TCPS_LAST) (hb : b ≤ NPF_TCPS_LAST) (p s : Nat) :
    bucket ((npf_state_set_tcp ext stats lcore nst b flag).stats lcore) p s =
      if b ≠ nst.nst_tcp_state then
        if p = NPF_PROTO_IDX_TCP ∧ s = b then u32_inc (bucket (stats lcore) p s)
        else if p = NPF_PROTO_IDX_TCP ∧ s = nst.nst_tcp_state then
          u32_dec (bucket (stats lcore) p s)
        else bucket (stats lcore) p s
      else bucket (stats lcore) p s := by
  unfold npf_state_set_tcp
  by_cases heq : nst.nst_tcp_state = b
  · have : ¬ (b ≠ nst.nst_tcp_state) := fun h => h heq.symm
    rw [if_neg this]
    simp [heq]
  · rw [if_pos heq]
    have hne : b ≠ nst.nst_tcp_state := fun e => heq e.symm
    rw [if_pos hne]
    unfold bucket
    by_cases hp : p = NPF_PROTO_IDX_TCP
    · simp only [hp, if_true, true_and]
      rw [ss_tcp_ct_stats_inc_tcp _ _ _ _ _ hb, ss_tcp_ct_stats_dec_tcp _ _ _ _ _ ha]
      by_cases h1 : s = b
      · have h2 : ¬ s = nst.nst_tcp_state := fun h => hne (h1 ▸ h)
        simp [h1, h2, hne]
      · by_cases h2 : s = nst.nst_tcp_state
        · simp [h1, h2, heq]
        · simp [h1, h2]
    · simp only [hp, if_false, false_and]
      rw [ss_ct_stats_inc_tcp, ss_ct_stats_dec_tcp]

theorem tcp_state_set_tcp (ext : npf_ext) (stats : Nat → npf_state_stats) (lcore : Nat)
    (nst : npf_state_t) (b : Nat) (flag : Bool) :
    (npf_state_set_tcp ext stats lcore nst b flag).nst.nst_tcp_state = b := by
  unfold npf_state_set_tcp
  by_cases heq : nst.nst_tcp_state = b
  · simp [heq]
  · simp [heq]

/-! ## Consistency is kept when one session changes state -/

theorem consistent_put (lcore : Nat) (e : engine) (i : Nat) (se : session)
    (nst1 : npf_state_t) (stats1 : Nat → npf_state_stats)
    (hinv : engine_consistent lcore e) (hlen : e.sessions.length < UINT32_MOD)
    (hi : e.sessions[i]? = some se)
    (hrange : se.s_proto_idx ≤ NPF_PROTO_IDX_LAST →
      cur_state ⟨se.s_proto_idx, nst1⟩ ≤ last_state se.s_proto_idx)
    (hstats : ∀ p s, p ≤ NPF_PROTO_IDX_LAST → s ≤ last_state p →
      bucket (stats1 lcore) p s =
        if se.s_proto_idx ≤ NPF_PROTO_IDX_LAST ∧
            cur_state ⟨se.s_proto_idx, nst1⟩ ≠ cur_state se then
          if p = se.s_proto_idx ∧ s = cur_state ⟨se.s_proto_idx, nst1⟩ then
            u32_inc (bucket (e.stats lcore) p s)
          else if p = se.s_proto_idx ∧ s = cur_state se then
            u32_dec (bucket (e.stats lcore) p s)
          else bucket (e.stats lcore) p s
        else bucket (e.stats lcore) p s) :
    engine_consistent lcore (put_state e stats1 i se nst1) := by
  constructor
  · intro x hx hxp
    rcases List.mem_or_eq_of_mem_set hx with h | h
    · exact hinv.1 x h hxp
    · subst h
      exact hrange hxp
  · intro p s hp hs
    have hb := hstats p s hp hs
    have hl := hinv.2 p s hp hs
    have hc := countP_set_add
      (fun x : session => decide (x.s_proto_idx = p ∧ cur_state x = s))
      e.sessions i se ⟨se.s_proto_idx, nst1⟩ hi
    have hle : (e.sessions.set i ⟨se.s_proto_idx, nst1⟩).countP
        (fun x : session => decide (x.s_proto_idx = p ∧ cur_state x = s))
        ≤ e.sessions.length := by
      have := List.countP_le_length
        (fun x : session => decide (x.s_proto_idx = p ∧ cur_state x = s))
        (l := e.sessions.set i ⟨se.s_proto_idx, nst1⟩)
      simpa using this
    show bucket (stats1 lcore) p s =
      live_in_state (e.sessions.set i ⟨se.s_proto_idx, nst1⟩) p s
    unfold live_in_state at hl ⊢
    rw [hb, hl]
    generalize List.countP (fun x : session => decide (x.s_proto_idx = p ∧ cur_state x = s))
      (e.sessions.set i ⟨se.s_proto_idx, nst1⟩) = L1 at hc hle ⊢
    generalize List.countP (fun x : session => decide (x.s_proto_idx = p ∧ cur_state x = s))
      e.sessions = L0 at hc ⊢
    unfold u32_inc u32_dec
    simp only [UINT32_MOD] at hlen ⊢
    by_cases hA : se.s_proto_idx = p
    · subst hA
      by_cases hB : cur_state se = s
      · subst hB
        by_cases hB1 : cur_state ⟨se.s_proto_idx, nst1⟩ = cur_state se
        · simp [hB1] at hc ⊢
          omega
        · have hB2 : ¬ cur_state se = cur_state ⟨se.s_proto_idx, nst1⟩ :=
            fun h => hB1 h.symm
          simp [hB1, hB2, hp] at hc ⊢
          omega
      · by_cases hB1 : cur_state ⟨se.s_proto_idx, nst1⟩ = s
        · subst hB1
          have hB2 : ¬ cur_state ⟨se.s_proto_idx, nst1⟩ = cur_state se :=
            fun h => hB h.symm
          simp [hB, hB2, hp] at hc ⊢
          omega
        · have hB2 : ¬ s = cur_state ⟨se.s_proto_idx, nst1⟩ := fun h => hB1 h.symm
          have hB3 : ¬ s = cur_state se := fun h => hB h.symm
          simp [hB, hB1, hB2, hB3] at hc ⊢
          omega
    · have hA2 : ¬ p = se.s_proto_idx := fun h => hA h.symm
      simp [hA, hA2] at hc ⊢
      omega

theorem consistent_same (lcore : Nat) (e : engine) (i : Nat) (se : session)
    (nst1 : npf_state_t)
    (hinv : engine_consistent lcore e) (hlen : e.sessions.length < UINT32_MOD)
    (hi : e.sessions[i]? = some se)
    (hsame : cur_state ⟨se.s_proto_idx, nst1⟩ = cur_state se) :
    engine_consistent lcore (put_state e e.stats i se nst1) := by
  apply consistent_put lcore e i se nst1 e.stats hinv hlen hi
  · intro hp
    rw [hsame]
    exact hinv.1 se (List.getElem?_mem hi) hp
  · intro p s _ _
    simp [hsame]

theorem consistent_set_gen (lcore : Nat) (e : engine) (i : Nat) (se : session)
    (nst1 : npf_state_t) (b : Nat) (flag : Bool)
    (hinv : engine_consistent lcore e) (hlen : e.sessions.length < UINT32_MOD)
    (hi : e.sessions[i]? = some se)
    (hq : se.s_proto_idx ≠ NPF_PROTO_IDX_TCP) (hb : b ≤ SESSION_STATE_LAST)
    (hsame : nst1.nst_gen_state = se.s_state.nst_gen_state) :
    engine_consistent lcore
      (put_state e (npf_state_set_gen e.stats lcore nst1 se.s_proto_idx b flag).stats i se
        (npf_state_set_gen e.stats lcore nst1 se.s_proto_idx b flag).nst) := by
  have hcur : cur_state se = nst1.nst_gen_state := by
    unfold cur_state; rw [if_neg hq, hsame]
  have hcur1 : cur_state ⟨se.s_proto_idx,
      (npf_state_set_gen e.stats lcore nst1 se.s_proto_idx b flag).nst⟩ = b := by
    unfold cur_state
    simp only [if_neg hq]
    exact (gen_state_set_gen _ _ _ _ _ _).1
  have hlast : last_state se.s_proto_idx = SESSION_STATE_LAST := by
    unfold last_state; rw [if_neg hq]
  have ha : se.s_proto_idx ≤ NPF_PROTO_IDX_LAST → nst1.nst_gen_state ≤ SESSION_STATE_LAST := by
    intro hp
    have := hinv.1 se (List.getElem?_mem hi) hp
    rw [hcur, hlast] at this
    exact this
  apply consistent_put lcore e i se _ _ hinv hlen hi
  · intro _
    rw [hcur1, hlast]
    exact hb
  · intro p s _ _
    rw [bucket_set_gen _ _ _ _ _ _ hq ha hb, hcur1, hcur]

theorem consistent_set_tcp (ext : npf_ext) (lcore : Nat) (e : engine) (i : Nat)
    (se : session) (nst1 : npf_state_t) (b : Nat) (flag : Bool)
    (hinv : engine_consistent lcore e) (hlen : e.sessions.length < UINT32_MOD)
    (hi : e.sessions[i]? = some se)
    (hq : se.s_proto_idx = NPF_PROTO_IDX_TCP) (hb : b ≤ NPF_TCPS_LAST)
    (hsame : nst1.nst_tcp_state = se.s_state.nst_tcp_state) :
    engine_consistent lcore
      (put_state e (npf_state_set_tcp ext e.stats lcore nst1 b flag).stats i se
        (npf_state_set_tcp ext e.stats lcore nst1 b flag).nst) := by
  have hcur : cur_state se = nst1.nst_tcp_state := by
    unfold cur_state; rw [if_pos hq, hsame]
  have hcur1 : cur_state ⟨se.s_proto_idx,
      (npf_state_set_tcp ext e.stats lcore nst1 b flag).nst⟩ = b := by
    unfold cur_state
    simp only [if_pos hq]
    exact tcp_state_set_tcp _ _ _ _ _ _
  have hlast : last_state se.s_proto_idx = NPF_TCPS_LAST := by
    unfold last_state; rw [if_pos hq]
  have hpl : se.s_proto_idx ≤ NPF_PROTO_IDX_LAST := by rw [hq]; decide
  have ha : nst1.nst_tcp_state ≤ NPF_TCPS_LAST := by
    have := hinv.1 se (List.getElem?_mem hi) hpl
    rw [hcur, hlast] at this
    exact this
  apply consistent_put lcore e i se _ _ hinv hlen hi
  · intro _
    rw [hcur1, hlast]
    exact hb
  · intro p s _ _
    rw [bucket_set_tcp _ _ _ _ _ _ ha hb, hcur1, hcur, hq]
    simp [hpl]

theorem generic_fsm_recognised (a : Nat) (d : npf_flow_dir) :
    npf_generic_fsm a d ≤ SESSION_STATE_LAST := by
  unfold npf_generic_fsm
  split
  · cases d <;> decide
  · split
    · cases d <;> decide
    · split
      · cases d <;> decide
      · decide

/-! ## Consistency under creation and teardown -/

theorem bucket_inc_class (stats : Nat → npf_state_stats) (lcore q b : Nat)
    (hb : b ≤ last_state q) (p s : Nat) :
    bucket ((if q = NPF_PROTO_IDX_TCP then stats_inc_tcp stats lcore b
      else stats_inc stats lcore q b) lcore) p s =
      if q ≤ NPF_PROTO_IDX_LAST ∧ p = q ∧ s = b then u32_inc (bucket (stats lcore) p s)
      else bucket (stats lcore) p s := by
  unfold last_state at hb
  unfold bucket
  by_cases hq : q = NPF_PROTO_IDX_TCP
  · simp only [hq, if_true] at hb ⊢
    by_cases hp : p = NPF_PROTO_IDX_TCP
    · simp only [hp, if_true]
      rw [ss_tcp_ct_stats_inc_tcp _ _ _ _ _ hb]
      simp
    · simp only [hp, if_false]
      rw [ss_ct_stats_inc_tcp]
      simp [hp]
  · simp only [hq, if_false] at hb ⊢
    by_cases hql : q ≤ NPF_PROTO_IDX_LAST
    · by_cases hp : p = NPF_PROTO_IDX_TCP
      · have hpq : ¬ NPF_PROTO_IDX_TCP = q := fun h => hq h.symm
        simp only [hp, if_true]
        rw [ss_tcp_ct_stats_inc]
        simp [hpq]
      · simp only [hp, if_false]
        rw [ss_ct_stats_inc _ _ _ _ _ _ _ hb hql]
        simp [hql]
    · rw [stats_inc_unrecognised _ _ _ _ (fun h => hql h.2)]
      simp [hql]

theorem bucket_dec_class (stats : Nat → npf_state_stats) (lcore q b : Nat)
    (hb : q ≤ NPF_PROTO_IDX_LAST → b ≤ last_state q) (p s : Nat) :
    bucket ((if q = NPF_PROTO_IDX_TCP then stats_dec_tcp stats lcore b
      else stats_dec stats lcore q b) lcore) p s =
      if q ≤ NPF_PROTO_IDX_LAST ∧ p = q ∧ s = b then u32_dec (bucket (stats lcore) p s)
      else bucket (stats lcore) p s := by
  unfold last_state at hb
  unfold bucket
  by_cases hq : q = NPF_PROTO_IDX_TCP
  · have hb2 : b ≤ NPF_TCPS_LAST := by
      have := hb (by rw [hq]; decide)
      simpa [hq] using this
    simp only [hq, if_true]
    by_cases hp : p = NPF_PROTO_IDX_TCP
    · simp only [hp, if_true]
      rw [ss_tcp_ct_stats_dec_tcp _ _ _ _ _ hb2]
      simp
    · simp only [hp, if_false]
      rw [ss_ct_stats_dec_tcp]
      simp [hp]
  · simp only [hq, if_false] at hb ⊢
    by_cases hql : q ≤ NPF_PROTO_IDX_LAST
    · by_cases hp : p = NPF_PROTO_IDX_TCP
      · have hpq : ¬ NPF_PROTO_IDX_TCP = q := fun h => hq h.symm
        simp only [hp, if_true]
        rw [ss_tcp_ct_stats_dec]
        simp [hpq]
      · simp only [hp, if_false]
        rw [ss_ct_stats_dec _ _ _ _ _ _ _ (hb hql) hql]
        simp [hql]
    · rw [stats_dec_unrecognised _ _ _ _ (fun h => hql h.2)]
      simp [hql]

theorem init_success_form (store : npf_timeout_store) (stats : Nat → npf_state_stats)
    (lcore vrfid q : Nat) (nst0 : npf_state_t)
    (hok : (npf_state_init store stats lcore vrfid q nst0).ok = true) :
    (npf_state_init store stats lcore vrfid q nst0).stats =
      (if q = NPF_PROTO_IDX_TCP then stats_inc_tcp stats lcore NPF_TCPS_NONE
        else stats_inc stats lcore q SESSION_STATE_NONE) ∧
    cur_state ⟨q, (npf_state_init store stats lcore vrfid q nst0).nst⟩ = 0 := by
  unfold npf_state_init at hok ⊢
  cases hv : store.vrf_to vrfid with
  | none => simp [hv] at hok
  | some tmo =>
    simp only [hv]
    unfold cur_state
    by_cases hq : q = NPF_PROTO_IDX_TCP
    · simp [hq]
    · simp [hq]

theorem consistent_init (lcore : Nat) (e : engine) (vrfid q : Nat) (nst0 : npf_state_t)
    (hinv : engine_consistent lcore e) (hlen : e.sessions.length + 1 < UINT32_MOD)
    (hok : (npf_state_init e.store e.stats lcore vrfid q nst0).ok = true) :
    engine_consistent lcore
      ⟨(npf_state_init e.store e.stats lcore vrfid q nst0).store,
        (npf_state_init e.store e.stats lcore vrfid q nst0).stats,
        e.sessions ++ [⟨q, (npf_state_init e.store e.stats lcore vrfid q nst0).nst⟩]⟩ := by
  obtain ⟨hst, hcur⟩ := init_success_form e.store e.stats lcore vrfid q nst0 hok
  constructor
  · intro x hx hxp
    simp only [List.mem_append, List.mem_singleton] at hx
    rcases hx with h | h
    · exact hinv.1 x h hxp
    · subst h
      rw [hcur]
      exact Nat.zero_le _
  · intro p s hp hs
    show bucket ((npf_state_init e.store e.stats lcore vrfid q nst0).stats lcore) p s =
      live_in_state
        (e.sessions ++ [⟨q, (npf_state_init e.store e.stats lcore vrfid q nst0).nst⟩]) p s
    have h0 : (0 : Nat) ≤ last_state q := Nat.zero_le _
    have hb : bucket ((npf_state_init e.store e.stats lcore vrfid q nst0).stats lcore) p s =
        if q ≤ NPF_PROTO_IDX_LAST ∧ p = q ∧ s = 0 then u32_inc (bucket (e.stats lcore) p s)
        else bucket (e.stats lcore) p s := by
      rw [hst]
      exact bucket_inc_class e.stats lcore q 0 h0 p s
    have hl := hinv.2 p s hp hs
    have hle : live_in_state e.sessions p s ≤ e.sessions.length := by
      unfold live_in_state
      exact List.countP_le_length _
    rw [hb, hl]
    unfold live_in_state at hle ⊢
    rw [List.countP_append]
    simp only [List.countP_cons, List.countP_nil, hcur]
    generalize List.countP (fun x : session => decide (x.s_proto_idx = p ∧ cur_state x = s))
      e.sessions = L0 at hle ⊢
    unfold u32_inc
    simp only [UINT32_MOD] at hlen ⊢
    by_cases hA : q = p
    · subst hA
      by_cases hB : s = 0
      · subst hB
        simp [hp]
        omega
      · have hB2 : ¬ 0 = s := fun h => hB h.symm
        simp [hB, hB2]
    · have hA2 : ¬ p = q := fun h => hA h.symm
      simp [hA, hA2]

theorem consistent_destroy (lcore : Nat) (e : engine) (i : Nat) (se : session)
    (hinv : engine_consistent lcore e) (hlen : e.sessions.length < UINT32_MOD)
    (hi : e.sessions[i]? = some se) :
    engine_consistent lcore
      ⟨(npf_state_destroy e.store e.stats lcore se.s_state se.s_proto_idx).store,
        (npf_state_destroy e.store e.stats lcore se.s_state se.s_proto_idx).stats,
        e.sessions.eraseIdx i⟩ := by
  have hst : (npf_state_destroy e.store e.stats lcore se.s_state se.s_proto_idx).stats =
      (if se.s_proto_idx = NPF_PROTO_IDX_TCP then
        stats_dec_tcp e.stats lcore (cur_state se)
        else stats_dec e.stats lcore se.s_proto_idx (cur_state se)) := by
    unfold npf_state_destroy cur_state
    cases se.s_state.nst_to <;> by_cases hq : se.s_proto_idx = NPF_PROTO_IDX_TCP <;> simp [hq]
  constructor
  · intro x hx hxp
    exact hinv.1 x (List.mem_of_mem_eraseIdx hx) hxp
  · intro p s hp hs
    show bucket ((npf_state_destroy e.store e.stats lcore se.s_state se.s_proto_idx).stats
      lcore) p s = live_in_state (e.sessions.eraseIdx i) p s
    have hb := bucket_dec_class e.stats lcore se.s_proto_idx (cur_state se)
      (fun h => hinv.1 se (List.getElem?_mem hi) h) p s
    have hl := hinv.2 p s hp hs
    have hc := countP_eraseIdx_add
      (fun x : session => decide (x.s_proto_idx = p ∧ cur_state x = s)) e.sessions i se hi
    have hle : live_in_state e.sessions p s ≤ e.sessions.length := by
      unfold live_in_state
      exact List.countP_le_length _
    rw [hst, hb, hl]
    unfold live_in_state at hle ⊢
    generalize List.countP (fun x : session => decide (x.s_proto_idx = p ∧ cur_state x = s))
      (e.sessions.eraseIdx i) = L1 at hc ⊢
    generalize List.countP (fun x : session => decide (x.s_proto_idx = p ∧ cur_state x = s))
      e.sessions = L0 at hc hle ⊢
    unfold u32_dec
    simp only [UINT32_MOD] at hlen ⊢
    by_cases hA : se.s_proto_idx = p
    · subst hA
      by_cases hB : cur_state se = s
      · subst hB
        simp [hp] at hc ⊢
        omega
      · have hB2 : ¬ s = cur_state se := fun h => hB h.symm
        simp [hB, hB2] at hc ⊢
        omega
    · have hA2 : ¬ p = se.s_proto_idx := fun h => hA h.symm
      simp [hA, hA2] at hc ⊢
      omega

/-! ## Consistency along a run of calls -/

theorem inspect_icmp_form (ext : npf_ext) (icmp_strict : Bool)
    (stats : Nat → npf_state_stats) (lcore : Nat) (npc : npf_cache_t) (nst : npf_state_t)
    (flow_dir : npf_flow_dir) :
    ((npf_state_inspect_icmp ext icmp_strict stats lcore npc nst flow_dir).stats = stats ∧
      (npf_state_inspect_icmp ext icmp_strict stats lcore npc nst flow_dir).nst = nst) ∨
    ((npf_state_inspect_icmp ext icmp_strict stats lcore npc nst flow_dir).stats =
        (npf_state_set_gen stats lcore nst NPF_PROTO_IDX_ICMP
          (npf_generic_fsm nst.nst_gen_state flow_dir) false).stats ∧
      (npf_state_inspect_icmp ext icmp_strict stats lcore npc nst flow_dir).nst =
        (npf_state_set_gen stats lcore nst NPF_PROTO_IDX_ICMP
          (npf_generic_fsm nst.nst_gen_state flow_dir) false).nst) := by
  unfold npf_state_inspect_icmp
  simp only []
  generalize (if ((icmp_strict || nst.nst_gen_state == SESSION_STATE_NONE) &&
      xor (flow_dir == NPF_FLOW_FORW) npc.npc_icmp_echo_req) = true then
      -(ext.NPF_RC_ICMP_ECHO : Int) else 0) = rc
  by_cases h : rc = 0
  · right; simp [h]
  · left; simp [h]

theorem consistent_inspect (ext : npf_ext) (icmp_strict : Bool) (lcore : Nat) (e : engine)
    (i : Nat) (se : session) (npc : npf_cache_t) (nbuf : rte_mbuf) (forw : Bool)
    (hval : ∀ npc nbuf nst fd, (ext.npf_state_tcp npc nbuf nst fd).rc = 0 →
      (ext.npf_state_tcp npc nbuf nst fd).new_state ≤ NPF_TCPS_LAST)
    (hinv : engine_consistent lcore e) (hlen : e.sessions.length < UINT32_MOD)
    (hi : e.sessions[i]? = some se) :
    engine_consistent lcore
      (put_state e
        (npf_state_inspect ext icmp_strict e.stats lcore npc nbuf se.s_state se.s_proto_idx
          forw).stats i se
        (npf_state_inspect ext icmp_strict e.stats lcore npc nbuf se.s_state se.s_proto_idx
          forw).nst) := by
  by_cases h1 : se.s_proto_idx = NPF_PROTO_IDX_UDP ∨ se.s_proto_idx = NPF_PROTO_IDX_OTHER
  · rw [inspect_udp_other_eq _ _ _ _ _ _ _ _ _ h1]
    have hq : se.s_proto_idx ≠ NPF_PROTO_IDX_TCP := by
      rcases h1 with h | h <;> rw [h] <;> decide
    exact consistent_set_gen lcore e i se se.s_state _ false hinv hlen hi hq
      (generic_fsm_recognised _ _) rfl
  · by_cases h2 : se.s_proto_idx = NPF_PROTO_IDX_TCP
    · rw [h2, inspect_tcp_eq]
      unfold npf_state_inspect_tcp
      by_cases hrc : (ext.npf_state_tcp npc nbuf se.s_state
          (if forw then NPF_FLOW_FORW else NPF_FLOW_BACK)).rc = 0
      · simp only [hrc, if_true]
        exact consistent_set_tcp ext lcore e i se _ _ false hinv hlen hi h2
          (hval _ _ _ _ hrc) rfl
      · simp only [hrc, if_false]
        exact consistent_same lcore e i se _ hinv hlen hi (by unfold cur_state; simp [h2])
    · by_cases h3 : se.s_proto_idx = NPF_PROTO_IDX_ICMP
      · rw [h3, inspect_icmp_eq]
        rcases inspect_icmp_form ext icmp_strict e.stats lcore npc se.s_state
          (if forw then NPF_FLOW_FORW else NPF_FLOW_BACK) with h | h
        · rw [h.1, h.2]
          exact consistent_same lcore e i se _ hinv hlen hi rfl
        · rw [h.1, h.2]
          have := consistent_set_gen lcore e i se se.s_state
            (npf_generic_fsm se.s_state.nst_gen_state
              (if forw then NPF_FLOW_FORW else NPF_FLOW_BACK)) false hinv hlen hi h2
            (generic_fsm_recognised _ _) rfl
          rw [h3] at this
          exact this
      · have : npf_state_inspect ext icmp_strict e.stats lcore npc nbuf se.s_state
            se.s_proto_idx forw = ⟨0, e.stats, se.s_state, []⟩ := by
          unfold npf_state_inspect
          simp [h1, h2, h3]
        rw [this]
        exact consistent_same lcore e i se _ hinv hlen hi rfl

theorem consistent_step (ext : npf_ext) (icmp_strict : Bool) (lcore : Nat) (e : engine)
    (op : engine_op)
    (hval : ∀ npc nbuf nst fd, (ext.npf_state_tcp npc nbuf nst fd).rc = 0 →
      (ext.npf_state_tcp npc nbuf nst fd).new_state ≤ NPF_TCPS_LAST)
    (hop : op_recognised op = true)
    (hinv : engine_consistent lcore e) (hlen : e.sessions.length + 1 < UINT32_MOD) :
    engine_consistent lcore (engine_step ext icmp_strict lcore e op) ∧
    (engine_step ext icmp_strict lcore e op).sessions.length ≤ e.sessions.length + 1 := by
  have hlen0 : e.sessions.length < UINT32_MOD := Nat.lt_of_succ_lt hlen
  cases op with
  | init vrfid q nst0 =>
    unfold engine_step
    simp only []
    split
    · rename_i hok
      exact ⟨consistent_init lcore e vrfid q nst0 hinv hlen hok, by simp⟩
    · exact ⟨hinv, Nat.le_succ _⟩
  | inspect i npc nbuf forw =>
    cases hi : e.sessions[i]? with
    | none =>
      simp only [engine_step, hi]
      exact ⟨hinv, Nat.le_succ _⟩
    | some se =>
      simp only [engine_step, hi]
      exact ⟨consistent_inspect ext icmp_strict lcore e i se npc nbuf forw hval hinv hlen0 hi,
        by simp [put_state]⟩
  | set_gen_closed i lk =>
    cases hi : e.sessions[i]? with
    | none =>
      simp only [engine_step, hi]
      exact ⟨hinv, Nat.le_succ _⟩
    | some se =>
      simp only [engine_step, hi]
      by_cases hq : se.s_proto_idx = NPF_PROTO_IDX_TCP
      · rw [if_pos hq]
        exact ⟨hinv, Nat.le_succ _⟩
      · rw [if_neg hq]
        exact ⟨consistent_set_gen lcore e i se se.s_state SESSION_STATE_CLOSED false hinv
          hlen0 hi hq (by decide) rfl, by simp [put_state]⟩
  | set_tcp_closed i lk =>
    cases hi : e.sessions[i]? with
    | none =>
      simp only [engine_step, hi]
      exact ⟨hinv, Nat.le_succ _⟩
    | some se =>
      simp only [engine_step, hi]
      by_cases hq : se.s_proto_idx = NPF_PROTO_IDX_TCP
      · rw [if_pos hq]
        exact ⟨consistent_set_tcp ext lcore e i se se.s_state NPF_TCPS_CLOSED false hinv
          hlen0 hi hq (by decide) rfl, by simp [put_state]⟩
      · rw [if_neg hq]
        exact ⟨hinv, Nat.le_succ _⟩
  | pack_update_gen i pst =>
    have hst : pst.pst_gen_state ≤ SESSION_STATE_LAST := by
      simpa [op_recognised] using hop
    cases hi : e.sessions[i]? with
    | none =>
      simp only [engine_step, hi]
      exact ⟨hinv, Nat.le_succ _⟩
    | some se =>
      simp only [engine_step, hi]
      by_cases hq : se.s_proto_idx = NPF_PROTO_IDX_TCP
      · rw [if_pos hq]
        exact ⟨hinv, Nat.le_succ _⟩
      · rw [if_neg hq]
        exact ⟨consistent_set_gen lcore e i se se.s_state pst.pst_gen_state false hinv
          hlen0 hi hq hst rfl, by simp [put_state]⟩
  | pack_update_tcp i pst =>
    have hst : pst.pst_tcp_state ≤ NPF_TCPS_LAST := by
      simpa [op_recognised] using hop
    cases hi : e.sessions[i]? with
    | none =>
      simp only [engine_step, hi]
      exact ⟨hinv, Nat.le_succ _⟩
    | some se =>
      simp only [engine_step, hi]
      by_cases hq : se.s_proto_idx = NPF_PROTO_IDX_TCP
      · rw [if_pos hq]
        exact ⟨consistent_set_tcp ext lcore e i se _ pst.pst_tcp_state false hinv
          hlen0 hi hq hst rfl, by simp [put_state]⟩
      · rw [if_neg hq]
        exact ⟨hinv, Nat.le_succ _⟩
  | restore_gen_pb i nss => simp [op_recognised] at hop
  | restore_tcp_pb i nss => simp [op_recognised] at hop
  | update_gen_pb i nss =>
    cases hi : e.sessions[i]? with
    | none =>
      simp only [engine_step, hi]
      exact ⟨hinv, Nat.le_succ _⟩
    | some se =>
      simp only [engine_step, hi]
      by_cases hq : se.s_proto_idx = NPF_PROTO_IDX_TCP
      · rw [if_pos hq]
        exact ⟨hinv, Nat.le_succ _⟩
      · rw [if_neg hq]
        unfold npf_state_update_gen_pb
        by_cases hbig : nss.nss_state > SESSION_STATE_LAST
        · simp only [hbig, if_true, Option.getD_some]
          exact ⟨consistent_same lcore e i se _ hinv hlen0 hi rfl, by simp [put_state]⟩
        · simp only [hbig, if_false, Option.getD_some]
          exact ⟨consistent_set_gen lcore e i se se.s_state nss.nss_state false hinv
            hlen0 hi hq (Nat.le_of_not_gt hbig) rfl, by simp [put_state]⟩
  | update_tcp_pb i nss =>
    cases hi : e.sessions[i]? with
    | none =>
      simp only [engine_step, hi]
      exact ⟨hinv, Nat.le_succ _⟩
    | some se =>
      simp only [engine_step, hi]
      by_cases hq : se.s_proto_idx = NPF_PROTO_IDX_TCP
      · rw [if_pos hq]
        unfold npf_state_update_tcp_pb
        by_cases hbig : nss.nss_state > NPF_TCPS_LAST
        · simp only [hbig, if_true, Option.getD_some]
          exact ⟨consistent_same lcore e i se _ hinv hlen0 hi rfl, by simp [put_state]⟩
        · simp only [hbig, if_false, Option.getD_some]
          exact ⟨consistent_set_tcp ext lcore e i se _ nss.nss_state false hinv
            hlen0 hi hq (Nat.le_of_not_gt hbig) rfl, by simp [put_state]⟩
      · rw [if_neg hq]
        exact ⟨hinv, Nat.le_succ _⟩
  | destroy i =>
    cases hi : e.sessions[i]? with
    | none =>
      simp only [engine_step, hi]
      exact ⟨hinv, Nat.le_succ _⟩
    | some se =>
      simp only [engine_step, hi]
      refine ⟨consistent_destroy lcore e i se hinv hlen0 hi, ?_⟩
      show (e.sessions.eraseIdx i).length ≤ e.sessions.length + 1
      exact Nat.le_succ_of_le (List.length_eraseIdx_le _ _)

theorem consistent_run (ext : npf_ext) (icmp_strict : Bool) (lcore : Nat)
    (hval : ∀ npc nbuf nst fd, (ext.npf_state_tcp npc nbuf nst fd).rc = 0 →
      (ext.npf_state_tcp npc nbuf nst fd).new_state ≤ NPF_TCPS_LAST)
    (ops : List engine_op) :
    ∀ e : engine, engine_consistent lcore e →
      e.sessions.length + ops.length < UINT32_MOD →
      ops.all op_recognised = true →
      engine_consistent lcore (engine_run ext icmp_strict lcore e ops) := by
  induction ops with
  | nil => intro e hinv _ _; exact hinv
  | cons op rest ih =>
    intro e hinv hlen hops
    simp only [List.all_cons, Bool.and_eq_true] at hops
    simp only [List.length_cons] at hlen
    have hstep := consistent_step ext icmp_strict lcore e op hval hops.1 hinv (by omega)
    unfold engine_run
    simp only [List.foldl_cons]
    exact ih _ hstep.1 (by omega) hops.2

theorem consistent_start (lcore : Nat) (store : npf_timeout_store) :
    engine_consistent lcore (engine_start store) := by
  constructor
  · intro se hse; simp [engine_start] at hse
  · intro p s _ _
    simp [engine_start, bucket, zero_stats, live_in_state]

/-! ## Statistics conservation -/

theorem sample_validator_recognised :
    ∀ (npc : npf_cache_t) (nbuf : rte_mbuf) (nst : npf_state_t) (fd : npf_flow_dir),
      (sample_ext.npf_state_tcp npc nbuf nst fd).rc = 0 →
      (sample_ext.npf_state_tcp npc nbuf nst fd).new_state ≤ NPF_TCPS_LAST := by
  intro npc nbuf nst fd
  show (sample_validator npc nbuf nst fd).rc = 0 →
    (sample_validator npc nbuf nst fd).new_state ≤ NPF_TCPS_LAST
  unfold sample_validator
  cases npc.npc_fields with
  | nil => intro h; simp at h
  | cons t rest =>
    by_cases ht : t ≤ NPF_TCPS_LAST
    · simp [ht]
    · simp [ht]

/-- C4, as the code has it: start from the zeroed statistics table and run, on
one core, any sequence of init, inspect, set_gen_closed, set_tcp_closed,
internal pack_update, protobuf update and destroy calls in which every internal
packed form carries a recognised state, with a TCP validator that reports only
recognised states on success, and fewer than 2^32 calls in all.  Then for every
protocol class the sum of all per-state buckets of that class equals the number
of sessions of that class that have been initialised and not yet destroyed.
(The protobuf restores are not covered.) -/
theorem C4_stats_conservation (ext : npf_ext) (icmp_strict : Bool) (lcore : Nat)
    (store : npf_timeout_store) (ops : List engine_op) (p : Nat)
    (hval : ∀ npc nbuf nst fd, (ext.npf_state_tcp npc nbuf nst fd).rc = 0 →
      (ext.npf_state_tcp npc nbuf nst fd).new_state ≤ NPF_TCPS_LAST)
    (hops : ops.all op_recognised = true)
    (hlen : ops.length < UINT32_MOD)
    (hp : p ≤ NPF_PROTO_IDX_LAST) :
    bucket_sum ((engine_run ext icmp_strict lcore (engine_start store) ops).stats lcore) p =
      live_count (engine_run ext icmp_strict lcore (engine_start store) ops).sessions p := by
  have hrun := consistent_run ext icmp_strict lcore hval ops (engine_start store)
    (consistent_start lcore store) (by simpa [engine_start] using hlen) hops
  exact bucket_sum_eq_live_count lcore _ hrun p hp

/-- Witness of C4: a UDP and a TCP session are created, both see a forward
packet, and the UDP session is then marked closed. -/
theorem C4_stats_conservation_witness :
    ([engine_op.init 1 NPF_PROTO_IDX_UDP zero_nst, engine_op.init 1 NPF_PROTO_IDX_TCP zero_nst,
        engine_op.inspect 0 plain_npc [] true,
        engine_op.inspect 1 ⟨false, [NPF_TCPS_SYN_SENT]⟩ [] true,
        engine_op.set_gen_closed 0 true].all op_recognised = true) ∧
    [engine_op.init 1 NPF_PROTO_IDX_UDP zero_nst, engine_op.init 1 NPF_PROTO_IDX_TCP zero_nst,
        engine_op.inspect 0 plain_npc [] true,
        engine_op.inspect 1 ⟨false, [NPF_TCPS_SYN_SENT]⟩ [] true,
        engine_op.set_gen_closed 0 true].length < UINT32_MOD ∧
    NPF_PROTO_IDX_UDP ≤ NPF_PROTO_IDX_LAST ∧
    bucket_sum ((engine_run sample_ext false 0 (engine_start sample_store)
        [engine_op.init 1 NPF_PROTO_IDX_UDP zero_nst,
          engine_op.init 1 NPF_PROTO_IDX_TCP zero_nst,
          engine_op.inspect 0 plain_npc [] true,
          engine_op.inspect 1 ⟨false, [NPF_TCPS_SYN_SENT]⟩ [] true,
          engine_op.set_gen_closed 0 true]).stats 0) NPF_PROTO_IDX_UDP =
      live_count (engine_run sample_ext false 0 (engine_start sample_store)
        [engine_op.init 1 NPF_PROTO_IDX_UDP zero_nst,
          engine_op.init 1 NPF_PROTO_IDX_TCP zero_nst,
          engine_op.inspect 0 plain_npc [] true,
          engine_op.inspect 1 ⟨false, [NPF_TCPS_SYN_SENT]⟩ [] true,
          engine_op.set_gen_closed 0 true]).sessions NPF_PROTO_IDX_UDP :=
  ⟨by decide, by decide, by decide,
    C4_stats_conservation sample_ext false 0 sample_store _ NPF_PROTO_IDX_UDP
      sample_validator_recognised (by decide) (by decide) (by decide)⟩

/-- Counterexample to C4 as stated: a UDP session is created and the internal
restore path is then handed a packed form whose generic state is
`SESSION_STATE_LAST + 1`.  The NONE bucket is decremented, no bucket is
incremented, and the UDP buckets sum to 0 although one UDP session is live. -/
theorem C4_counterexample :
    bucket_sum ((engine_run sample_ext false 0 (engine_start sample_store)
        [engine_op.init 1 NPF_PROTO_IDX_UDP zero_nst,
          engine_op.pack_update_gen 0
            { zero_pst with pst_gen_state := SESSION_STATE_LAST + 1 }]).stats 0)
        NPF_PROTO_IDX_UDP = 0 ∧
    live_count (engine_run sample_ext false 0 (engine_start sample_store)
        [engine_op.init 1 NPF_PROTO_IDX_UDP zero_nst,
          engine_op.pack_update_gen 0
            { zero_pst with pst_gen_state := SESSION_STATE_LAST + 1 }]).sessions
        NPF_PROTO_IDX_UDP = 1 ∧
    ¬ (bucket_sum ((engine_run sample_ext false 0 (engine_start sample_store)
        [engine_op.init 1 NPF_PROTO_IDX_UDP zero_nst,
          engine_op.pack_update_gen 0
            { zero_pst with pst_gen_state := SESSION_STATE_LAST + 1 }]).stats 0)
        NPF_PROTO_IDX_UDP =
      live_count (engine_run sample_ext false 0 (engine_start sample_store)
        [engine_op.init 1 NPF_PROTO_IDX_UDP zero_nst,
          engine_op.pack_update_gen 0
            { zero_pst with pst_gen_state := SESSION_STATE_LAST + 1 }]).sessions
        NPF_PROTO_IDX_UDP) := by
  decide

/-- C5: the code at the protobuf restores.  A UDP session is created and
restored to ESTABLISHED with `npf_state_restore_gen_pb`: it is then live in
state ESTABLISHED while the UDP ESTABLISHED bucket is 0 and the UDP NONE bucket
still counts it.  A TCP session restored to ESTABLISHED with
`npf_state_restore_tcp_pb` is likewise counted in the TCP NONE bucket and not
in the TCP ESTABLISHED bucket.  Destroying the restored UDP session then wraps
the ESTABLISHED bucket around to 2^32 - 1 and leaves 1 in the NONE bucket with
no session live. -/
theorem C5_restore_skips_bookkeeping :
    live_in_state (engine_run sample_ext false 0 (engine_start sample_store)
        [engine_op.init 1 NPF_PROTO_IDX_UDP zero_nst,
          engine_op.restore_gen_pb 0 (state_msg SESSION_STATE_ESTABLISHED)]).sessions
        NPF_PROTO_IDX_UDP SESSION_STATE_ESTABLISHED = 1 ∧
    bucket ((engine_run sample_ext false 0 (engine_start sample_store)
        [engine_op.init 1 NPF_PROTO_IDX_UDP zero_nst,
          engine_op.restore_gen_pb 0 (state_msg SESSION_STATE_ESTABLISHED)]).stats 0)
        NPF_PROTO_IDX_UDP SESSION_STATE_ESTABLISHED = 0 ∧
    live_in_state (engine_run sample_ext false 0 (engine_start sample_store)
        [engine_op.init 1 NPF_PROTO_IDX_UDP zero_nst,
          engine_op.restore_gen_pb 0 (state_msg SESSION_STATE_ESTABLISHED)]).sessions
        NPF_PROTO_IDX_UDP SESSION_STATE_NONE = 0 ∧
    bucket ((engine_run sample_ext false 0 (engine_start sample_store)
        [engine_op.init 1 NPF_PROTO_IDX_UDP zero_nst,
          engine_op.restore_gen_pb 0 (state_msg SESSION_STATE_ESTABLISHED)]).stats 0)
        NPF_PROTO_IDX_UDP SESSION_STATE_NONE = 1 ∧
    live_in_state (engine_run sample_ext false 0 (engine_start sample_store)
        [engine_op.init 1 NPF_PROTO_IDX_TCP zero_nst,
          engine_op.restore_tcp_pb 0 (state_msg NPF_TCPS_ESTABLISHED)]).sessions
        NPF_PROTO_IDX_TCP NPF_TCPS_ESTABLISHED = 1 ∧
    bucket ((engine_run sample_ext false 0 (engine_start sample_store)
        [engine_op.init 1 NPF_PROTO_IDX_TCP zero_nst,
          engine_op.restore_tcp_pb 0 (state_msg NPF_TCPS_ESTABLISHED)]).stats 0)
        NPF_PROTO_IDX_TCP NPF_TCPS_ESTABLISHED = 0 ∧
    bucket ((engine_run sample_ext false 0 (engine_start sample_store)
        [engine_op.init 1 NPF_PROTO_IDX_TCP zero_nst,
          engine_op.restore_tcp_pb 0 (state_msg NPF_TCPS_ESTABLISHED)]).stats 0)
        NPF_PROTO_IDX_TCP NPF_TCPS_NONE = 1 ∧
    (engine_run sample_ext false 0 (engine_start sample_store)
        [engine_op.init 1 NPF_PROTO_IDX_UDP zero_nst,
          engine_op.restore_gen_pb 0 (state_msg SESSION_STATE_ESTABLISHED),
          engine_op.destroy 0]).sessions.length = 0 ∧
    bucket ((engine_run sample_ext false 0 (engine_start sample_store)
        [engine_op.init 1 NPF_PROTO_IDX_UDP zero_nst,
          engine_op.restore_gen_pb 0 (state_msg SESSION_STATE_ESTABLISHED),
          engine_op.destroy 0]).stats 0)
        NPF_PROTO_IDX_UDP SESSION_STATE_ESTABLISHED = 4294967295 ∧
    bucket ((engine_run sample_ext false 0 (engine_start sample_store)
        [engine_op.init 1 NPF_PROTO_IDX_UDP zero_nst,
          engine_op.restore_gen_pb 0 (state_msg SESSION_STATE_ESTABLISHED),
          engine_op.destroy 0]).stats 0)
        NPF_PROTO_IDX_UDP SESSION_STATE_NONE = 1 := by
  decide

/-- C8: the code at the protobuf TCP restore.  A TCP session is created and
restored to ESTABLISHED with `npf_state_restore_tcp_pb`, and then sees a packet
for which the validator returns ESTABLISHED again: after the restore and after
the inspect, `tcp_state` is ESTABLISHED while `generic_state` is still NONE,
which is not the TCP-to-generic mapping of ESTABLISHED. -/
theorem C8_restore_tcp_breaks_projection :
    (engine_run sample_ext false 0 (engine_start sample_store)
        [engine_op.init 1 NPF_PROTO_IDX_TCP zero_nst,
          engine_op.restore_tcp_pb 0 (state_msg NPF_TCPS_ESTABLISHED)]).sessions.map
        (fun se => (se.s_state.nst_tcp_state, se.s_state.nst_gen_state))
      = [(NPF_TCPS_ESTABLISHED, SESSION_STATE_NONE)] ∧
    (engine_run sample_ext false 0 (engine_start sample_store)
        [engine_op.init 1 NPF_PROTO_IDX_TCP zero_nst,
          engine_op.restore_tcp_pb 0 (state_msg NPF_TCPS_ESTABLISHED),
          engine_op.inspect 0 ⟨false, [NPF_TCPS_ESTABLISHED]⟩ [] true]).sessions.map
        (fun se => (se.s_state.nst_tcp_state, se.s_state.nst_gen_state))
      = [(NPF_TCPS_ESTABLISHED, SESSION_STATE_NONE)] ∧
    sample_ext.npf_state_tcp2gen NPF_TCPS_ESTABLISHED = SESSION_STATE_ESTABLISHED ∧
    SESSION_STATE_NONE ≠ sample_ext.npf_state_tcp2gen NPF_TCPS_ESTABLISHED := by
  decide

/-! ## One count moved between two buckets -/

theorem set_gen_changed (stats : Nat → npf_state_stats) (lcore : Nat) (nst : npf_state_t)
    (q b : Nat) (flag : Bool) (h : nst.nst_gen_state ≠ b) :
    npf_state_set_gen stats lcore nst q b flag =
      ⟨stats_inc (stats_dec stats lcore q nst.nst_gen_state) lcore q b,
        { nst with nst_gen_state := b }, true⟩ := by
  unfold npf_state_set_gen
  rw [if_pos h]

theorem set_gen_same (stats : Nat → npf_state_stats) (lcore : Nat) (nst : npf_state_t)
    (q b : Nat) (flag : Bool) (h : nst.nst_gen_state = b) :
    npf_state_set_gen stats lcore nst q b flag = ⟨stats, nst, flag⟩ := by
  unfold npf_state_set_gen
  rw [if_neg (fun hn => hn h)]

theorem set_tcp_changed (ext : npf_ext) (stats : Nat → npf_state_stats) (lcore : Nat)
    (nst : npf_state_t) (b : Nat) (flag : Bool) (h : nst.nst_tcp_state ≠ b) :
    npf_state_set_tcp ext stats lcore nst b flag =
      ⟨stats_inc_tcp (stats_dec_tcp stats lcore nst.nst_tcp_state) lcore b,
        { nst with nst_tcp_state := b, nst_gen_state := ext.npf_state_tcp2gen b }, true⟩ := by
  unfold npf_state_set_tcp
  rw [if_pos h]

theorem set_tcp_same (ext : npf_ext) (stats : Nat → npf_state_stats) (lcore : Nat)
    (nst : npf_state_t) (b : Nat) (flag : Bool) (h : nst.nst_tcp_state = b) :
    npf_state_set_tcp ext stats lcore nst b flag = ⟨stats, nst, flag⟩ := by
  unfold npf_state_set_tcp
  rw [if_neg (fun hn => hn h)]

theorem moved_gen_count (stats : Nat → npf_state_stats) (lcore q a b : Nat)
    (hq : q ≤ NPF_PROTO_IDX_LAST) (ha : a ≤ SESSION_STATE_LAST) (hb : b ≤ SESSION_STATE_LAST)
    (hab : a ≠ b) :
    ((stats_inc (stats_dec stats lcore q a) lcore q b) lcore).ss_ct q a
      = u32_dec ((stats lcore).ss_ct q a) ∧
    ((stats_inc (stats_dec stats lcore q a) lcore q b) lcore).ss_ct q b
      = u32_inc ((stats lcore).ss_ct q b) ∧
    (∀ c p s, ¬ (c = lcore ∧ p = q ∧ s = a) → ¬ (c = lcore ∧ p = q ∧ s = b) →
      ((stats_inc (stats_dec stats lcore q a) lcore q b) c).ss_ct p s = (stats c).ss_ct p s) ∧
    (∀ c s, ((stats_inc (stats_dec stats lcore q a) lcore q b) c).ss_tcp_ct s
      = (stats c).ss_tcp_ct s) := by
  have hba : b ≠ a := fun e => hab e.symm
  refine ⟨?_, ?_, ?_, ?_⟩
  · rw [ss_ct_stats_inc _ _ _ _ _ _ _ hb hq, ss_ct_stats_dec _ _ _ _ _ _ _ ha hq]
    simp [hab]
  · rw [ss_ct_stats_inc _ _ _ _ _ _ _ hb hq, ss_ct_stats_dec _ _ _ _ _ _ _ ha hq]
    simp [hba]
  · intro c p s h1 h2
    rw [ss_ct_stats_inc _ _ _ _ _ _ _ hb hq, ss_ct_stats_dec _ _ _ _ _ _ _ ha hq,
      if_neg h2, if_neg h1]
  · intro c s
    rw [ss_tcp_ct_stats_inc, ss_tcp_ct_stats_dec]

theorem moved_tcp_count (stats : Nat → npf_state_stats) (lcore a b : Nat)
    (ha : a ≤ NPF_TCPS_LAST) (hb : b ≤ NPF_TCPS_LAST) (hab : a ≠ b) :
    ((stats_inc_tcp (stats_dec_tcp stats lcore a) lcore b) lcore).ss_tcp_ct a
      = u32_dec ((stats lcore).ss_tcp_ct a) ∧
    ((stats_inc_tcp (stats_dec_tcp stats lcore a) lcore b) lcore).ss_tcp_ct b
      = u32_inc ((stats lcore).ss_tcp_ct b) ∧
    (∀ c s, ¬ (c = lcore ∧ s = a) → ¬ (c = lcore ∧ s = b) →
      ((stats_inc_tcp (stats_dec_tcp stats lcore a) lcore b) c).ss_tcp_ct s
        = (stats c).ss_tcp_ct s) ∧
    (∀ c p s, ((stats_inc_tcp (stats_dec_tcp stats lcore a) lcore b) c).ss_ct p s
      = (stats c).ss_ct p s) := by
  have hba : b ≠ a := fun e => hab e.symm
  refine ⟨?_, ?_, ?_, ?_⟩
  · rw [ss_tcp_ct_stats_inc_tcp _ _ _ _ _ hb, ss_tcp_ct_stats_dec_tcp _ _ _ _ _ ha]
    simp [hab]
  · rw [ss_tcp_ct_stats_inc_tcp _ _ _ _ _ hb, ss_tcp_ct_stats_dec_tcp _ _ _ _ _ ha]
    simp [hba]
  · intro c s h1 h2
    rw [ss_tcp_ct_stats_inc_tcp _ _ _ _ _ hb, ss_tcp_ct_stats_dec_tcp _ _ _ _ _ ha,
      if_neg h2, if_neg h1]
  · intro c p s
    rw [ss_ct_stats_inc_tcp, ss_ct_stats_dec_tcp]

/-! ## The first packet of an ICMP flow -/

theorem inspect_icmp_fresh_back_req (ext : npf_ext) (icmp_strict : Bool)
    (stats : Nat → npf_state_stats) (lcore : Nat) (npc : npf_cache_t) (nst : npf_state_t)
    (hrc : 0 < ext.NPF_RC_ICMP_ECHO) (hfresh : nst.nst_gen_state = SESSION_STATE_NONE)
    (hreq : npc.npc_icmp_echo_req = true) :
    npf_state_inspect_icmp ext icmp_strict stats lcore npc nst NPF_FLOW_BACK =
      ⟨-(ext.NPF_RC_ICMP_ECHO : Int), stats, nst, []⟩ := by
  have hne : ¬ ext.NPF_RC_ICMP_ECHO = 0 := by omega
  unfold npf_state_inspect_icmp
  simp [hfresh, hreq, hne]

theorem inspect_icmp_fresh_forw_req (ext : npf_ext) (icmp_strict : Bool)
    (stats : Nat → npf_state_stats) (lcore : Nat) (npc : npf_cache_t) (nst : npf_state_t)
    (hfresh : nst.nst_gen_state = SESSION_STATE_NONE)
    (hreq : npc.npc_icmp_echo_req = true) :
    npf_state_inspect_icmp ext icmp_strict stats lcore npc nst NPF_FLOW_FORW =
      ⟨0, stats_inc (stats_dec stats lcore NPF_PROTO_IDX_ICMP SESSION_STATE_NONE) lcore
          NPF_PROTO_IDX_ICMP SESSION_STATE_NEW,
        { nst with nst_gen_state := SESSION_STATE_NEW },
        [session_event.gen_state_change SESSION_STATE_NONE SESSION_STATE_NEW
          NPF_PROTO_IDX_ICMP]⟩ := by
  have hfsm : npf_generic_fsm nst.nst_gen_state NPF_FLOW_FORW = SESSION_STATE_NEW := by
    rw [hfresh]; rfl
  have hne : nst.nst_gen_state ≠ SESSION_STATE_NEW := by rw [hfresh]; decide
  have hfsm0 : npf_generic_fsm SESSION_STATE_NONE NPF_FLOW_FORW = SESSION_STATE_NEW := rfl
  unfold npf_state_inspect_icmp
  simp only [hreq, hfsm, hfresh]
  simp
  rw [hfsm0, set_gen_changed _ _ _ _ _ _ hne, hfresh]
  simp

/-- C11: on a fresh ICMP record (generic state NONE), with strict mode on or
off: a backward echo request is rejected with `-NPF_RC_ICMP_ECHO` (a non-zero
code) and leaves record, statistics and session layer alone; a forward echo
request is accepted with return value 0, moves the record to NEW, takes one
count out of the ICMP NONE bucket and adds one to the ICMP NEW bucket (as
unsigned 32-bit counters), and changes no other bucket. -/
theorem C11_icmp_first_packet (ext : npf_ext) (icmp_strict : Bool)
    (stats : Nat → npf_state_stats) (lcore : Nat) (npc : npf_cache_t) (nbuf : rte_mbuf)
    (nst : npf_state_t)
    (hrc : 0 < ext.NPF_RC_ICMP_ECHO) (hfresh : nst.nst_gen_state = SESSION_STATE_NONE)
    (hreq : npc.npc_icmp_echo_req = true) :
    (npf_state_inspect ext icmp_strict stats lcore npc nbuf nst NPF_PROTO_IDX_ICMP false).rc
      = -(ext.NPF_RC_ICMP_ECHO : Int) ∧
    (npf_state_inspect ext icmp_strict stats lcore npc nbuf nst NPF_PROTO_IDX_ICMP false).rc
      ≠ 0 ∧
    (npf_state_inspect ext icmp_strict stats lcore npc nbuf nst NPF_PROTO_IDX_ICMP false).nst
      = nst ∧
    (npf_state_inspect ext icmp_strict stats lcore npc nbuf nst NPF_PROTO_IDX_ICMP false).stats
      = stats ∧
    (npf_state_inspect ext icmp_strict stats lcore npc nbuf nst NPF_PROTO_IDX_ICMP
      false).events = [] ∧
    (npf_state_inspect ext icmp_strict stats lcore npc nbuf nst NPF_PROTO_IDX_ICMP true).rc
      = 0 ∧
    (npf_state_inspect ext icmp_strict stats lcore npc nbuf nst NPF_PROTO_IDX_ICMP
      true).nst.nst_gen_state = SESSION_STATE_NEW ∧
    ((npf_state_inspect ext icmp_strict stats lcore npc nbuf nst NPF_PROTO_IDX_ICMP
      true).stats lcore).ss_ct NPF_PROTO_IDX_ICMP SESSION_STATE_NONE
      = u32_dec ((stats lcore).ss_ct NPF_PROTO_IDX_ICMP SESSION_STATE_NONE) ∧
    ((npf_state_inspect ext icmp_strict stats lcore npc nbuf nst NPF_PROTO_IDX_ICMP
      true).stats lcore).ss_ct NPF_PROTO_IDX_ICMP SESSION_STATE_NEW
      = u32_inc ((stats lcore).ss_ct NPF_PROTO_IDX_ICMP SESSION_STATE_NEW) ∧
    (∀ c p s, ¬ (c = lcore ∧ p = NPF_PROTO_IDX_ICMP ∧ s = SESSION_STATE_NONE) →
      ¬ (c = lcore ∧ p = NPF_PROTO_IDX_ICMP ∧ s = SESSION_STATE_NEW) →
      ((npf_state_inspect ext icmp_strict stats lcore npc nbuf nst NPF_PROTO_IDX_ICMP
        true).stats c).ss_ct p s = (stats c).ss_ct p s) ∧
    (∀ c s,
      ((npf_state_inspect ext icmp_strict stats lcore npc nbuf nst NPF_PROTO_IDX_ICMP
        true).stats c).ss_tcp_ct s = (stats c).ss_tcp_ct s) := by
  have hb := inspect_icmp_fresh_back_req ext icmp_strict stats lcore npc nst hrc hfresh hreq
  have hf := inspect_icmp_fresh_forw_req ext icmp_strict stats lcore npc nst hfresh hreq
  have hm := moved_gen_count stats lcore NPF_PROTO_IDX_ICMP SESSION_STATE_NONE
    SESSION_STATE_NEW (by decide) (by decide) (by decide) (by decide)
  have hneg : -(ext.NPF_RC_ICMP_ECHO : Int) ≠ 0 := by omega
  rw [inspect_icmp_eq, inspect_icmp_eq]
  simp only [if_true, Bool.false_eq_true, if_false]
  rw [hb, hf]
  exact ⟨rfl, hneg, rfl, rfl, rfl, rfl, rfl, hm.1, hm.2.1, hm.2.2.1, hm.2.2.2⟩

/-- Witness of C11: the sample collaborators, a zeroed record (generic state
NONE) and an echo request. -/
theorem C11_icmp_first_packet_witness :
    0 < sample_ext.NPF_RC_ICMP_ECHO ∧
    zero_nst.nst_gen_state = SESSION_STATE_NONE ∧
    (⟨true, []⟩ : npf_cache_t).npc_icmp_echo_req = true ∧
    (npf_state_inspect sample_ext false zero_stats 0 ⟨true, []⟩ [] zero_nst
      NPF_PROTO_IDX_ICMP false).rc = -5 ∧
    (npf_state_inspect sample_ext false zero_stats 0 ⟨true, []⟩ [] zero_nst
      NPF_PROTO_IDX_ICMP true).nst.nst_gen_state = SESSION_STATE_NEW :=
  ⟨by decide, rfl, rfl,
    (C11_icmp_first_packet sample_ext false zero_stats 0 ⟨true, []⟩ [] zero_nst
      (by decide) rfl rfl).1,
    (C11_icmp_first_packet sample_ext false zero_stats 0 ⟨true, []⟩ [] zero_nst
      (by decide) rfl rfl).2.2.2.2.2.2.1⟩

/-! ## The protobuf codec -/

/-- C12: version-skew defence for generic records.  For every record and every
message whose state value is greater than `SESSION_STATE_LAST`,
`npf_state_restore_gen_pb` and `npf_state_update_gen_pb` return `-EINVAL` and
leave the record (its generic state included), the whole statistics table and,
for the update, the caller's changed flag as they were. -/
theorem C12_gen_pb_version_skew (stats : Nat → npf_state_stats) (lcore : Nat)
    (nst : npf_state_t) (nss : NPFSessionStateMsg) (proto_idx : Nat) (state_changed : Bool)
    (hbig : nss.nss_state > SESSION_STATE_LAST) :
    (npf_state_restore_gen_pb stats (some nst) (some nss)).rc = -EINVAL ∧
    (npf_state_restore_gen_pb stats (some nst) (some nss)).nst = some nst ∧
    (npf_state_restore_gen_pb stats (some nst) (some nss)).stats = stats ∧
    (npf_state_update_gen_pb stats lcore (some nst) (some nss) proto_idx state_changed).rc
      = -EINVAL ∧
    (npf_state_update_gen_pb stats lcore (some nst) (some nss) proto_idx state_changed).nst
      = some nst ∧
    (npf_state_update_gen_pb stats lcore (some nst) (some nss) proto_idx state_changed).stats
      = stats ∧
    (npf_state_update_gen_pb stats lcore (some nst) (some nss) proto_idx
      state_changed).state_changed = state_changed := by
  unfold npf_state_restore_gen_pb npf_state_update_gen_pb
  simp [hbig]

/-- Witness of C12: a message carrying the state ordinal
`SESSION_STATE_LAST + 1` for a UDP record in state NEW. -/
theorem C12_gen_pb_version_skew_witness :
    (state_msg (SESSION_STATE_LAST + 1)).nss_state > SESSION_STATE_LAST ∧
    (npf_state_restore_gen_pb zero_stats
      (some { zero_nst with nst_gen_state := SESSION_STATE_NEW })
      (some (state_msg (SESSION_STATE_LAST + 1)))).rc = -EINVAL ∧
    (npf_state_update_gen_pb zero_stats 0
      (some { zero_nst with nst_gen_state := SESSION_STATE_NEW })
      (some (state_msg (SESSION_STATE_LAST + 1))) NPF_PROTO_IDX_UDP false).state_changed
      = false :=
  ⟨by decide,
    (C12_gen_pb_version_skew zero_stats 0 { zero_nst with nst_gen_state := SESSION_STATE_NEW }
      (state_msg (SESSION_STATE_LAST + 1)) NPF_PROTO_IDX_UDP false (by decide)).1,
    (C12_gen_pb_version_skew zero_stats 0 { zero_nst with nst_gen_state := SESSION_STATE_NEW }
      (state_msg (SESSION_STATE_LAST + 1)) NPF_PROTO_IDX_UDP false (by decide)).2.2.2.2.2.2⟩

/-- C13: all-or-nothing TCP decode.  For every record and every message whose
state value is greater than `NPF_TCPS_LAST`, whatever window fields and
presence flags the message carries, `npf_state_restore_tcp_pb` and
`npf_state_update_tcp_pb` return `-EINVAL` and leave the record (`tcp_state`,
`generic_state` and both window structures), the whole statistics table and the
caller's changed flag as they were. -/
theorem C13_tcp_pb_all_or_nothing (ext : npf_ext) (stats : Nat → npf_state_stats)
    (lcore : Nat) (nst : npf_state_t) (nss : NPFSessionStateMsg) (state_changed : Bool)
    (hbig : nss.nss_state > NPF_TCPS_LAST) :
    (npf_state_restore_tcp_pb stats (some nst) (some nss)).rc = -EINVAL ∧
    (npf_state_restore_tcp_pb stats (some nst) (some nss)).nst = some nst ∧
    (npf_state_restore_tcp_pb stats (some nst) (some nss)).stats = stats ∧
    (npf_state_update_tcp_pb ext stats lcore (some nst) (some nss) state_changed).rc
      = -EINVAL ∧
    (npf_state_update_tcp_pb ext stats lcore (some nst) (some nss) state_changed).nst
      = some nst ∧
    (npf_state_update_tcp_pb ext stats lcore (some nst) (some nss) state_changed).stats
      = stats ∧
    (npf_state_update_tcp_pb ext stats lcore (some nst) (some nss)
      state_changed).state_changed = state_changed := by
  unfold npf_state_restore_tcp_pb npf_state_update_tcp_pb
  simp [hbig]

/-- Witness of C13: a message with the state ordinal `NPF_TCPS_LAST + 1` and
every window field present, for an ESTABLISHED TCP record. -/
theorem C13_tcp_pb_all_or_nothing_witness :
    (full_msg (NPF_TCPS_LAST + 1)).nss_state > NPF_TCPS_LAST ∧
    (npf_state_restore_tcp_pb zero_stats (some sample_tcp_nst)
      (some (full_msg (NPF_TCPS_LAST + 1)))).nst = some sample_tcp_nst ∧
    (npf_state_update_tcp_pb sample_ext zero_stats 0 (some sample_tcp_nst)
      (some (full_msg (NPF_TCPS_LAST + 1))) false).nst = some sample_tcp_nst :=
  ⟨by decide,
    (C13_tcp_pb_all_or_nothing sample_ext zero_stats 0 sample_tcp_nst
      (full_msg (NPF_TCPS_LAST + 1)) false (by decide)).2.1,
    (C13_tcp_pb_all_or_nothing sample_ext zero_stats 0 sample_tcp_nst
      (full_msg (NPF_TCPS_LAST + 1)) false (by decide)).2.2.2.2.1⟩

theorem restore_tcpwin_all_present (w : npf_tcp_window) (tw : TCPWindowMsg)
    (h1 : tw.has_tw_end = true) (h2 : tw.has_tw_maxend = true)
    (h3 : tw.has_tw_maxwin = true) (h4 : tw.has_tw_wscale = true) :
    npf_state_restore_tcpwin_pb w tw = ⟨tw.tw_end, tw.tw_maxend, tw.tw_maxwin, tw.tw_wscale⟩ := by
  unfold npf_state_restore_tcpwin_pb
  simp [h1, h2, h3, h4]

theorem restore_tcp_pb_ok (stats : Nat → npf_state_stats) (n : npf_state_t)
    (m : NPFSessionStateMsg) (h : m.nss_state ≤ NPF_TCPS_LAST) :
    npf_state_restore_tcp_pb stats (some n) (some m) =
      ⟨0, stats,
        some { n with
          nst_tcp_state := m.nss_state
          nst_tcp_win := fun fl =>
            npf_state_restore_tcpwin_pb (n.nst_tcp_win fl) (m.nss_tcpwins fl) },
        false⟩ := by
  unfold npf_state_restore_tcp_pb
  simp only []
  rw [if_neg (Nat.not_lt.mpr h)]

theorem update_tcp_pb_ok (ext : npf_ext) (stats : Nat → npf_state_stats) (lcore : Nat)
    (n : npf_state_t) (m : NPFSessionStateMsg) (flag : Bool)
    (h : m.nss_state ≤ NPF_TCPS_LAST) :
    npf_state_update_tcp_pb ext stats lcore (some n) (some m) flag =
      ⟨0,
        (npf_state_set_tcp ext stats lcore
          { n with
            nst_tcp_win := fun fl =>
              npf_state_restore_tcpwin_pb (n.nst_tcp_win fl) (m.nss_tcpwins fl) }
          m.nss_state flag).stats,
        some (npf_state_set_tcp ext stats lcore
          { n with
            nst_tcp_win := fun fl =>
              npf_state_restore_tcpwin_pb (n.nst_tcp_win fl) (m.nss_tcpwins fl) }
          m.nss_state flag).nst,
        (npf_state_set_tcp ext stats lcore
          { n with
            nst_tcp_win := fun fl =>
              npf_state_restore_tcpwin_pb (n.nst_tcp_win fl) (m.nss_tcpwins fl) }
          m.nss_state flag).state_changed⟩ := by
  unfold npf_state_update_tcp_pb
  simp only []
  rw [if_neg (Nat.not_lt.mpr h)]

theorem win_set_tcp (ext : npf_ext) (stats : Nat → npf_state_stats) (lcore : Nat)
    (nst : npf_state_t) (b : Nat) (flag : Bool) :
    (npf_state_set_tcp ext stats lcore nst b flag).nst.nst_tcp_win = nst.nst_tcp_win := by
  unfold npf_state_set_tcp
  split <;> rfl

/-- C14: TCP round trip.  For every source record whose `tcp_state` is a
recognised state, every target record and every output message, packing the
source with `npf_state_pack_tcp_pb` returns 0, and applying the packed message
to the target with `npf_state_restore_tcp_pb` or with `npf_state_update_tcp_pb`
returns 0 and leaves the target with the source's `tcp_state` and the source's
end, maxend, maxwin and wscale values in both flow directions. -/
theorem C14_tcp_round_trip (ext : npf_ext) (stats : Nat → npf_state_stats) (lcore : Nat)
    (src tgt : npf_state_t) (m0 : NPFSessionStateMsg) (state_changed : Bool)
    (hs : src.nst_tcp_state ≤ NPF_TCPS_LAST) :
    (npf_state_pack_tcp_pb (some src) (some m0)).rc = 0 ∧
    (npf_state_restore_tcp_pb stats (some tgt)
      (npf_state_pack_tcp_pb (some src) (some m0)).nss).rc = 0 ∧
    (npf_state_restore_tcp_pb stats (some tgt)
      (npf_state_pack_tcp_pb (some src) (some m0)).nss).nst.map (fun n => n.nst_tcp_state)
      = some src.nst_tcp_state ∧
    (∀ fl, (npf_state_restore_tcp_pb stats (some tgt)
      (npf_state_pack_tcp_pb (some src) (some m0)).nss).nst.map (fun n => n.nst_tcp_win fl)
      = some (src.nst_tcp_win fl)) ∧
    (npf_state_update_tcp_pb ext stats lcore (some tgt)
      (npf_state_pack_tcp_pb (some src) (some m0)).nss state_changed).rc = 0 ∧
    (npf_state_update_tcp_pb ext stats lcore (some tgt)
      (npf_state_pack_tcp_pb (some src) (some m0)).nss state_changed).nst.map
        (fun n => n.nst_tcp_state)
      = some src.nst_tcp_state ∧
    (∀ fl, (npf_state_update_tcp_pb ext stats lcore (some tgt)
      (npf_state_pack_tcp_pb (some src) (some m0)).nss state_changed).nst.map
        (fun n => n.nst_tcp_win fl)
      = some (src.nst_tcp_win fl)) := by
  simp only [npf_state_pack_tcp_pb]
  rw [restore_tcp_pb_ok _ _ _ hs, update_tcp_pb_ok _ _ _ _ _ _ hs]
  refine ⟨trivial, rfl, rfl, ?_, rfl, ?_, ?_⟩
  · intro fl
    simp only [Option.map_some']
    rw [restore_tcpwin_all_present _ _ rfl rfl rfl rfl]
  · simp only [Option.map_some']
    rw [tcp_state_set_tcp]
  · intro fl
    simp only [Option.map_some']
    rw [win_set_tcp]
    simp only []
    rw [restore_tcpwin_all_present _ _ rfl rfl rfl rfl]

/-- Witness of C14: the sample ESTABLISHED record is packed into an empty
message and restored into a zeroed record. -/
theorem C14_tcp_round_trip_witness :
    sample_tcp_nst.nst_tcp_state ≤ NPF_TCPS_LAST ∧
    (npf_state_restore_tcp_pb zero_stats (some zero_nst)
      (npf_state_pack_tcp_pb (some sample_tcp_nst) (some (state_msg 0))).nss).nst.map
        (fun n => n.nst_tcp_win NPF_FLOW_FORW)
      = some (sample_tcp_nst.nst_tcp_win NPF_FLOW_FORW) :=
  ⟨by decide,
    (C14_tcp_round_trip sample_ext zero_stats 0 sample_tcp_nst zero_nst (state_msg 0) false
      (by decide)).2.2.2.1 NPF_FLOW_FORW⟩

/-- C15, as the code has it: the protobuf pack operations do not look at the
value of the state.  With a record and a message they return 0 and store the
record's state ordinal, recognised or not, with its presence flag (and, for
TCP, the count and the four fields of both windows with their presence flags),
leaving the other fields of the message as they were; they fail, with
`-EINVAL` and the message untouched, only on a null record or a null
message. -/
theorem C15_pack_stores_any_state (nst : npf_state_t) (m : NPFSessionStateMsg)
    (onst : Option npf_state_t) (onss : Option NPFSessionStateMsg) :
    npf_state_pack_gen_pb (some nst) (some m)
      = ⟨0, some { m with has_nss_state := true, nss_state := nst.nst_gen_state }⟩ ∧
    (npf_state_pack_tcp_pb (some nst) (some m)).rc = 0 ∧
    (npf_state_pack_tcp_pb (some nst) (some m)).nss.map (fun x => x.has_nss_state)
      = some true ∧
    (npf_state_pack_tcp_pb (some nst) (some m)).nss.map (fun x => x.nss_state)
      = some nst.nst_tcp_state ∧
    (npf_state_pack_tcp_pb (some nst) (some m)).nss.map (fun x => x.n_nss_tcpwins)
      = some NPF_FLOW_SZ ∧
    (∀ fl, (npf_state_pack_tcp_pb (some nst) (some m)).nss.map (fun x => x.nss_tcpwins fl)
      = some ⟨true, (nst.nst_tcp_win fl).nst_end, true, (nst.nst_tcp_win fl).nst_maxend,
          true, (nst.nst_tcp_win fl).nst_maxwin, true, (nst.nst_tcp_win fl).nst_wscale⟩) ∧
    npf_state_pack_gen_pb none onss = ⟨-EINVAL, onss⟩ ∧
    npf_state_pack_gen_pb onst none = ⟨-EINVAL, none⟩ ∧
    npf_state_pack_tcp_pb none onss = ⟨-EINVAL, onss⟩ ∧
    npf_state_pack_tcp_pb onst none = ⟨-EINVAL, none⟩ := by
  refine ⟨rfl, rfl, rfl, rfl, rfl, fun fl => rfl, ?_, ?_, ?_, ?_⟩
  · cases onss <;> rfl
  · cases onst <;> rfl
  · cases onss <;> rfl
  · cases onst <;> rfl

/-- Counterexample to C15 as stated: a record whose generic state is
`SESSION_STATE_LAST + 1` is packed with return value 0 and the message, which
carried the state 0, now carries that ordinal; likewise a record whose TCP state
is `NPF_TCPS_LAST + 1`. -/
theorem C15_counterexample :
    (state_msg 0).nss_state = 0 ∧
    (npf_state_pack_gen_pb (some { zero_nst with nst_gen_state := SESSION_STATE_LAST + 1 })
      (some (state_msg 0))).rc = 0 ∧
    (npf_state_pack_gen_pb (some { zero_nst with nst_gen_state := SESSION_STATE_LAST + 1 })
      (some (state_msg 0))).nss.map (fun x => x.nss_state) = some (SESSION_STATE_LAST + 1) ∧
    (npf_state_pack_tcp_pb (some { zero_nst with nst_tcp_state := NPF_TCPS_LAST + 1 })
      (some (state_msg 0))).rc = 0 ∧
    (npf_state_pack_tcp_pb (some { zero_nst with nst_tcp_state := NPF_TCPS_LAST + 1 })
      (some (state_msg 0))).nss.map (fun x => x.nss_state) = some (NPF_TCPS_LAST + 1) := by
  decide

/-! ## Creation and teardown of a record -/

/-- C16: `npf_state_init` returns false if and only if the timeout-policy store
has no handle for the domain; when the store has none, the statistics table,
the store (every reference count) and the record (its timeout reference
included) are returned as they were. -/
theorem C16_init_failure (store : npf_timeout_store) (stats : Nat → npf_state_stats)
    (lcore vrfid proto_idx : Nat) (nst : npf_state_t) :
    ((npf_state_init store stats lcore vrfid proto_idx nst).ok = false ↔
      store.vrf_to vrfid = none) ∧
    (store.vrf_to vrfid = none →
      (npf_state_init store stats lcore vrfid proto_idx nst).stats = stats ∧
      (npf_state_init store stats lcore vrfid proto_idx nst).store.refcnt = store.refcnt ∧
      (npf_state_init store stats lcore vrfid proto_idx nst).store.vrf_to = store.vrf_to ∧
      (npf_state_init store stats lcore vrfid proto_idx nst).nst = nst) := by
  unfold npf_state_init
  cases hv : store.vrf_to vrfid with
  | none => simp
  | some tmo =>
    by_cases hq : proto_idx = NPF_PROTO_IDX_TCP
    · simp [hq]
    · simp [hq]

/-- Witness of C16: domain `2` has no handle in the sample store. -/
theorem C16_init_failure_witness :
    sample_store.vrf_to 2 = none ∧
    (npf_state_init sample_store zero_stats 0 2 NPF_PROTO_IDX_UDP zero_nst).ok = false ∧
    (npf_state_init sample_store zero_stats 0 2 NPF_PROTO_IDX_UDP zero_nst).stats
      = zero_stats :=
  ⟨rfl,
    (C16_init_failure sample_store zero_stats 0 2 NPF_PROTO_IDX_UDP zero_nst).1.2 rfl,
    ((C16_init_failure sample_store zero_stats 0 2 NPF_PROTO_IDX_UDP zero_nst).2 rfl).1⟩

theorem init_tcp_form (store : npf_timeout_store) (stats : Nat → npf_state_stats)
    (lcore vrfid h : Nat) (nst : npf_state_t) (hv : store.vrf_to vrfid = some h) :
    npf_state_init store stats lcore vrfid NPF_PROTO_IDX_TCP nst =
      ⟨true, { store with refcnt := Function.update store.refcnt h (store.refcnt h + 1) },
        stats_inc_tcp stats lcore NPF_TCPS_NONE,
        { nst with
          nst_to := some h, nst_tcp_state := NPF_TCPS_NONE,
          nst_gen_state := SESSION_STATE_NONE }⟩ := by
  unfold npf_state_init
  simp only [hv]
  rfl

theorem init_gen_form (store : npf_timeout_store) (stats : Nat → npf_state_stats)
    (lcore vrfid proto_idx h : Nat) (nst : npf_state_t)
    (hv : store.vrf_to vrfid = some h) (hq : proto_idx ≠ NPF_PROTO_IDX_TCP) :
    npf_state_init store stats lcore vrfid proto_idx nst =
      ⟨true, { store with refcnt := Function.update store.refcnt h (store.refcnt h + 1) },
        stats_inc stats lcore proto_idx SESSION_STATE_NONE,
        { nst with nst_to := some h, nst_gen_state := SESSION_STATE_NONE }⟩ := by
  unfold npf_state_init
  simp only [hv]
  rw [if_neg hq]

/-- C17: when the store has a handle `h` for the domain, `npf_state_init`
succeeds for every protocol class: the record refers to `h`, the reference
count of `h` went up by one and no other count moved; for class TCP both
`tcp_state` and `generic_state` are NONE and the TCP NONE bucket is incremented
by one (as an unsigned 32-bit counter); for any other class `generic_state` is
NONE and the NONE bucket of that class is incremented by one; every other
bucket keeps its value. -/
theorem C17_init_success (store : npf_timeout_store) (stats : Nat → npf_state_stats)
    (lcore vrfid proto_idx h : Nat) (nst : npf_state_t)
    (hv : store.vrf_to vrfid = some h) (hp : proto_idx ≤ NPF_PROTO_IDX_LAST) :
    (npf_state_init store stats lcore vrfid proto_idx nst).ok = true ∧
    (npf_state_init store stats lcore vrfid proto_idx nst).nst.nst_to = some h ∧
    (npf_state_init store stats lcore vrfid proto_idx nst).store.refcnt h
      = store.refcnt h + 1 ∧
    (∀ h2, h2 ≠ h →
      (npf_state_init store stats lcore vrfid proto_idx nst).store.refcnt h2
        = store.refcnt h2) ∧
    (proto_idx = NPF_PROTO_IDX_TCP →
      (npf_state_init store stats lcore vrfid proto_idx nst).nst.nst_tcp_state
        = NPF_TCPS_NONE ∧
      (npf_state_init store stats lcore vrfid proto_idx nst).nst.nst_gen_state
        = SESSION_STATE_NONE ∧
      ((npf_state_init store stats lcore vrfid proto_idx nst).stats lcore).ss_tcp_ct
          NPF_TCPS_NONE = u32_inc ((stats lcore).ss_tcp_ct NPF_TCPS_NONE) ∧
      (∀ c s, ¬ (c = lcore ∧ s = NPF_TCPS_NONE) →
        ((npf_state_init store stats lcore vrfid proto_idx nst).stats c).ss_tcp_ct s
          = (stats c).ss_tcp_ct s) ∧
      (∀ c p s, ((npf_state_init store stats lcore vrfid proto_idx nst).stats c).ss_ct p s
          = (stats c).ss_ct p s)) ∧
    (proto_idx ≠ NPF_PROTO_IDX_TCP →
      (npf_state_init store stats lcore vrfid proto_idx nst).nst.nst_gen_state
        = SESSION_STATE_NONE ∧
      ((npf_state_init store stats lcore vrfid proto_idx nst).stats lcore).ss_ct proto_idx
          SESSION_STATE_NONE = u32_inc ((stats lcore).ss_ct proto_idx SESSION_STATE_NONE) ∧
      (∀ c p s, ¬ (c = lcore ∧ p = proto_idx ∧ s = SESSION_STATE_NONE) →
        ((npf_state_init store stats lcore vrfid proto_idx nst).stats c).ss_ct p s
          = (stats c).ss_ct p s) ∧
      (∀ c s, ((npf_state_init store stats lcore vrfid proto_idx nst).stats c).ss_tcp_ct s
          = (stats c).ss_tcp_ct s)) := by
  by_cases hq : proto_idx = NPF_PROTO_IDX_TCP
  · subst hq
    rw [init_tcp_form store stats lcore vrfid h nst hv]
    refine ⟨rfl, rfl, ?_, ?_, ?_, ?_⟩
    · show Function.update store.refcnt h (store.refcnt h + 1) h = store.refcnt h + 1
      simp
    · intro h2 hne
      show Function.update store.refcnt h (store.refcnt h + 1) h2 = store.refcnt h2
      simp [hne]
    · intro _
      refine ⟨rfl, rfl, ?_, ?_, ?_⟩
      · show ((stats_inc_tcp stats lcore NPF_TCPS_NONE) lcore).ss_tcp_ct NPF_TCPS_NONE = _
        rw [ss_tcp_ct_stats_inc_tcp _ _ _ _ _ (by decide)]
        simp
      · intro c s hn
        show ((stats_inc_tcp stats lcore NPF_TCPS_NONE) c).ss_tcp_ct s = _
        rw [ss_tcp_ct_stats_inc_tcp _ _ _ _ _ (by decide), if_neg hn]
      · intro c p s
        show ((stats_inc_tcp stats lcore NPF_TCPS_NONE) c).ss_ct p s = _
        rw [ss_ct_stats_inc_tcp]
    · intro hn
      exact absurd rfl hn
  · rw [init_gen_form store stats lcore vrfid proto_idx h nst hv hq]
    refine ⟨rfl, rfl, ?_, ?_, ?_, ?_⟩
    · show Function.update store.refcnt h (store.refcnt h + 1) h = store.refcnt h + 1
      simp
    · intro h2 hne
      show Function.update store.refcnt h (store.refcnt h + 1) h2 = store.refcnt h2
      simp [hne]
    · intro hn
      exact absurd hn hq
    · intro _
      refine ⟨rfl, ?_, ?_, ?_⟩
      · show ((stats_inc stats lcore proto_idx SESSION_STATE_NONE) lcore).ss_ct proto_idx
          SESSION_STATE_NONE = _
        rw [ss_ct_stats_inc _ _ _ _ _ _ _ (by decide) hp]
        simp
      · intro c p s hn
        show ((stats_inc stats lcore proto_idx SESSION_STATE_NONE) c).ss_ct p s = _
        rw [ss_ct_stats_inc _ _ _ _ _ _ _ (by decide) hp, if_neg hn]
      · intro c s
        show ((stats_inc stats lcore proto_idx SESSION_STATE_NONE) c).ss_tcp_ct s = _
        rw [ss_tcp_ct_stats_inc]

/-- Witness of C17: a UDP record initialised in domain `1` of the sample store,
whose handle `7` has one reference before the call. -/
theorem C17_init_success_witness :
    sample_store.vrf_to 1 = some 7 ∧
    NPF_PROTO_IDX_UDP ≤ NPF_PROTO_IDX_LAST ∧
    (npf_state_init sample_store zero_stats 0 1 NPF_PROTO_IDX_UDP zero_nst).ok = true ∧
    (npf_state_init sample_store zero_stats 0 1 NPF_PROTO_IDX_UDP zero_nst).store.refcnt 7
      = sample_store.refcnt 7 + 1 :=
  ⟨rfl, by decide,
    (C17_init_success sample_store zero_stats 0 1 NPF_PROTO_IDX_UDP 7 zero_nst rfl
      (by decide)).1,
    (C17_init_success sample_store zero_stats 0 1 NPF_PROTO_IDX_UDP 7 zero_nst rfl
      (by decide)).2.2.1⟩

theorem destroy_stats (store : npf_timeout_store) (stats : Nat → npf_state_stats)
    (lcore : Nat) (nst : npf_state_t) (p : Nat) :
    (npf_state_destroy store stats lcore nst p).stats =
      if p = NPF_PROTO_IDX_TCP then stats_dec_tcp stats lcore nst.nst_tcp_state
      else stats_dec stats lcore p nst.nst_gen_state := by
  unfold npf_state_destroy
  cases nst.nst_to <;> rfl

theorem udp_flow_form (ext : npf_ext) (icmp_strict : Bool) (store : npf_timeout_store)
    (stats : Nat → npf_state_stats) (lcore vrfid h : Nat) (nst0 : npf_state_t)
    (npc1 : npf_cache_t) (nbuf1 : rte_mbuf) (npc2 : npf_cache_t) (nbuf2 : rte_mbuf)
    (hv : store.vrf_to vrfid = some h) :
    (udp_flow_run ext icmp_strict store stats lcore vrfid nst0 npc1 nbuf1 npc2
      nbuf2).backward.nst.nst_gen_state = SESSION_STATE_ESTABLISHED ∧
    (udp_flow_run ext icmp_strict store stats lcore vrfid nst0 npc1 nbuf1 npc2
      nbuf2).backward.stats =
      stats_inc (stats_dec
        (stats_inc (stats_dec
          (stats_inc stats lcore NPF_PROTO_IDX_UDP SESSION_STATE_NONE)
          lcore NPF_PROTO_IDX_UDP SESSION_STATE_NONE)
          lcore NPF_PROTO_IDX_UDP SESSION_STATE_NEW)
        lcore NPF_PROTO_IDX_UDP SESSION_STATE_NEW)
        lcore NPF_PROTO_IDX_UDP SESSION_STATE_ESTABLISHED ∧
    (udp_flow_run ext icmp_strict store stats lcore vrfid nst0 npc1 nbuf1 npc2
      nbuf2).destroyed.stats =
      stats_dec (udp_flow_run ext icmp_strict store stats lcore vrfid nst0 npc1 nbuf1 npc2
        nbuf2).backward.stats lcore NPF_PROTO_IDX_UDP SESSION_STATE_ESTABLISHED := by
  unfold udp_flow_run
  simp only []
  rw [init_gen_form store stats lcore vrfid NPF_PROTO_IDX_UDP h nst0 hv (by decide)]
  simp only [inspect_udp_other_eq _ _ _ _ _ _ _ _ _ (Or.inl rfl), destroy_stats]
  simp [npf_state_inspect_other, npf_state_set_gen, npf_generic_fsm]

theorem u32_dec_inc (x : Nat) (h : x < UINT32_MOD) : u32_dec (u32_inc x) = x := by
  unfold u32_dec u32_inc
  simp only [UINT32_MOD] at h ⊢
  omega

/-- C18: `npf_state_destroy` on a record of a protocol class in a recognised
state decrements by one (as an unsigned 32-bit counter) exactly the bucket of
the record's current state: the TCP bucket of `tcp_state` for a TCP record,
otherwise the bucket of `generic_state` of the record's class; every other
bucket keeps its value.  And for a UDP record taken through init,
inspect(forward), inspect(backward), the record is ESTABLISHED, destroy
decrements the UDP ESTABLISHED bucket, and every UDP bucket is back at the
value it had before init. -/
theorem C18_destroy_bucket (ext : npf_ext) (icmp_strict : Bool) (store : npf_timeout_store)
    (stats : Nat → npf_state_stats) (lcore vrfid h proto_idx : Nat) (nst nst0 : npf_state_t)
    (npc1 : npf_cache_t) (nbuf1 : rte_mbuf) (npc2 : npf_cache_t) (nbuf2 : rte_mbuf)
    (hp : proto_idx ≤ NPF_PROTO_IDX_LAST)
    (hs : cur_state ⟨proto_idx, nst⟩ ≤ last_state proto_idx)
    (hv : store.vrf_to vrfid = some h)
    (hwf : ∀ s, (stats lcore).ss_ct NPF_PROTO_IDX_UDP s < UINT32_MOD) :
    (proto_idx = NPF_PROTO_IDX_TCP →
      ((npf_state_destroy store stats lcore nst proto_idx).stats lcore).ss_tcp_ct
          nst.nst_tcp_state = u32_dec ((stats lcore).ss_tcp_ct nst.nst_tcp_state) ∧
      (∀ c s, ¬ (c = lcore ∧ s = nst.nst_tcp_state) →
        ((npf_state_destroy store stats lcore nst proto_idx).stats c).ss_tcp_ct s
          = (stats c).ss_tcp_ct s) ∧
      (∀ c p s, ((npf_state_destroy store stats lcore nst proto_idx).stats c).ss_ct p s
          = (stats c).ss_ct p s)) ∧
    (proto_idx ≠ NPF_PROTO_IDX_TCP →
      ((npf_state_destroy store stats lcore nst proto_idx).stats lcore).ss_ct proto_idx
          nst.nst_gen_state = u32_dec ((stats lcore).ss_ct proto_idx nst.nst_gen_state) ∧
      (∀ c p s, ¬ (c = lcore ∧ p = proto_idx ∧ s = nst.nst_gen_state) →
        ((npf_state_destroy store stats lcore nst proto_idx).stats c).ss_ct p s
          = (stats c).ss_ct p s) ∧
      (∀ c s, ((npf_state_destroy store stats lcore nst proto_idx).stats c).ss_tcp_ct s
          = (stats c).ss_tcp_ct s)) ∧
    (udp_flow_run ext icmp_strict store stats lcore vrfid nst0 npc1 nbuf1 npc2
      nbuf2).backward.nst.nst_gen_state = SESSION_STATE_ESTABLISHED ∧
    (((udp_flow_run ext icmp_strict store stats lcore vrfid nst0 npc1 nbuf1 npc2
      nbuf2).destroyed.stats lcore).ss_ct NPF_PROTO_IDX_UDP SESSION_STATE_ESTABLISHED
      = u32_dec (((udp_flow_run ext icmp_strict store stats lcore vrfid nst0 npc1 nbuf1 npc2
          nbuf2).backward.stats lcore).ss_ct NPF_PROTO_IDX_UDP SESSION_STATE_ESTABLISHED)) ∧
    (∀ c s,
      ((udp_flow_run ext icmp_strict store stats lcore vrfid nst0 npc1 nbuf1 npc2
        nbuf2).destroyed.stats c).ss_ct NPF_PROTO_IDX_UDP s
        = (stats c).ss_ct NPF_PROTO_IDX_UDP s) := by
  obtain ⟨hf1, hf2, hf3⟩ := udp_flow_form ext icmp_strict store stats lcore vrfid h nst0
    npc1 nbuf1 npc2 nbuf2 hv
  refine ⟨?_, ?_, hf1, ?_, ?_⟩
  · intro hq
    have hs2 : nst.nst_tcp_state ≤ NPF_TCPS_LAST := by
      simpa [cur_state, last_state, hq] using hs
    rw [destroy_stats, if_pos hq]
    refine ⟨?_, ?_, ?_⟩
    · rw [ss_tcp_ct_stats_dec_tcp _ _ _ _ _ hs2]
      simp
    · intro c s hn
      rw [ss_tcp_ct_stats_dec_tcp _ _ _ _ _ hs2, if_neg hn]
    · intro c p s
      rw [ss_ct_stats_dec_tcp]
  · intro hq
    have hs2 : nst.nst_gen_state ≤ SESSION_STATE_LAST := by
      simpa [cur_state, last_state, hq] using hs
    rw [destroy_stats, if_neg hq]
    refine ⟨?_, ?_, ?_⟩
    · rw [ss_ct_stats_dec _ _ _ _ _ _ _ hs2 hp]
      simp
    · intro c p s hn
      rw [ss_ct_stats_dec _ _ _ _ _ _ _ hs2 hp, if_neg hn]
    · intro c s
      rw [ss_tcp_ct_stats_dec]
  · rw [hf3, ss_ct_stats_dec _ _ _ _ _ _ _ (by decide) (by decide)]
    simp
  · intro c s
    rw [hf3, hf2]
    rw [ss_ct_stats_dec _ _ _ _ _ _ _ (by decide) (by decide),
      ss_ct_stats_inc _ _ _ _ _ _ _ (by decide) (by decide),
      ss_ct_stats_dec _ _ _ _ _ _ _ (by decide) (by decide),
      ss_ct_stats_inc _ _ _ _ _ _ _ (by decide) (by decide),
      ss_ct_stats_dec _ _ _ _ _ _ _ (by decide) (by decide),
      ss_ct_stats_inc _ _ _ _ _ _ _ (by decide) (by decide)]
    by_cases hc : c = lcore
    · subst hc
      have hx := hwf s
      by_cases h0 : s = SESSION_STATE_NONE
      · subst h0
        simp [u32_dec_inc _ hx]
      · by_cases h1 : s = SESSION_STATE_NEW
        · subst h1
          simp [u32_dec_inc _ hx]
        · by_cases h2 : s = SESSION_STATE_ESTABLISHED
          · subst h2
            simp [u32_dec_inc _ hx]
          · simp [h0, h1, h2]
    · simp [hc]

/-- Witness of C18: a UDP record in state ESTABLISHED, and the UDP flow in
domain `1` of the sample store over a zeroed statistics table. -/
theorem C18_destroy_bucket_witness :
    NPF_PROTO_IDX_UDP ≤ NPF_PROTO_IDX_LAST ∧
    cur_state ⟨NPF_PROTO_IDX_UDP, { zero_nst with nst_gen_state := SESSION_STATE_ESTABLISHED }⟩
      ≤ last_state NPF_PROTO_IDX_UDP ∧
    sample_store.vrf_to 1 = some 7 ∧
    (∀ s, (zero_stats 0).ss_ct NPF_PROTO_IDX_UDP s < UINT32_MOD) ∧
    (∀ c s,
      ((udp_flow_run sample_ext false sample_store zero_stats 0 1 zero_nst plain_npc []
        plain_npc []).destroyed.stats c).ss_ct NPF_PROTO_IDX_UDP s
        = (zero_stats c).ss_ct NPF_PROTO_IDX_UDP s) :=
  ⟨by decide, by decide, rfl, fun _ => show (0 : Nat) < UINT32_MOD from by decide,
    (C18_destroy_bucket sample_ext false sample_store zero_stats 0 1 7 NPF_PROTO_IDX_UDP
      { zero_nst with nst_gen_state := SESSION_STATE_ESTABLISHED } zero_nst plain_npc []
      plain_npc [] (by decide) (by decide) rfl (fun _ => show (0 : Nat) < UINT32_MOD from by decide)).2.2.2.2⟩

/-! ## Forced close and the internal restore -/

theorem set_gen_closed_changed (stats : Nat → npf_state_stats) (lcore : Nat)
    (nst : npf_state_t) (lk : Bool) (p : Nat)
    (h : nst.nst_gen_state ≠ SESSION_STATE_CLOSED) :
    npf_state_set_gen_closed stats lcore nst lk p =
      ⟨0, stats_inc (stats_dec stats lcore p nst.nst_gen_state) lcore p SESSION_STATE_CLOSED,
        { nst with nst_gen_state := SESSION_STATE_CLOSED },
        [session_event.gen_state_change nst.nst_gen_state SESSION_STATE_CLOSED p]⟩ := by
  unfold npf_state_set_gen_closed
  rw [set_gen_changed _ _ _ _ _ _ h]
  rfl

theorem set_gen_closed_same (stats : Nat → npf_state_stats) (lcore : Nat)
    (nst : npf_state_t) (lk : Bool) (p : Nat)
    (h : nst.nst_gen_state = SESSION_STATE_CLOSED) :
    npf_state_set_gen_closed stats lcore nst lk p = ⟨0, stats, nst, []⟩ := by
  unfold npf_state_set_gen_closed
  rw [set_gen_same _ _ _ _ _ _ h]
  rfl

theorem set_tcp_closed_changed (ext : npf_ext) (stats : Nat → npf_state_stats) (lcore : Nat)
    (nst : npf_state_t) (lk : Bool) (h : nst.nst_tcp_state ≠ NPF_TCPS_CLOSED) :
    npf_state_set_tcp_closed ext stats lcore nst lk =
      ⟨0, stats_inc_tcp (stats_dec_tcp stats lcore nst.nst_tcp_state) lcore NPF_TCPS_CLOSED,
        { nst with
          nst_tcp_state := NPF_TCPS_CLOSED
          nst_gen_state := ext.npf_state_tcp2gen NPF_TCPS_CLOSED },
        [session_event.tcp_state_change nst.nst_tcp_state NPF_TCPS_CLOSED]⟩ := by
  unfold npf_state_set_tcp_closed
  rw [set_tcp_changed _ _ _ _ _ _ h]
  rfl

theorem set_tcp_closed_same (ext : npf_ext) (stats : Nat → npf_state_stats) (lcore : Nat)
    (nst : npf_state_t) (lk : Bool) (h : nst.nst_tcp_state = NPF_TCPS_CLOSED) :
    npf_state_set_tcp_closed ext stats lcore nst lk = ⟨0, stats, nst, []⟩ := by
  unfold npf_state_set_tcp_closed
  rw [set_tcp_same _ _ _ _ _ _ h]
  rfl

/-- C19, as the code has it: forced close, on a record of a protocol class in a
recognised state.  `npf_state_set_gen_closed` leaves `generic_state` equal to
CLOSED and `npf_state_set_tcp_closed` leaves `tcp_state` equal to CLOSED.  When
the old state was not CLOSED, one count moves from the old state's bucket to the
CLOSED bucket (as unsigned 32-bit counters), no other bucket changes, the session
layer is notified once with (old, CLOSED) and, for TCP, `generic_state` becomes
the TCP-to-generic mapping of CLOSED.  When the old state was CLOSED already,
record and statistics are as before and no notification is made; a TCP record
that was CLOSED keeps the `generic_state` it had, whatever it was.  The outcome
is the same for the lock flag true and false. -/
theorem C19_forced_close (ext : npf_ext) (stats : Nat → npf_state_stats) (lcore : Nat)
    (gnst tnst : npf_state_t) (proto_idx : Nat) (lk : Bool)
    (hp : proto_idx ≤ NPF_PROTO_IDX_LAST)
    (hg : gnst.nst_gen_state ≤ SESSION_STATE_LAST)
    (ht : tnst.nst_tcp_state ≤ NPF_TCPS_LAST) :
    (npf_state_set_gen_closed stats lcore gnst lk proto_idx).nst.nst_gen_state
      = SESSION_STATE_CLOSED ∧
    (gnst.nst_gen_state ≠ SESSION_STATE_CLOSED →
      ((npf_state_set_gen_closed stats lcore gnst lk proto_idx).stats lcore).ss_ct proto_idx
          gnst.nst_gen_state = u32_dec ((stats lcore).ss_ct proto_idx gnst.nst_gen_state) ∧
      ((npf_state_set_gen_closed stats lcore gnst lk proto_idx).stats lcore).ss_ct proto_idx
          SESSION_STATE_CLOSED = u32_inc ((stats lcore).ss_ct proto_idx SESSION_STATE_CLOSED) ∧
      (∀ c p s, ¬ (c = lcore ∧ p = proto_idx ∧ s = gnst.nst_gen_state) →
        ¬ (c = lcore ∧ p = proto_idx ∧ s = SESSION_STATE_CLOSED) →
        ((npf_state_set_gen_closed stats lcore gnst lk proto_idx).stats c).ss_ct p s
          = (stats c).ss_ct p s) ∧
      (∀ c s, ((npf_state_set_gen_closed stats lcore gnst lk proto_idx).stats c).ss_tcp_ct s
          = (stats c).ss_tcp_ct s) ∧
      (npf_state_set_gen_closed stats lcore gnst lk proto_idx).events
        = [session_event.gen_state_change gnst.nst_gen_state SESSION_STATE_CLOSED proto_idx]) ∧
    (gnst.nst_gen_state = SESSION_STATE_CLOSED →
      (npf_state_set_gen_closed stats lcore gnst lk proto_idx).stats = stats ∧
      (npf_state_set_gen_closed stats lcore gnst lk proto_idx).nst = gnst ∧
      (npf_state_set_gen_closed stats lcore gnst lk proto_idx).events = []) ∧
    (npf_state_set_tcp_closed ext stats lcore tnst lk).nst.nst_tcp_state = NPF_TCPS_CLOSED ∧
    (tnst.nst_tcp_state ≠ NPF_TCPS_CLOSED →
      (npf_state_set_tcp_closed ext stats lcore tnst lk).nst.nst_gen_state
        = ext.npf_state_tcp2gen NPF_TCPS_CLOSED ∧
      ((npf_state_set_tcp_closed ext stats lcore tnst lk).stats lcore).ss_tcp_ct
          tnst.nst_tcp_state = u32_dec ((stats lcore).ss_tcp_ct tnst.nst_tcp_state) ∧
      ((npf_state_set_tcp_closed ext stats lcore tnst lk).stats lcore).ss_tcp_ct
          NPF_TCPS_CLOSED = u32_inc ((stats lcore).ss_tcp_ct NPF_TCPS_CLOSED) ∧
      (∀ c s, ¬ (c = lcore ∧ s = tnst.nst_tcp_state) → ¬ (c = lcore ∧ s = NPF_TCPS_CLOSED) →
        ((npf_state_set_tcp_closed ext stats lcore tnst lk).stats c).ss_tcp_ct s
          = (stats c).ss_tcp_ct s) ∧
      (∀ c p s, ((npf_state_set_tcp_closed ext stats lcore tnst lk).stats c).ss_ct p s
          = (stats c).ss_ct p s) ∧
      (npf_state_set_tcp_closed ext stats lcore tnst lk).events
        = [session_event.tcp_state_change tnst.nst_tcp_state NPF_TCPS_CLOSED]) ∧
    (tnst.nst_tcp_state = NPF_TCPS_CLOSED →
      (npf_state_set_tcp_closed ext stats lcore tnst lk).stats = stats ∧
      (npf_state_set_tcp_closed ext stats lcore tnst lk).nst = tnst ∧
      (npf_state_set_tcp_closed ext stats lcore tnst lk).nst.nst_gen_state
        = tnst.nst_gen_state ∧
      (npf_state_set_tcp_closed ext stats lcore tnst lk).events = []) ∧
    npf_state_set_gen_closed stats lcore gnst true proto_idx
      = npf_state_set_gen_closed stats lcore gnst false proto_idx ∧
    npf_state_set_tcp_closed ext stats lcore tnst true
      = npf_state_set_tcp_closed ext stats lcore tnst false := by
  refine ⟨?_, ?_, ?_, ?_, ?_, ?_, rfl, rfl⟩
  · by_cases h : gnst.nst_gen_state = SESSION_STATE_CLOSED
    · rw [set_gen_closed_same _ _ _ _ _ h]; exact h
    · rw [set_gen_closed_changed _ _ _ _ _ h]
  · intro h
    rw [set_gen_closed_changed _ _ _ _ _ h]
    have hm := moved_gen_count stats lcore proto_idx gnst.nst_gen_state SESSION_STATE_CLOSED
      hp hg (by decide) h
    exact ⟨hm.1, hm.2.1, hm.2.2.1, hm.2.2.2, rfl⟩
  · intro h
    rw [set_gen_closed_same _ _ _ _ _ h]
    exact ⟨rfl, rfl, rfl⟩
  · by_cases h : tnst.nst_tcp_state = NPF_TCPS_CLOSED
    · rw [set_tcp_closed_same _ _ _ _ _ h]; exact h
    · rw [set_tcp_closed_changed _ _ _ _ _ h]
  · intro h
    rw [set_tcp_closed_changed _ _ _ _ _ h]
    have hm := moved_tcp_count stats lcore tnst.nst_tcp_state NPF_TCPS_CLOSED ht
      (by decide) h
    exact ⟨rfl, hm.1, hm.2.1, hm.2.2.1, hm.2.2.2, rfl⟩
  · intro h
    rw [set_tcp_closed_same _ _ _ _ _ h]
    exact ⟨rfl, rfl, rfl, rfl⟩

/-- Witness of C19: a UDP record in state NEW and the sample ESTABLISHED TCP
record are marked closed; the TCP record ends with the generic state CLOSED
projects to. -/
theorem C19_forced_close_witness :
    NPF_PROTO_IDX_UDP ≤ NPF_PROTO_IDX_LAST ∧
    ({ zero_nst with nst_gen_state := SESSION_STATE_NEW } : npf_state_t).nst_gen_state
      ≤ SESSION_STATE_LAST ∧
    sample_tcp_nst.nst_tcp_state ≤ NPF_TCPS_LAST ∧
    sample_tcp_nst.nst_tcp_state ≠ NPF_TCPS_CLOSED ∧
    (npf_state_set_gen_closed zero_stats 0 { zero_nst with nst_gen_state := SESSION_STATE_NEW }
      true NPF_PROTO_IDX_UDP).nst.nst_gen_state = SESSION_STATE_CLOSED ∧
    (npf_state_set_tcp_closed sample_ext zero_stats 0 sample_tcp_nst true).nst.nst_tcp_state
      = NPF_TCPS_CLOSED ∧
    (npf_state_set_tcp_closed sample_ext zero_stats 0 sample_tcp_nst true).nst.nst_gen_state
      = sample_ext.npf_state_tcp2gen NPF_TCPS_CLOSED :=
  ⟨by decide, by decide, by decide, by decide,
    (C19_forced_close sample_ext zero_stats 0
      { zero_nst with nst_gen_state := SESSION_STATE_NEW } sample_tcp_nst NPF_PROTO_IDX_UDP
      true (by decide) (by decide) (by decide)).1,
    (C19_forced_close sample_ext zero_stats 0
      { zero_nst with nst_gen_state := SESSION_STATE_NEW } sample_tcp_nst NPF_PROTO_IDX_UDP
      true (by decide) (by decide) (by decide)).2.2.2.1,
    ((C19_forced_close sample_ext zero_stats 0
      { zero_nst with nst_gen_state := SESSION_STATE_NEW } sample_tcp_nst NPF_PROTO_IDX_UDP
      true (by decide) (by decide) (by decide)).2.2.2.2.1 (by decide)).1⟩

/-- Counterexample to C19 as stated: a TCP session is created, restored to
CLOSED with `npf_state_restore_tcp_pb` (which stores `tcp_state` only) and then
marked closed with `npf_state_set_tcp_closed`.  The record is already CLOSED, so
the call changes nothing: `tcp_state` is CLOSED and `generic_state` is still
NONE, which is not the TCP-to-generic mapping of CLOSED; no count has moved to
the CLOSED bucket.  The same on the record taken by itself. -/
theorem C19_counterexample :
    (engine_run sample_ext false 0 (engine_start sample_store)
        [engine_op.init 1 NPF_PROTO_IDX_TCP zero_nst,
          engine_op.restore_tcp_pb 0 (state_msg NPF_TCPS_CLOSED)]).sessions.map
        (fun se => (se.s_state.nst_tcp_state, se.s_state.nst_gen_state))
      = [(NPF_TCPS_CLOSED, SESSION_STATE_NONE)] ∧
    (engine_run sample_ext false 0 (engine_start sample_store)
        [engine_op.init 1 NPF_PROTO_IDX_TCP zero_nst,
          engine_op.restore_tcp_pb 0 (state_msg NPF_TCPS_CLOSED),
          engine_op.set_tcp_closed 0 true]).sessions.map
        (fun se => (se.s_state.nst_tcp_state, se.s_state.nst_gen_state))
      = [(NPF_TCPS_CLOSED, SESSION_STATE_NONE)] ∧
    bucket ((engine_run sample_ext false 0 (engine_start sample_store)
        [engine_op.init 1 NPF_PROTO_IDX_TCP zero_nst,
          engine_op.restore_tcp_pb 0 (state_msg NPF_TCPS_CLOSED),
          engine_op.set_tcp_closed 0 true]).stats 0) NPF_PROTO_IDX_TCP NPF_TCPS_CLOSED = 0 ∧
    (npf_state_set_tcp_closed sample_ext zero_stats 0
      ⟨fun _ => zero_win, some 7, NPF_TCPS_CLOSED, SESSION_STATE_NONE⟩ true).nst.nst_gen_state
      = SESSION_STATE_NONE ∧
    (npf_state_set_tcp_closed sample_ext zero_stats 0
      ⟨fun _ => zero_win, some 7, NPF_TCPS_CLOSED, SESSION_STATE_NONE⟩ true).events = [] ∧
    sample_ext.npf_state_tcp2gen NPF_TCPS_CLOSED = SESSION_STATE_CLOSED ∧
    SESSION_STATE_NONE ≠ sample_ext.npf_state_tcp2gen NPF_TCPS_CLOSED := by
  decide

/-- C20: the internal TCP restore.  For every record, packed session state and
incoming flag, `npf_state_pack_update_tcp` is the state-set primitive applied,
with the packed TCP state, to the record whose four window fields of both flow
directions have been overwritten with the packed values; so the windows of the
result are the packed ones whether or not the state changes, `tcp_state` is the
packed state, the flag is set when the packed state differs from the prior one
and left as it was otherwise; with the flag cleared on entry, it is true exactly
when the packed TCP state differs from the record's prior TCP state. -/
theorem C20_pack_update_tcp (ext : npf_ext) (stats : Nat → npf_state_stats) (lcore : Nat)
    (nst : npf_state_t) (pst : npf_pack_session_state) (state_changed : Bool) :
    npf_state_pack_update_tcp ext stats lcore nst pst state_changed
      = npf_state_set_tcp ext stats lcore
          { nst with
            nst_tcp_win := fun fl =>
              ⟨(pst.pst_tcp_win fl).ptw_end, (pst.pst_tcp_win fl).ptw_maxend,
                (pst.pst_tcp_win fl).ptw_maxwin, (pst.pst_tcp_win fl).ptw_wscale⟩ }
          pst.pst_tcp_state state_changed ∧
    (∀ fl, (npf_state_pack_update_tcp ext stats lcore nst pst state_changed).nst.nst_tcp_win fl
      = ⟨(pst.pst_tcp_win fl).ptw_end, (pst.pst_tcp_win fl).ptw_maxend,
          (pst.pst_tcp_win fl).ptw_maxwin, (pst.pst_tcp_win fl).ptw_wscale⟩) ∧
    (npf_state_pack_update_tcp ext stats lcore nst pst state_changed).nst.nst_tcp_state
      = pst.pst_tcp_state ∧
    ((npf_state_pack_update_tcp ext stats lcore nst pst false).state_changed = true ↔
      pst.pst_tcp_state ≠ nst.nst_tcp_state) ∧
    (npf_state_pack_update_tcp ext stats lcore nst pst state_changed).state_changed
      = (state_changed || decide (pst.pst_tcp_state ≠ nst.nst_tcp_state)) := by
  refine ⟨rfl, ?_, ?_, ?_, ?_⟩
  · intro fl
    unfold npf_state_pack_update_tcp
    rw [win_set_tcp]
  · unfold npf_state_pack_update_tcp
    rw [tcp_state_set_tcp]
  · unfold npf_state_pack_update_tcp npf_state_set_tcp
    by_cases h : nst.nst_tcp_state = pst.pst_tcp_state
    · simp [h]
    · have h2 : ¬ pst.pst_tcp_state = nst.nst_tcp_state := fun e => h e.symm
      simp [h, h2]
  · unfold npf_state_pack_update_tcp npf_state_set_tcp
    by_cases h : nst.nst_tcp_state = pst.pst_tcp_state
    · simp [h]
    · have h2 : ¬ pst.pst_tcp_state = nst.nst_tcp_state := fun e => h e.symm
      simp [h, h2]

/-! ## Custom timeout lookup -/

/-- C22: `npf_state_get_custom_timeout` returns the matching rule's tag value
when the lookup in the custom-timeout ruleset yields a rule and that rule carries
a tag; it returns 0 when no rule matches and when the matching rule has no
tag. -/
theorem C22_custom_timeout (rx : npf_rule_ext) (vrfid : Nat) (npc : npf_cache_t)
    (nbuf : rte_mbuf) :
    (∀ r, rx.npf_ruleset_inspect npc nbuf
        (rx.npf_get_ruleset (rx.vrf_get_npf_conf_rcu vrfid) rx.NPF_RS_CUSTOM_TIMEOUT) = some r →
      (rx.npf_rule_rproc_tag r).2 = true →
      npf_state_get_custom_timeout rx vrfid npc nbuf = (rx.npf_rule_rproc_tag r).1) ∧
    (rx.npf_ruleset_inspect npc nbuf
        (rx.npf_get_ruleset (rx.vrf_get_npf_conf_rcu vrfid) rx.NPF_RS_CUSTOM_TIMEOUT) = none →
      npf_state_get_custom_timeout rx vrfid npc nbuf = 0) ∧
    (∀ r, rx.npf_ruleset_inspect npc nbuf
        (rx.npf_get_ruleset (rx.vrf_get_npf_conf_rcu vrfid) rx.NPF_RS_CUSTOM_TIMEOUT) = some r →
      (rx.npf_rule_rproc_tag r).2 = false →
      npf_state_get_custom_timeout rx vrfid npc nbuf = 0) := by
  unfold npf_state_get_custom_timeout
  refine ⟨?_, ?_, ?_⟩
  · intro r hr ht
    simp [hr, ht]
  · intro hr
    simp [hr]
  · intro r hr ht
    simp [hr, ht]

/-- Witness of C22: with the sample rule engine a packet matching rule `3`
gets the tag `30`, a packet matching no rule gets 0 and a packet matching the
untagged rule `4` gets 0. -/
theorem C22_custom_timeout_witness :
    npf_state_get_custom_timeout sample_rule_ext 1 ⟨false, [3]⟩ [] = 30 ∧
    npf_state_get_custom_timeout sample_rule_ext 1 plain_npc [] = 0 ∧
    npf_state_get_custom_timeout sample_rule_ext 1 ⟨false, [4]⟩ [] = 0 :=
  ⟨(C22_custom_timeout sample_rule_ext 1 ⟨false, [3]⟩ []).1 3 rfl rfl,
    (C22_custom_timeout sample_rule_ext 1 plain_npc []).2.1 rfl,
    (C22_custom_timeout sample_rule_ext 1 ⟨false, [4]⟩ []).2.2 4 rfl rfl⟩

/-! ## Idempotence, notification and reachability of the generic FSM -/

theorem inspect_other_form (stats : Nat → npf_state_stats) (lcore : Nat)
    (nst : npf_state_t) (p : Nat) (d : npf_flow_dir) :
    (nst.nst_gen_state = npf_generic_fsm nst.nst_gen_state d ∧
      npf_state_inspect_other stats lcore nst p d = ⟨0, stats, nst, []⟩) ∨
    (nst.nst_gen_state ≠ npf_generic_fsm nst.nst_gen_state d ∧
      npf_state_inspect_other stats lcore nst p d =
        ⟨0, stats_inc (stats_dec stats lcore p nst.nst_gen_state) lcore p
            (npf_generic_fsm nst.nst_gen_state d),
          { nst with nst_gen_state := npf_generic_fsm nst.nst_gen_state d },
          [session_event.gen_state_change nst.nst_gen_state
            (npf_generic_fsm nst.nst_gen_state d) p]⟩) := by
  by_cases h : nst.nst_gen_state = npf_generic_fsm nst.nst_gen_state d
  · left
    refine ⟨h, ?_⟩
    unfold npf_state_inspect_other
    simp only []
    rw [set_gen_same _ _ _ _ _ _ h]
    rfl
  · right
    refine ⟨h, ?_⟩
    unfold npf_state_inspect_other
    simp only []
    rw [set_gen_changed _ _ _ _ _ _ h]
    rfl

theorem inspect_icmp_cases (ext : npf_ext) (icmp_strict : Bool)
    (stats : Nat → npf_state_stats) (lcore : Nat) (npc : npf_cache_t) (nst : npf_state_t)
    (d : npf_flow_dir) :
    npf_state_inspect_icmp ext icmp_strict stats lcore npc nst d
      = npf_state_inspect_other stats lcore nst NPF_PROTO_IDX_ICMP d ∨
    ∃ rc : Int, rc ≠ 0 ∧
      npf_state_inspect_icmp ext icmp_strict stats lcore npc nst d = ⟨rc, stats, nst, []⟩ := by
  unfold npf_state_inspect_icmp npf_state_inspect_other
  simp only []
  generalize (if ((icmp_strict || nst.nst_gen_state == SESSION_STATE_NONE) &&
      xor (d == NPF_FLOW_FORW) npc.npc_icmp_echo_req) = true then
      -(ext.NPF_RC_ICMP_ECHO : Int) else 0) = rc
  by_cases h : rc = 0
  · left
    subst h
    simp
  · right
    exact ⟨rc, h, by simp [h]⟩

/-- C23: idempotence of the generic transition.  For every UDP, OTHER or ICMP
record in generic state `s` and every direction `d` such that the table maps its
result for `(s, d)` to itself under `d`, a second inspect with direction `d`
(for ICMP: of the same packet) returns the statistics table and the record as
the first one left them (so two applications change the buckets exactly as one
does), and the second application makes no call into the session layer. -/
theorem C23_generic_idempotent (ext : npf_ext) (icmp_strict : Bool)
    (stats : Nat → npf_state_stats) (lcore : Nat) (npc npc2 : npf_cache_t)
    (nbuf nbuf2 : rte_mbuf) (nst : npf_state_t) (proto_idx : Nat) (forw : Bool)
    (hp : proto_idx = NPF_PROTO_IDX_UDP ∨ proto_idx = NPF_PROTO_IDX_OTHER ∨
      proto_idx = NPF_PROTO_IDX_ICMP)
    (hpkt : proto_idx = NPF_PROTO_IDX_ICMP → npc2 = npc)
    (hfix : npf_generic_fsm
        (npf_generic_fsm nst.nst_gen_state (if forw then NPF_FLOW_FORW else NPF_FLOW_BACK))
        (if forw then NPF_FLOW_FORW else NPF_FLOW_BACK)
      = npf_generic_fsm nst.nst_gen_state (if forw then NPF_FLOW_FORW else NPF_FLOW_BACK)) :
    (npf_state_inspect ext icmp_strict
      (npf_state_inspect ext icmp_strict stats lcore npc nbuf nst proto_idx forw).stats lcore
      npc2 nbuf2
      (npf_state_inspect ext icmp_strict stats lcore npc nbuf nst proto_idx forw).nst
      proto_idx forw).stats
      = (npf_state_inspect ext icmp_strict stats lcore npc nbuf nst proto_idx forw).stats ∧
    (npf_state_inspect ext icmp_strict
      (npf_state_inspect ext icmp_strict stats lcore npc nbuf nst proto_idx forw).stats lcore
      npc2 nbuf2
      (npf_state_inspect ext icmp_strict stats lcore npc nbuf nst proto_idx forw).nst
      proto_idx forw).nst
      = (npf_state_inspect ext icmp_strict stats lcore npc nbuf nst proto_idx forw).nst ∧
    (npf_state_inspect ext icmp_strict
      (npf_state_inspect ext icmp_strict stats lcore npc nbuf nst proto_idx forw).stats lcore
      npc2 nbuf2
      (npf_state_inspect ext icmp_strict stats lcore npc nbuf nst proto_idx forw).nst
      proto_idx forw).events = [] := by
  have h1 := inspect_other_gen_state stats lcore nst proto_idx
    (if forw then NPF_FLOW_FORW else NPF_FLOW_BACK)
  have hstay : ∀ r1 : outcome,
      r1.nst.nst_gen_state
        = npf_generic_fsm nst.nst_gen_state (if forw then NPF_FLOW_FORW else NPF_FLOW_BACK) →
      npf_state_inspect_other r1.stats lcore r1.nst proto_idx
        (if forw then NPF_FLOW_FORW else NPF_FLOW_BACK) = ⟨0, r1.stats, r1.nst, []⟩ := by
    intro r1 hr1
    have hsame : r1.nst.nst_gen_state = npf_generic_fsm r1.nst.nst_gen_state
        (if forw then NPF_FLOW_FORW else NPF_FLOW_BACK) := by
      rw [hr1, hfix]
    rcases inspect_other_form r1.stats lcore r1.nst proto_idx
      (if forw then NPF_FLOW_FORW else NPF_FLOW_BACK) with h | h
    · exact h.2
    · exact absurd hsame h.1
  by_cases hq : proto_idx = NPF_PROTO_IDX_ICMP
  · have hn := hpkt hq
    subst hn
    subst hq
    rw [inspect_icmp_eq _ _ _ _ npc2 nbuf2, inspect_icmp_eq _ _ _ _ npc2 nbuf]
    rcases inspect_icmp_cases ext icmp_strict stats lcore npc2 nst
      (if forw then NPF_FLOW_FORW else NPF_FLOW_BACK) with hfirst | ⟨rc, _, hfirst⟩
    · rw [hfirst]
      rcases inspect_icmp_cases ext icmp_strict
        (npf_state_inspect_other stats lcore nst NPF_PROTO_IDX_ICMP
          (if forw then NPF_FLOW_FORW else NPF_FLOW_BACK)).stats lcore npc2
        (npf_state_inspect_other stats lcore nst NPF_PROTO_IDX_ICMP
          (if forw then NPF_FLOW_FORW else NPF_FLOW_BACK)).nst
        (if forw then NPF_FLOW_FORW else NPF_FLOW_BACK) with hsecond | ⟨rc2, _, hsecond⟩
      · rw [hsecond, hstay _ h1]
        exact ⟨rfl, rfl, rfl⟩
      · rw [hsecond]
        exact ⟨rfl, rfl, rfl⟩
    · rw [hfirst]
      show (npf_state_inspect_icmp ext icmp_strict stats lcore npc2 nst
          (if forw then NPF_FLOW_FORW else NPF_FLOW_BACK)).stats = stats ∧
        (npf_state_inspect_icmp ext icmp_strict stats lcore npc2 nst
          (if forw then NPF_FLOW_FORW else NPF_FLOW_BACK)).nst = nst ∧
        (npf_state_inspect_icmp ext icmp_strict stats lcore npc2 nst
          (if forw then NPF_FLOW_FORW else NPF_FLOW_BACK)).events = []
      rw [hfirst]
      exact ⟨rfl, rfl, rfl⟩
  · have hp2 : proto_idx = NPF_PROTO_IDX_UDP ∨ proto_idx = NPF_PROTO_IDX_OTHER := by
      rcases hp with h | h | h
      · exact Or.inl h
      · exact Or.inr h
      · exact absurd h hq
    rw [inspect_udp_other_eq _ _ _ _ npc2 nbuf2 _ _ _ hp2,
      inspect_udp_other_eq _ _ _ _ npc nbuf _ _ _ hp2]
    rw [hstay _ h1]
    exact ⟨rfl, rfl, rfl⟩

/-- Witness of C23: a fresh UDP record and two forward packets (NONE goes to
NEW, and NEW stays NEW under forward). -/
theorem C23_generic_idempotent_witness :
    (NPF_PROTO_IDX_UDP = NPF_PROTO_IDX_UDP ∨ NPF_PROTO_IDX_UDP = NPF_PROTO_IDX_OTHER ∨
      NPF_PROTO_IDX_UDP = NPF_PROTO_IDX_ICMP) ∧
    (NPF_PROTO_IDX_UDP = NPF_PROTO_IDX_ICMP → plain_npc = plain_npc) ∧
    npf_generic_fsm
        (npf_generic_fsm zero_nst.nst_gen_state (if true then NPF_FLOW_FORW else NPF_FLOW_BACK))
        (if true then NPF_FLOW_FORW else NPF_FLOW_BACK)
      = npf_generic_fsm zero_nst.nst_gen_state (if true then NPF_FLOW_FORW else NPF_FLOW_BACK) ∧
    (npf_state_inspect sample_ext false
      (npf_state_inspect sample_ext false zero_stats 0 plain_npc [] zero_nst
        NPF_PROTO_IDX_UDP true).stats 0 plain_npc []
      (npf_state_inspect sample_ext false zero_stats 0 plain_npc [] zero_nst
        NPF_PROTO_IDX_UDP true).nst
      NPF_PROTO_IDX_UDP true).events = [] :=
  ⟨Or.inl rfl, fun _ => rfl, by decide,
    (C23_generic_idempotent sample_ext false zero_stats 0 plain_npc plain_npc [] [] zero_nst
      NPF_PROTO_IDX_UDP true (Or.inl rfl) (fun _ => rfl) (by decide)).2.2⟩

theorem inspect_tcp_cases (ext : npf_ext) (stats : Nat → npf_state_stats) (lcore : Nat)
    (npc : npf_cache_t) (nbuf : rte_mbuf) (nst : npf_state_t) (d : npf_flow_dir) :
    ((npf_state_inspect_tcp ext stats lcore npc nbuf nst d).nst.nst_tcp_state
        = nst.nst_tcp_state ∧
      (npf_state_inspect_tcp ext stats lcore npc nbuf nst d).events = []) ∨
    ((npf_state_inspect_tcp ext stats lcore npc nbuf nst d).nst.nst_tcp_state
        ≠ nst.nst_tcp_state ∧
      (npf_state_inspect_tcp ext stats lcore npc nbuf nst d).events
        = [session_event.tcp_state_change nst.nst_tcp_state
            (npf_state_inspect_tcp ext stats lcore npc nbuf nst d).nst.nst_tcp_state]) := by
  by_cases hrc : (ext.npf_state_tcp npc nbuf nst d).rc = 0
  · by_cases hne : nst.nst_tcp_state = (ext.npf_state_tcp npc nbuf nst d).new_state
    · left
      unfold npf_state_inspect_tcp
      simp only [hrc, if_true]
      rw [set_tcp_same ext stats lcore
        { nst with nst_tcp_win := (ext.npf_state_tcp npc nbuf nst d).nst_tcp_win }
        (ext.npf_state_tcp npc nbuf nst d).new_state false hne]
      simp
    · right
      rw [inspect_tcp_success ext stats lcore npc nbuf nst d hrc hne]
      exact ⟨fun e => hne e.symm, rfl⟩
  · left
    unfold npf_state_inspect_tcp
    simp [hrc]

/-- C24: state-change notification.  For every inspect, on a record of any
protocol class other than TCP (UDP, OTHER, ICMP) the session layer is called
exactly once, with the generic state before the call, the generic state after
the call and the protocol class, when the call changed the generic state, and
not at all when it left it unchanged; on a TCP record it is called exactly once,
with the TCP state before and after the call, when the call changed the TCP
state, and not at all otherwise. -/
theorem C24_notification (ext : npf_ext) (icmp_strict : Bool)
    (stats : Nat → npf_state_stats) (lcore : Nat) (npc : npf_cache_t) (nbuf : rte_mbuf)
    (nst : npf_state_t) (proto_idx : Nat) (forw : Bool) :
    (proto_idx ≠ NPF_PROTO_IDX_TCP →
      (npf_state_inspect ext icmp_strict stats lcore npc nbuf nst proto_idx forw).events =
        if (npf_state_inspect ext icmp_strict stats lcore npc nbuf nst proto_idx
            forw).nst.nst_gen_state ≠ nst.nst_gen_state then
          [session_event.gen_state_change nst.nst_gen_state
            (npf_state_inspect ext icmp_strict stats lcore npc nbuf nst proto_idx
              forw).nst.nst_gen_state proto_idx]
        else []) ∧
    (proto_idx = NPF_PROTO_IDX_TCP →
      (npf_state_inspect ext icmp_strict stats lcore npc nbuf nst proto_idx forw).events =
        if (npf_state_inspect ext icmp_strict stats lcore npc nbuf nst proto_idx
            forw).nst.nst_tcp_state ≠ nst.nst_tcp_state then
          [session_event.tcp_state_change nst.nst_tcp_state
            (npf_state_inspect ext icmp_strict stats lcore npc nbuf nst proto_idx
              forw).nst.nst_tcp_state]
        else []) := by
  have hother : ∀ (p : Nat) (d : npf_flow_dir),
      (npf_state_inspect_other stats lcore nst p d).events =
        if (npf_state_inspect_other stats lcore nst p d).nst.nst_gen_state
            ≠ nst.nst_gen_state then
          [session_event.gen_state_change nst.nst_gen_state
            (npf_state_inspect_other stats lcore nst p d).nst.nst_gen_state p]
        else [] := by
    intro p d
    rcases inspect_other_form stats lcore nst p d with h | h
    · rw [h.2]; simp
    · rw [h.2]
      have : ¬ npf_generic_fsm nst.nst_gen_state d = nst.nst_gen_state := fun e => h.1 e.symm
      simp [this]
  constructor
  · intro hq
    by_cases h1 : proto_idx = NPF_PROTO_IDX_UDP ∨ proto_idx = NPF_PROTO_IDX_OTHER
    · rw [inspect_udp_other_eq _ _ _ _ _ _ _ _ _ h1]
      exact hother _ _
    · by_cases h3 : proto_idx = NPF_PROTO_IDX_ICMP
      · subst h3
        rw [inspect_icmp_eq]
        rcases inspect_icmp_cases ext icmp_strict stats lcore npc nst
          (if forw then NPF_FLOW_FORW else NPF_FLOW_BACK) with h | ⟨rc, _, h⟩
        · rw [h]
          exact hother _ _
        · rw [h]; simp
      · have : npf_state_inspect ext icmp_strict stats lcore npc nbuf nst proto_idx forw
            = ⟨0, stats, nst, []⟩ := by
          unfold npf_state_inspect
          simp [h1, hq, h3]
        rw [this]; simp
  · intro hq
    subst hq
    rw [inspect_tcp_eq]
    rcases inspect_tcp_cases ext stats lcore npc nbuf nst
      (if forw then NPF_FLOW_FORW else NPF_FLOW_BACK) with h | h
    · rw [h.2, if_neg (fun hn => hn h.1)]
    · rw [h.2, if_pos h.1]

theorem generic_fsm_packet_states (a : Nat) (d : npf_flow_dir) :
    npf_generic_fsm a d = SESSION_STATE_NONE ∨ npf_generic_fsm a d = SESSION_STATE_NEW ∨
      npf_generic_fsm a d = SESSION_STATE_ESTABLISHED := by
  unfold npf_generic_fsm
  split
  · cases d <;> simp
  · split
    · cases d <;> simp
    · split
      · cases d <;> simp
      · simp

theorem inspect_generic_step (ext : npf_ext) (icmp_strict : Bool)
    (stats : Nat → npf_state_stats) (lcore : Nat) (npc : npf_cache_t) (nbuf : rte_mbuf)
    (nst : npf_state_t) (proto_idx : Nat) (forw : Bool)
    (hp : proto_idx = NPF_PROTO_IDX_UDP ∨ proto_idx = NPF_PROTO_IDX_OTHER ∨
      proto_idx = NPF_PROTO_IDX_ICMP) :
    (npf_state_inspect ext icmp_strict stats lcore npc nbuf nst proto_idx forw).nst.nst_gen_state
        = npf_generic_fsm nst.nst_gen_state (if forw then NPF_FLOW_FORW else NPF_FLOW_BACK) ∨
    ((npf_state_inspect ext icmp_strict stats lcore npc nbuf nst proto_idx forw).nst = nst ∧
      (npf_state_inspect ext icmp_strict stats lcore npc nbuf nst proto_idx forw).stats
        = stats ∧
      (npf_state_inspect ext icmp_strict stats lcore npc nbuf nst proto_idx forw).events
        = []) := by
  rcases hp with h | h | h
  · rw [inspect_udp_other_eq _ _ _ _ _ _ _ _ _ (Or.inl h)]
    exact Or.inl (inspect_other_gen_state _ _ _ _ _)
  · rw [inspect_udp_other_eq _ _ _ _ _ _ _ _ _ (Or.inr h)]
    exact Or.inl (inspect_other_gen_state _ _ _ _ _)
  · subst h
    rw [inspect_icmp_eq]
    rcases inspect_icmp_cases ext icmp_strict stats lcore npc nst
      (if forw then NPF_FLOW_FORW else NPF_FLOW_BACK) with h | ⟨rc, _, h⟩
    · rw [h]
      exact Or.inl (inspect_other_gen_state _ _ _ _ _)
    · rw [h]
      exact Or.inr ⟨rfl, rfl, rfl⟩

theorem inspect_run_packet_states (ext : npf_ext) (icmp_strict : Bool)
    (lcore proto_idx : Nat)
    (hp : proto_idx = NPF_PROTO_IDX_UDP ∨ proto_idx = NPF_PROTO_IDX_OTHER ∨
      proto_idx = NPF_PROTO_IDX_ICMP)
    (pkts : List (npf_cache_t × rte_mbuf × Bool)) :
    ∀ (stats : Nat → npf_state_stats) (nst : npf_state_t),
      (nst.nst_gen_state = SESSION_STATE_NONE ∨ nst.nst_gen_state = SESSION_STATE_NEW ∨
        nst.nst_gen_state = SESSION_STATE_ESTABLISHED) →
      ((inspect_run ext icmp_strict lcore proto_idx stats nst pkts).2.nst.nst_gen_state
          = SESSION_STATE_NONE ∨
        (inspect_run ext icmp_strict lcore proto_idx stats nst pkts).2.nst.nst_gen_state
          = SESSION_STATE_NEW ∨
        (inspect_run ext icmp_strict lcore proto_idx stats nst pkts).2.nst.nst_gen_state
          = SESSION_STATE_ESTABLISHED) := by
  induction pkts with
  | nil => intro stats nst h; exact h
  | cons pkt rest ih =>
    intro stats nst h
    obtain ⟨npc, nbuf, forw⟩ := pkt
    simp only [inspect_run]
    apply ih
    rcases inspect_generic_step ext icmp_strict stats lcore npc nbuf nst proto_idx forw hp
      with h1 | h1
    · rw [h1]
      exact generic_fsm_packet_states _ _
    · rw [h1.1]
      exact h

/-- C25: packet-driven transitions never produce CLOSED or TERMINATING.  For
every UDP, OTHER or ICMP record in any generic state, every direction and
packet: if the generic state after `npf_state_inspect` is CLOSED or TERMINATING,
the call left the record, the statistics table and the session layer alone (so
the record was in that state before); and a record whose state is NONE, NEW or
ESTABLISHED is in one of these three states after any run of inspects. -/
theorem C25_no_packet_close (ext : npf_ext) (icmp_strict : Bool)
    (stats : Nat → npf_state_stats) (lcore : Nat) (npc : npf_cache_t) (nbuf : rte_mbuf)
    (nst nst2 : npf_state_t) (proto_idx : Nat) (forw : Bool)
    (pkts : List (npf_cache_t × rte_mbuf × Bool))
    (hp : proto_idx = NPF_PROTO_IDX_UDP ∨ proto_idx = NPF_PROTO_IDX_OTHER ∨
      proto_idx = NPF_PROTO_IDX_ICMP)
    (hlive : nst2.nst_gen_state = SESSION_STATE_NONE ∨ nst2.nst_gen_state = SESSION_STATE_NEW ∨
      nst2.nst_gen_state = SESSION_STATE_ESTABLISHED) :
    ((npf_state_inspect ext icmp_strict stats lcore npc nbuf nst proto_idx
          forw).nst.nst_gen_state = SESSION_STATE_CLOSED ∨
        (npf_state_inspect ext icmp_strict stats lcore npc nbuf nst proto_idx
          forw).nst.nst_gen_state = SESSION_STATE_TERMINATING →
      nst.nst_gen_state = (npf_state_inspect ext icmp_strict stats lcore npc nbuf nst proto_idx
          forw).nst.nst_gen_state ∧
      (npf_state_inspect ext icmp_strict stats lcore npc nbuf nst proto_idx forw).nst = nst ∧
      (npf_state_inspect ext icmp_strict stats lcore npc nbuf nst proto_idx forw).stats
        = stats ∧
      (npf_state_inspect ext icmp_strict stats lcore npc nbuf nst proto_idx forw).events
        = []) ∧
    ((inspect_run ext icmp_strict lcore proto_idx stats nst2 pkts).2.nst.nst_gen_state
        = SESSION_STATE_NONE ∨
      (inspect_run ext icmp_strict lcore proto_idx stats nst2 pkts).2.nst.nst_gen_state
        = SESSION_STATE_NEW ∨
      (inspect_run ext icmp_strict lcore proto_idx stats nst2 pkts).2.nst.nst_gen_state
        = SESSION_STATE_ESTABLISHED) := by
  refine ⟨?_, inspect_run_packet_states ext icmp_strict lcore proto_idx hp pkts stats nst2
    hlive⟩
  intro hc
  rcases inspect_generic_step ext icmp_strict stats lcore npc nbuf nst proto_idx forw hp
    with h1 | h1
  · exfalso
    rw [h1] at hc
    rcases generic_fsm_packet_states nst.nst_gen_state
      (if forw then NPF_FLOW_FORW else NPF_FLOW_BACK) with h | h | h <;>
      rw [h] at hc <;> revert hc <;> decide
  · exact ⟨by rw [h1.1], h1.1, h1.2.1, h1.2.2⟩

/-- Witness of C25: under strict mode a CLOSED ICMP record that sees a forward
packet that is not an echo request stays CLOSED, untouched; and a fresh UDP
record stays within NONE, NEW, ESTABLISHED over three packets. -/
theorem C25_no_packet_close_witness :
    (NPF_PROTO_IDX_ICMP = NPF_PROTO_IDX_UDP ∨ NPF_PROTO_IDX_ICMP = NPF_PROTO_IDX_OTHER ∨
      NPF_PROTO_IDX_ICMP = NPF_PROTO_IDX_ICMP) ∧
    (zero_nst.nst_gen_state = SESSION_STATE_NONE ∨ zero_nst.nst_gen_state = SESSION_STATE_NEW ∨
      zero_nst.nst_gen_state = SESSION_STATE_ESTABLISHED) ∧
    (npf_state_inspect sample_ext true zero_stats 0 plain_npc []
      { zero_nst with nst_gen_state := SESSION_STATE_CLOSED } NPF_PROTO_IDX_ICMP
      true).nst.nst_gen_state = SESSION_STATE_CLOSED ∧
    (npf_state_inspect sample_ext true zero_stats 0 plain_npc []
      { zero_nst with nst_gen_state := SESSION_STATE_CLOSED } NPF_PROTO_IDX_ICMP true).events
      = [] :=
  ⟨by decide, by decide, by decide,
    ((C25_no_packet_close sample_ext true zero_stats 0 plain_npc []
      { zero_nst with nst_gen_state := SESSION_STATE_CLOSED } zero_nst NPF_PROTO_IDX_ICMP true
      [(plain_npc, [], true), (plain_npc, [], false), (plain_npc, [], true)]
      (by decide) (by decide)).1 (by decide)).2.2.2⟩

/-! ## Optional window fields -/

theorem restore_tcpwin_fields (w : npf_tcp_window) (tw : TCPWindowMsg) :
    (npf_state_restore_tcpwin_pb w tw).nst_end
      = (if tw.has_tw_end then tw.tw_end else w.nst_end) ∧
    (npf_state_restore_tcpwin_pb w tw).nst_maxend
      = (if tw.has_tw_maxend then tw.tw_maxend else w.nst_maxend) ∧
    (npf_state_restore_tcpwin_pb w tw).nst_maxwin
      = (if tw.has_tw_maxwin then tw.tw_maxwin else w.nst_maxwin) ∧
    (npf_state_restore_tcpwin_pb w tw).nst_wscale
      = (if tw.has_tw_wscale then tw.tw_wscale else w.nst_wscale) := by
  unfold npf_state_restore_tcpwin_pb
  cases tw.has_tw_end <;> cases tw.has_tw_maxend <;> cases tw.has_tw_maxwin <;>
    cases tw.has_tw_wscale <;> simp

theorem restore_tcpwin_none_present (w : npf_tcp_window) (tw : TCPWindowMsg)
    (h1 : tw.has_tw_end = false) (h2 : tw.has_tw_maxend = false)
    (h3 : tw.has_tw_maxwin = false) (h4 : tw.has_tw_wscale = false) :
    npf_state_restore_tcpwin_pb w tw = w := by
  unfold npf_state_restore_tcpwin_pb
  simp [h1, h2, h3, h4]

/-- C26: optional window fields.  For every window structure and window
message, `npf_state_restore_tcpwin_pb` sets each of end, maxend, maxwin and
wscale to the message's value when that field's presence flag is set and leaves
it at its prior value when the flag is clear; so for a message with a recognised
state and no presence flag set in either window message,
`npf_state_restore_tcp_pb` and `npf_state_update_tcp_pb` return 0 and leave both
window structures as they were. -/
theorem C26_optional_window_fields (ext : npf_ext) (stats : Nat → npf_state_stats)
    (lcore : Nat) (w : npf_tcp_window) (tw : TCPWindowMsg) (nst : npf_state_t)
    (nss : NPFSessionStateMsg) (state_changed : Bool)
    (hstate : nss.nss_state ≤ NPF_TCPS_LAST)
    (hflags : ∀ fl, (nss.nss_tcpwins fl).has_tw_end = false ∧
      (nss.nss_tcpwins fl).has_tw_maxend = false ∧
      (nss.nss_tcpwins fl).has_tw_maxwin = false ∧
      (nss.nss_tcpwins fl).has_tw_wscale = false) :
    (npf_state_restore_tcpwin_pb w tw).nst_end
      = (if tw.has_tw_end then tw.tw_end else w.nst_end) ∧
    (npf_state_restore_tcpwin_pb w tw).nst_maxend
      = (if tw.has_tw_maxend then tw.tw_maxend else w.nst_maxend) ∧
    (npf_state_restore_tcpwin_pb w tw).nst_maxwin
      = (if tw.has_tw_maxwin then tw.tw_maxwin else w.nst_maxwin) ∧
    (npf_state_restore_tcpwin_pb w tw).nst_wscale
      = (if tw.has_tw_wscale then tw.tw_wscale else w.nst_wscale) ∧
    (npf_state_restore_tcp_pb stats (some nst) (some nss)).rc = 0 ∧
    (npf_state_restore_tcp_pb stats (some nst) (some nss)).nst.map (fun n => n.nst_tcp_win)
      = some nst.nst_tcp_win ∧
    (npf_state_update_tcp_pb ext stats lcore (some nst) (some nss) state_changed).rc = 0 ∧
    (npf_state_update_tcp_pb ext stats lcore (some nst) (some nss) state_changed).nst.map
        (fun n => n.nst_tcp_win)
      = some nst.nst_tcp_win := by
  have hf := restore_tcpwin_fields w tw
  have hwin : (fun fl => npf_state_restore_tcpwin_pb (nst.nst_tcp_win fl) (nss.nss_tcpwins fl))
      = nst.nst_tcp_win := by
    funext fl
    exact restore_tcpwin_none_present _ _ (hflags fl).1 (hflags fl).2.1 (hflags fl).2.2.1
      (hflags fl).2.2.2
  rw [restore_tcp_pb_ok _ _ _ hstate, update_tcp_pb_ok _ _ _ _ _ _ hstate]
  refine ⟨hf.1, hf.2.1, hf.2.2.1, hf.2.2.2, rfl, ?_, rfl, ?_⟩
  · simp only [Option.map_some']
    rw [hwin]
  · simp only [Option.map_some']
    rw [win_set_tcp]
    simp only []
    rw [hwin]

/-- Witness of C26: a message for state ESTABLISHED whose window messages
carry no field, applied to the sample TCP record. -/
theorem C26_optional_window_fields_witness :
    (state_msg NPF_TCPS_ESTABLISHED).nss_state ≤ NPF_TCPS_LAST ∧
    (∀ fl, ((state_msg NPF_TCPS_ESTABLISHED).nss_tcpwins fl).has_tw_end = false ∧
      ((state_msg NPF_TCPS_ESTABLISHED).nss_tcpwins fl).has_tw_maxend = false ∧
      ((state_msg NPF_TCPS_ESTABLISHED).nss_tcpwins fl).has_tw_maxwin = false ∧
      ((state_msg NPF_TCPS_ESTABLISHED).nss_tcpwins fl).has_tw_wscale = false) ∧
    (npf_state_restore_tcp_pb zero_stats (some sample_tcp_nst)
      (some (state_msg NPF_TCPS_ESTABLISHED))).nst.map (fun n => n.nst_tcp_win)
      = some sample_tcp_nst.nst_tcp_win :=
  ⟨by decide, fun _ => ⟨rfl, rfl, rfl, rfl⟩,
    (C26_optional_window_fields sample_ext zero_stats 0 zero_win full_tw sample_tcp_nst
      (state_msg NPF_TCPS_ESTABLISHED) false (by decide)
      (fun _ => ⟨rfl, rfl, rfl, rfl⟩)).2.2.2.2.2.1⟩

/-! ## The trusted restore path and unrecognised states -/

/-- C27, as the code has it: the internal restore path applies the packed state
without a range check.  For every record in a recognised state and every packed
session state whose generic state (for `npf_state_pack_update_gen`, on a record
of a protocol class other than TCP) or TCP state (for
`npf_state_pack_update_tcp`) is not a recognised value, the record's state
becomes the packed value and the change is reported; the old state's bucket is
decremented by one (as an unsigned 32-bit counter) and every other bucket keeps
its value, none being incremented. -/
theorem C27_trusted_path_unvalidated (ext : npf_ext) (stats : Nat → npf_state_stats)
    (lcore : Nat) (gnst tnst : npf_state_t) (gpst tpst : npf_pack_session_state)
    (proto_idx : Nat) (state_changed : Bool)
    (hp : proto_idx ≤ NPF_PROTO_IDX_LAST)
    (hg : gnst.nst_gen_state ≤ SESSION_STATE_LAST)
    (ht : tnst.nst_tcp_state ≤ NPF_TCPS_LAST)
    (hgbig : gpst.pst_gen_state > SESSION_STATE_LAST)
    (htbig : tpst.pst_tcp_state > NPF_TCPS_LAST) :
    (npf_state_pack_update_gen stats lcore gnst gpst proto_idx state_changed).nst.nst_gen_state
      = gpst.pst_gen_state ∧
    (npf_state_pack_update_gen stats lcore gnst gpst proto_idx state_changed).state_changed
      = true ∧
    ((npf_state_pack_update_gen stats lcore gnst gpst proto_idx state_changed).stats
        lcore).ss_ct proto_idx gnst.nst_gen_state
      = u32_dec ((stats lcore).ss_ct proto_idx gnst.nst_gen_state) ∧
    (∀ c p s, ¬ (c = lcore ∧ p = proto_idx ∧ s = gnst.nst_gen_state) →
      ((npf_state_pack_update_gen stats lcore gnst gpst proto_idx state_changed).stats
        c).ss_ct p s = (stats c).ss_ct p s) ∧
    (∀ c s,
      ((npf_state_pack_update_gen stats lcore gnst gpst proto_idx state_changed).stats
        c).ss_tcp_ct s = (stats c).ss_tcp_ct s) ∧
    (npf_state_pack_update_tcp ext stats lcore tnst tpst state_changed).nst.nst_tcp_state
      = tpst.pst_tcp_state ∧
    (npf_state_pack_update_tcp ext stats lcore tnst tpst state_changed).state_changed
      = true ∧
    ((npf_state_pack_update_tcp ext stats lcore tnst tpst state_changed).stats
        lcore).ss_tcp_ct tnst.nst_tcp_state
      = u32_dec ((stats lcore).ss_tcp_ct tnst.nst_tcp_state) ∧
    (∀ c s, ¬ (c = lcore ∧ s = tnst.nst_tcp_state) →
      ((npf_state_pack_update_tcp ext stats lcore tnst tpst state_changed).stats
        c).ss_tcp_ct s = (stats c).ss_tcp_ct s) ∧
    (∀ c p s,
      ((npf_state_pack_update_tcp ext stats lcore tnst tpst state_changed).stats
        c).ss_ct p s = (stats c).ss_ct p s) := by
  have hgne : gnst.nst_gen_state ≠ gpst.pst_gen_state := by
    intro e; rw [e] at hg; exact absurd hg (Nat.not_le.mpr hgbig)
  have htne : tnst.nst_tcp_state ≠ tpst.pst_tcp_state := by
    intro e; rw [e] at ht; exact absurd ht (Nat.not_le.mpr htbig)
  have hginc : ∀ st : Nat → npf_state_stats,
      stats_inc st lcore proto_idx gpst.pst_gen_state = st := by
    intro st
    exact stats_inc_unrecognised _ _ _ _ (fun h => absurd h.1 (Nat.not_le.mpr hgbig))
  have htinc : ∀ st : Nat → npf_state_stats,
      stats_inc_tcp st lcore tpst.pst_tcp_state = st := by
    intro st
    unfold stats_inc_tcp
    rw [if_neg (Nat.not_le.mpr htbig)]
  have hgform : npf_state_pack_update_gen stats lcore gnst gpst proto_idx state_changed
      = ⟨stats_dec stats lcore proto_idx gnst.nst_gen_state,
          { gnst with nst_gen_state := gpst.pst_gen_state }, true⟩ := by
    unfold npf_state_pack_update_gen
    rw [set_gen_changed _ _ _ _ _ _ hgne, hginc]
  have htform : (npf_state_pack_update_tcp ext stats lcore tnst tpst state_changed).stats
        = stats_dec_tcp stats lcore tnst.nst_tcp_state ∧
      (npf_state_pack_update_tcp ext stats lcore tnst tpst state_changed).nst.nst_tcp_state
        = tpst.pst_tcp_state ∧
      (npf_state_pack_update_tcp ext stats lcore tnst tpst state_changed).state_changed
        = true := by
    unfold npf_state_pack_update_tcp
    simp only []
    rw [set_tcp_changed ext stats lcore
      ({ tnst with
          nst_tcp_win := fun fl =>
            { nst_end := (tpst.pst_tcp_win fl).ptw_end
              nst_maxend := (tpst.pst_tcp_win fl).ptw_maxend
              nst_maxwin := (tpst.pst_tcp_win fl).ptw_maxwin
              nst_wscale := (tpst.pst_tcp_win fl).ptw_wscale } } : npf_state_t)
      tpst.pst_tcp_state state_changed htne, htinc]
    exact ⟨rfl, rfl, rfl⟩
  rw [hgform, htform.1]
  refine ⟨rfl, rfl, ?_, ?_, ?_, htform.2.1, htform.2.2, ?_, ?_, ?_⟩
  · show ((stats_dec stats lcore proto_idx gnst.nst_gen_state) lcore).ss_ct proto_idx
      gnst.nst_gen_state = _
    rw [ss_ct_stats_dec _ _ _ _ _ _ _ hg hp]
    simp
  · intro c p s hn
    show ((stats_dec stats lcore proto_idx gnst.nst_gen_state) c).ss_ct p s = _
    rw [ss_ct_stats_dec _ _ _ _ _ _ _ hg hp, if_neg hn]
  · intro c s
    show ((stats_dec stats lcore proto_idx gnst.nst_gen_state) c).ss_tcp_ct s = _
    rw [ss_tcp_ct_stats_dec]
  · show ((stats_dec_tcp stats lcore tnst.nst_tcp_state) lcore).ss_tcp_ct
      tnst.nst_tcp_state = _
    rw [ss_tcp_ct_stats_dec_tcp _ _ _ _ _ ht]
    simp
  · intro c s hn
    show ((stats_dec_tcp stats lcore tnst.nst_tcp_state) c).ss_tcp_ct s = _
    rw [ss_tcp_ct_stats_dec_tcp _ _ _ _ _ ht, if_neg hn]
  · intro c p s
    show ((stats_dec_tcp stats lcore tnst.nst_tcp_state) c).ss_ct p s = _
    rw [ss_ct_stats_dec_tcp]

/-- Witness of C27: a UDP record in state NONE and a TCP record in state NONE,
each counted once, are handed packed states one past the last recognised
value. -/
theorem C27_trusted_path_unvalidated_witness :
    NPF_PROTO_IDX_UDP ≤ NPF_PROTO_IDX_LAST ∧
    zero_nst.nst_gen_state ≤ SESSION_STATE_LAST ∧
    zero_nst.nst_tcp_state ≤ NPF_TCPS_LAST ∧
    ({ zero_pst with pst_gen_state := SESSION_STATE_LAST + 1 } :
      npf_pack_session_state).pst_gen_state > SESSION_STATE_LAST ∧
    ({ zero_pst with pst_tcp_state := NPF_TCPS_LAST + 1 } :
      npf_pack_session_state).pst_tcp_state > NPF_TCPS_LAST ∧
    (npf_state_pack_update_gen (stats_inc zero_stats 0 NPF_PROTO_IDX_UDP SESSION_STATE_NONE) 0
      zero_nst { zero_pst with pst_gen_state := SESSION_STATE_LAST + 1 } NPF_PROTO_IDX_UDP
      false).nst.nst_gen_state = SESSION_STATE_LAST + 1 :=
  ⟨by decide, by decide, by decide, by decide, by decide,
    (C27_trusted_path_unvalidated sample_ext
      (stats_inc zero_stats 0 NPF_PROTO_IDX_UDP SESSION_STATE_NONE) 0 zero_nst zero_nst
      { zero_pst with pst_gen_state := SESSION_STATE_LAST + 1 }
      { zero_pst with pst_tcp_state := NPF_TCPS_LAST + 1 } NPF_PROTO_IDX_UDP false
      (by decide) (by decide) (by decide) (by decide) (by decide)).1⟩

/-- Counterexample to C27 as stated: on a statistics table that counts one UDP
record and one TCP record in NONE, the internal restore is handed the generic
state `SESSION_STATE_LAST + 1` and the TCP state `NPF_TCPS_LAST + 1`.  The
record's state does not stay as it was, it becomes the packed value, and the
buckets of the class sum to 0 although the record is live. -/
theorem C27_counterexample :
    (npf_state_pack_update_gen (stats_inc zero_stats 0 NPF_PROTO_IDX_UDP SESSION_STATE_NONE) 0
      zero_nst { zero_pst with pst_gen_state := SESSION_STATE_LAST + 1 } NPF_PROTO_IDX_UDP
      false).nst.nst_gen_state = SESSION_STATE_LAST + 1 ∧
    zero_nst.nst_gen_state = SESSION_STATE_NONE ∧
    bucket_sum ((stats_inc zero_stats 0 NPF_PROTO_IDX_UDP SESSION_STATE_NONE) 0)
      NPF_PROTO_IDX_UDP = 1 ∧
    bucket_sum ((npf_state_pack_update_gen
      (stats_inc zero_stats 0 NPF_PROTO_IDX_UDP SESSION_STATE_NONE) 0
      zero_nst { zero_pst with pst_gen_state := SESSION_STATE_LAST + 1 } NPF_PROTO_IDX_UDP
      false).stats 0) NPF_PROTO_IDX_UDP = 0 ∧
    (npf_state_pack_update_tcp sample_ext (stats_inc_tcp zero_stats 0 NPF_TCPS_NONE) 0
      zero_nst { zero_pst with pst_tcp_state := NPF_TCPS_LAST + 1 }
      false).nst.nst_tcp_state = NPF_TCPS_LAST + 1 ∧
    bucket_sum ((stats_inc_tcp zero_stats 0 NPF_TCPS_NONE) 0) NPF_PROTO_IDX_TCP = 1 ∧
    bucket_sum ((npf_state_pack_update_tcp sample_ext
      (stats_inc_tcp zero_stats 0 NPF_TCPS_NONE) 0
      zero_nst { zero_pst with pst_tcp_state := NPF_TCPS_LAST + 1 }
      false).stats 0) NPF_PROTO_IDX_TCP = 0 := by
  decide

/-! ## A backward reply on a fresh ICMP record -/

/-- C29: on a fresh ICMP record (generic state NONE), with strict mode on or
off, a backward packet that is not an echo request passes the direction guard:
`npf_state_inspect` returns 0, the record is as before (generic state NONE),
the statistics table is as before and no call into the session layer is
made. -/
theorem C29_icmp_fresh_backward_reply (ext : npf_ext) (icmp_strict : Bool)
    (stats : Nat → npf_state_stats) (lcore : Nat) (npc : npf_cache_t) (nbuf : rte_mbuf)
    (nst : npf_state_t)
    (hfresh : nst.nst_gen_state = SESSION_STATE_NONE)
    (hreq : npc.npc_icmp_echo_req = false) :
    (npf_state_inspect ext icmp_strict stats lcore npc nbuf nst NPF_PROTO_IDX_ICMP false).rc
      = 0 ∧
    (npf_state_inspect ext icmp_strict stats lcore npc nbuf nst NPF_PROTO_IDX_ICMP
      false).nst = nst ∧
    (npf_state_inspect ext icmp_strict stats lcore npc nbuf nst NPF_PROTO_IDX_ICMP
      false).nst.nst_gen_state = SESSION_STATE_NONE ∧
    (npf_state_inspect ext icmp_strict stats lcore npc nbuf nst NPF_PROTO_IDX_ICMP
      false).stats = stats ∧
    (npf_state_inspect ext icmp_strict stats lcore npc nbuf nst NPF_PROTO_IDX_ICMP
      false).events = [] := by
  have hform : npf_state_inspect_icmp ext icmp_strict stats lcore npc nst NPF_FLOW_BACK
      = ⟨0, stats, nst, []⟩ := by
    have hfsm : npf_generic_fsm SESSION_STATE_NONE NPF_FLOW_BACK = SESSION_STATE_NONE := rfl
    unfold npf_state_inspect_icmp
    simp only [hreq, hfresh]
    simp
    rw [hfsm, set_gen_same _ _ _ _ _ _ hfresh]
    simp
  rw [inspect_icmp_eq]
  simp only [Bool.false_eq_true, if_false]
  rw [hform]
  exact ⟨rfl, rfl, hfresh, rfl, rfl⟩

/-- Witness of C29: a zeroed record and a packet that is not an echo request,
under strict mode. -/
theorem C29_icmp_fresh_backward_reply_witness :
    zero_nst.nst_gen_state = SESSION_STATE_NONE ∧
    plain_npc.npc_icmp_echo_req = false ∧
    (npf_state_inspect sample_ext true zero_stats 0 plain_npc [] zero_nst NPF_PROTO_IDX_ICMP
      false).rc = 0 :=
  ⟨rfl, rfl,
    (C29_icmp_fresh_backward_reply sample_ext true zero_stats 0 plain_npc [] zero_nst rfl
      rfl).1⟩

/-! ## TCP state names -/

theorem tcp_name_length :
    ∀ s, s ≤ NPF_TCPS_LAST → (npf_state_tcp_name s).length ≤ 12 := by
  decide

theorem mem_tcp_states (s : Nat) : s ∈ tcp_states ↔ s ≤ NPF_TCPS_LAST := by
  unfold tcp_states
  simp [List.mem_range', NPF_TCPS_FIRST, NPF_TCPS_LAST, NPF_TCPS_NONE, NPF_TCPS_CLOSED]
  omega

theorem map_str_no_match (name : cstring)
    (h : ∀ s, s ≤ NPF_TCPS_LAST →
      npf_str_to_log_name name (name.length + 1) ≠ npf_state_tcp_name s) :
    npf_map_str_to_tcp_state name = NPF_TCPS_NONE := by
  unfold npf_map_str_to_tcp_state
  have hnone : tcp_states.find? (fun state =>
      decide (npf_str_to_log_name name 40 = npf_state_tcp_name state)) = none := by
    rw [List.find?_eq_none]
    intro s hs
    simp only [decide_eq_true_eq]
    have hs1 : s ≤ NPF_TCPS_LAST := (mem_tcp_states s).mp hs
    intro heq
    by_cases hl : name.length ≤ 39
    · apply h s hs1
      rw [← heq]
      unfold npf_str_to_log_name
      simp [List.take_of_length_le, hl]
    · have hlen := congrArg List.length heq
      have hn := tcp_name_length s hs1
      simp [npf_str_to_log_name] at hlen
      omega
  rw [hnone]
  rfl

/-- C30: TCP state names round-trip.  For every TCP state `s` from the first to
the last recognised value, `npf_map_str_to_tcp_state` returns `s` on
`npf_state_get_tcp_name s`, on the lower-case form of that name and on the JSON
form `npf_str_to_json_name` makes of it (in the 40-byte buffer the code uses);
for every string whose upper-case, underscore-to-hyphen conversion (the whole
string through `npf_str_to_log_name`) equals no state name it returns
`NPF_TCPS_NONE`; and `npf_state_get_tcp_name` of any value past the last
recognised state is "none". -/
theorem C30_tcp_name_round_trip :
    (∀ s, s ≤ NPF_TCPS_LAST →
      npf_map_str_to_tcp_state (npf_state_get_tcp_name s) = s ∧
      npf_map_str_to_tcp_state ((npf_state_get_tcp_name s).map Char.toLower) = s ∧
      npf_map_str_to_tcp_state (npf_str_to_json_name (npf_state_get_tcp_name s) 40) = s) ∧
    (∀ name : cstring,
      (∀ s, s ≤ NPF_TCPS_LAST →
        npf_str_to_log_name name (name.length + 1) ≠ npf_state_tcp_name s) →
      npf_map_str_to_tcp_state name = NPF_TCPS_NONE) ∧
    (∀ state, state > NPF_TCPS_LAST → npf_state_get_tcp_name state = "none".toList) := by
  refine ⟨by decide, map_str_no_match, ?_⟩
  intro state hstate
  unfold npf_state_get_tcp_name
  rw [if_neg (Nat.not_le.mpr hstate)]

/-- Witness of C30: the JSON form of the name of SYN-SENT maps back to
SYN-SENT, the string "bogus" maps to NONE and the name of the value `14` is
"none". -/
theorem C30_tcp_name_round_trip_witness :
    npf_str_to_json_name (npf_state_get_tcp_name NPF_TCPS_SYN_SENT) 40 = "syn_sent".toList ∧
    npf_map_str_to_tcp_state
      (npf_str_to_json_name (npf_state_get_tcp_name NPF_TCPS_SYN_SENT) 40)
      = NPF_TCPS_SYN_SENT ∧
    npf_map_str_to_tcp_state "bogus".toList = NPF_TCPS_NONE ∧
    npf_state_get_tcp_name 14 = "none".toList :=
  ⟨by decide, (C30_tcp_name_round_trip.1 NPF_TCPS_SYN_SENT (by decide)).2.2,
    C30_tcp_name_round_trip.2.1 "bogus".toList (by decide),
    C30_tcp_name_round_trip.2.2 14 (by decide)⟩

/-! ## The statistics report -/

theorem foldl_update_rows (g : npf_state_stats → npf_state_stats) :
    ∀ (l : List Nat) (st : Nat → npf_state_stats), l.Nodup → ∀ j,
      (l.foldl (fun st i => Function.update st i (g (st i))) st) j
        = if j ∈ l then g (st j) else st j := by
  intro l
  induction l with
  | nil => intro st _ j; simp
  | cons a l ih =>
    intro st hnd j
    rw [List.foldl_cons, ih _ (List.nodup_cons.mp hnd).2 j]
    by_cases hja : j = a
    · subst hja
      simp [(List.nodup_cons.mp hnd).1]
    · simp [hja, Function.update_noteq hja]

theorem lcore_sum_foldl (f : Nat → Nat) :
    ∀ (l : List Nat) (acc : Nat),
      (l.foldl (fun tmp i => u32_add tmp (f i)) acc) % UINT32_MOD
        = (acc + (l.map f).sum) % UINT32_MOD := by
  intro l
  induction l with
  | nil => intro acc; simp
  | cons a l ih =>
    intro acc
    rw [List.foldl_cons, ih]
    simp only [List.map_cons, List.sum_cons, u32_add, UINT32_MOD]
    omega

theorem lcore_sum_lt (f : Nat → Nat) :
    ∀ (l : List Nat) (acc : Nat), acc < UINT32_MOD →
      l.foldl (fun tmp i => u32_add tmp (f i)) acc < UINT32_MOD := by
  intro l
  induction l with
  | nil => intro acc h; simpa using h
  | cons a l ih =>
    intro acc _
    rw [List.foldl_cons]
    apply ih
    unfold u32_add
    exact Nat.mod_lt _ (by decide)

theorem lcore_sum_eq (l : List Nat) (f : Nat → Nat) :
    lcore_sum l f = core_total l f % UINT32_MOD := by
  unfold lcore_sum core_total
  have h1 := lcore_sum_foldl f l 0
  have h2 := lcore_sum_lt f l 0 (by decide)
  rw [Nat.mod_eq_of_lt h2] at h1
  rw [h1, Nat.zero_add]

theorem fold_tcp_none_tcp (row : npf_state_stats) (s : Nat) :
    (fold_tcp_none row).ss_tcp_ct s
      = if s = NPF_TCPS_CLOSED then
          u32_add (row.ss_tcp_ct NPF_TCPS_CLOSED) (row.ss_tcp_ct NPF_TCPS_NONE)
        else row.ss_tcp_ct s := by
  unfold fold_tcp_none
  by_cases h : s = NPF_TCPS_CLOSED
  · subst h; simp
  · simp [h]

theorem fold_gen_none_all (row : npf_state_stats) (p s : Nat) :
    (proto_idxs.foldl fold_gen_none row).ss_ct p s
      = if p ≤ NPF_PROTO_IDX_LAST ∧ s = SESSION_STATE_CLOSED then
          u32_add (row.ss_ct p SESSION_STATE_CLOSED) (row.ss_ct p SESSION_STATE_NONE)
        else row.ss_ct p s := by
  have hl : proto_idxs = [0, 1, 2, 3] := by decide
  rw [hl]
  simp only [List.foldl_cons, List.foldl_nil, fold_gen_none]
  by_cases h0 : p = 0
  · subst h0
    by_cases hs : s = SESSION_STATE_CLOSED <;>
      simp [Function.update, hs, NPF_PROTO_IDX_LAST, NPF_PROTO_IDX_OTHER]
  · by_cases h1 : p = 1
    · subst h1
      by_cases hs : s = SESSION_STATE_CLOSED <;>
        simp [Function.update, hs, NPF_PROTO_IDX_LAST, NPF_PROTO_IDX_OTHER]
    · by_cases h2 : p = 2
      · subst h2
        by_cases hs : s = SESSION_STATE_CLOSED <;>
          simp [Function.update, hs, NPF_PROTO_IDX_LAST, NPF_PROTO_IDX_OTHER]
      · by_cases h3 : p = 3
        · subst h3
          by_cases hs : s = SESSION_STATE_CLOSED <;>
            simp [Function.update, hs, NPF_PROTO_IDX_LAST, NPF_PROTO_IDX_OTHER]
        · have hp : ¬ p ≤ NPF_PROTO_IDX_LAST := by
            simp only [NPF_PROTO_IDX_LAST, NPF_PROTO_IDX_OTHER]; omega
          simp [Function.update, h0, h1, h2, h3, hp]

theorem fold_gen_none_tcp (row : npf_state_stats) :
    (proto_idxs.foldl fold_gen_none row).ss_tcp_ct = row.ss_tcp_ct := by
  have hl : proto_idxs = [0, 1, 2, 3] := by decide
  rw [hl]
  rfl

theorem fixup_tcp (l : List Nat) (stats : Nat → npf_state_stats) (hnd : l.Nodup)
    (i s : Nat) :
    (stats_json_fixup l stats i).ss_tcp_ct s
      = if i ∈ l ∧ s = NPF_TCPS_CLOSED then
          u32_add ((stats i).ss_tcp_ct NPF_TCPS_CLOSED) ((stats i).ss_tcp_ct NPF_TCPS_NONE)
        else (stats i).ss_tcp_ct s := by
  unfold stats_json_fixup
  rw [foldl_update_rows (fun row => proto_idxs.foldl fold_gen_none row) l _ hnd i,
    foldl_update_rows fold_tcp_none l _ hnd i]
  by_cases hi : i ∈ l
  · simp only [hi, if_true, true_and]
    rw [fold_gen_none_tcp, fold_tcp_none_tcp]
  · simp only [hi, if_false, false_and]

theorem fixup_gen (l : List Nat) (stats : Nat → npf_state_stats) (hnd : l.Nodup)
    (i p s : Nat) :
    (stats_json_fixup l stats i).ss_ct p s
      = if i ∈ l ∧ p ≤ NPF_PROTO_IDX_LAST ∧ s = SESSION_STATE_CLOSED then
          u32_add ((stats i).ss_ct p SESSION_STATE_CLOSED) ((stats i).ss_ct p SESSION_STATE_NONE)
        else (stats i).ss_ct p s := by
  unfold stats_json_fixup
  rw [foldl_update_rows (fun row => proto_idxs.foldl fold_gen_none row) l _ hnd i,
    foldl_update_rows fold_tcp_none l _ hnd i]
  by_cases hi : i ∈ l
  · simp only [hi, if_true, true_and]
    rw [fold_gen_none_all]
    rfl
  · simp only [hi, if_false, false_and]

theorem sum_map_u32_add (a b : Nat → Nat) :
    ∀ l : List Nat, (l.map (fun i => u32_add (a i) (b i))).sum % UINT32_MOD
      = ((l.map a).sum + (l.map b).sum) % UINT32_MOD := by
  intro l
  induction l with
  | nil => simp
  | cons x l ih =>
    simp only [List.map_cons, List.sum_cons, u32_add, UINT32_MOD] at ih ⊢
    omega

theorem tcp_total_fixup_other (l : List Nat) (stats : Nat → npf_state_stats)
    (hnd : l.Nodup) (s : Nat) (hs : s ≠ NPF_TCPS_CLOSED) :
    tcp_total l (stats_json_fixup l stats) s = tcp_total l stats s := by
  unfold tcp_total core_total
  congr 1
  apply List.map_congr_left
  intro i _
  rw [fixup_tcp l stats hnd i s]
  simp [hs]

theorem tcp_total_fixup_closed (l : List Nat) (stats : Nat → npf_state_stats)
    (hnd : l.Nodup) :
    tcp_total l (stats_json_fixup l stats) NPF_TCPS_CLOSED % UINT32_MOD
      = (tcp_total l stats NPF_TCPS_CLOSED + tcp_total l stats NPF_TCPS_NONE) % UINT32_MOD := by
  unfold tcp_total core_total
  rw [← sum_map_u32_add]
  congr 2
  apply List.map_congr_left
  intro i hi
  rw [fixup_tcp l stats hnd i NPF_TCPS_CLOSED]
  simp [hi]

theorem gen_total_fixup_other (l : List Nat) (stats : Nat → npf_state_stats)
    (hnd : l.Nodup) (p s : Nat) (hs : s ≠ SESSION_STATE_CLOSED) :
    gen_total l (stats_json_fixup l stats) p s = gen_total l stats p s := by
  unfold gen_total core_total
  congr 1
  apply List.map_congr_left
  intro i _
  rw [fixup_gen l stats hnd i p s]
  simp [hs]

theorem gen_total_fixup_closed (l : List Nat) (stats : Nat → npf_state_stats)
    (hnd : l.Nodup) (p : Nat) (hp : p ≤ NPF_PROTO_IDX_LAST) :
    gen_total l (stats_json_fixup l stats) p SESSION_STATE_CLOSED % UINT32_MOD
      = (gen_total l stats p SESSION_STATE_CLOSED + gen_total l stats p SESSION_STATE_NONE)
          % UINT32_MOD := by
  unfold gen_total core_total
  rw [← sum_map_u32_add]
  congr 2
  apply List.map_congr_left
  intro i hi
  rw [fixup_gen l stats hnd i p SESSION_STATE_CLOSED]
  simp [hi, hp]

theorem emit_report_congr (pn : Nat → cstring) (t t1 : Nat → Nat) (g g1 : Nat → Nat → Nat)
    (ht : ∀ s, s ≤ NPF_TCPS_LAST → t s = t1 s)
    (hg : ∀ p, p ≤ NPF_PROTO_IDX_LAST → ∀ s, s ≤ SESSION_STATE_LAST → g p s = g1 p s) :
    emit_report pn t g = emit_report pn t1 g1 := by
  have hf : proto_idxs.filter (fun proto => decide (proto ≠ NPF_PROTO_IDX_TCP)) = [1, 2, 3] := by
    decide
  have hgs : ∀ s, s ∈ gen_states → s ≤ SESSION_STATE_LAST := by
    intro s hs
    unfold gen_states at hs
    simp [List.mem_range', SESSION_STATE_FIRST, SESSION_STATE_LAST, SESSION_STATE_NONE,
      SESSION_STATE_CLOSED] at hs ⊢
    omega
  have hm : tcp_states.map (fun tcp_state =>
      json_event.jsonw_uint_field
        (npf_str_to_json_name (npf_state_get_tcp_name tcp_state) 40) (t tcp_state))
      = tcp_states.map (fun tcp_state =>
      json_event.jsonw_uint_field
        (npf_str_to_json_name (npf_state_get_tcp_name tcp_state) 40) (t1 tcp_state)) := by
    apply List.map_congr_left
    intro s hs
    rw [ht s ((mem_tcp_states s).mp hs)]
  have hgm : ∀ p, p ≤ NPF_PROTO_IDX_LAST →
      gen_states.map (fun state =>
        json_event.jsonw_uint_field
          (npf_str_to_json_name (npf_state_name_summary_json state) 40) (g p state))
      = gen_states.map (fun state =>
        json_event.jsonw_uint_field
          (npf_str_to_json_name (npf_state_name_summary_json state) 40) (g1 p state)) := by
    intro p hp
    apply List.map_congr_left
    intro s hs
    rw [hg p hp s (hgs s hs)]
  unfold emit_report
  rw [hf, hm]
  simp only [List.flatMap_cons, List.flatMap_nil]
  rw [hgm 1 (by decide), hgm 2 (by decide), hgm 3 (by decide)]

theorem stats_json_events (l : List Nat) (pn : Nat → cstring) (stats : Nat → npf_state_stats) :
    (npf_state_stats_json l pn stats).2
      = emit_report pn (fun s => tcp_total l (stats_json_fixup l stats) s % UINT32_MOD)
          (fun p s => gen_total l (stats_json_fixup l stats) p s % UINT32_MOD) := by
  unfold npf_state_stats_json
  simp only [lcore_sum_eq]
  rfl

theorem stats_json_events_form (l : List Nat) (pn : Nat → cstring)
    (stats : Nat → npf_state_stats) (hnd : l.Nodup) :
    (npf_state_stats_json l pn stats).2
      = emit_report pn
          (fun s => if s = NPF_TCPS_CLOSED then
              (tcp_total l stats NPF_TCPS_CLOSED + tcp_total l stats NPF_TCPS_NONE) % UINT32_MOD
            else tcp_total l stats s % UINT32_MOD)
          (fun p s => if s = SESSION_STATE_CLOSED then
              (gen_total l stats p SESSION_STATE_CLOSED + gen_total l stats p SESSION_STATE_NONE)
                % UINT32_MOD
            else gen_total l stats p s % UINT32_MOD) := by
  rw [stats_json_events]
  apply emit_report_congr
  · intro s _
    by_cases hs : s = NPF_TCPS_CLOSED
    · subst hs
      simp only [if_true]
      exact tcp_total_fixup_closed l stats hnd
    · simp only [hs, if_false]
      rw [tcp_total_fixup_other l stats hnd s hs]
  · intro p hp s _
    by_cases hs : s = SESSION_STATE_CLOSED
    · subst hs
      simp only [if_true]
      exact gen_total_fixup_closed l stats hnd p hp
    · simp only [hs, if_false]
      rw [gen_total_fixup_other l stats hnd p s hs]

theorem mod_step (x1 x n y : Nat) (h : x1 % UINT32_MOD = (x + n) % UINT32_MOD) :
    (x1 + y) % UINT32_MOD = (x + (y + n)) % UINT32_MOD := by
  simp only [UINT32_MOD] at h ⊢
  omega

theorem report_after_k (l : List Nat) (pn : Nat → cstring) (hnd : l.Nodup) :
    ∀ (k : Nat) (stats : Nat → npf_state_stats),
      (npf_state_stats_json l pn (stats_after_reports l pn k stats)).2
        = emit_report pn
            (fun s => if s = NPF_TCPS_CLOSED then
                (tcp_total l stats NPF_TCPS_CLOSED + (k + 1) * tcp_total l stats NPF_TCPS_NONE)
                  % UINT32_MOD
              else tcp_total l stats s % UINT32_MOD)
            (fun p s => if s = SESSION_STATE_CLOSED then
                (gen_total l stats p SESSION_STATE_CLOSED
                  + (k + 1) * gen_total l stats p SESSION_STATE_NONE) % UINT32_MOD
              else gen_total l stats p s % UINT32_MOD) := by
  intro k
  induction k with
  | zero =>
    intro stats
    simp only [stats_after_reports, Nat.zero_add, Nat.one_mul]
    exact stats_json_events_form l pn stats hnd
  | succ k ih =>
    intro stats
    have hstep : stats_after_reports l pn (k + 1) stats
        = stats_after_reports l pn k (stats_json_fixup l stats) := rfl
    rw [hstep, ih (stats_json_fixup l stats)]
    apply emit_report_congr
    · intro s _
      by_cases hs : s = NPF_TCPS_CLOSED
      · subst hs
        simp only [if_true]
        rw [tcp_total_fixup_other l stats hnd NPF_TCPS_NONE (by decide), Nat.succ_mul (k + 1)]
        exact mod_step _ _ _ _ (tcp_total_fixup_closed l stats hnd)
      · simp only [hs, if_false]
        rw [tcp_total_fixup_other l stats hnd s hs]
    · intro p hp s _
      by_cases hs : s = SESSION_STATE_CLOSED
      · subst hs
        simp only [if_true]
        rw [gen_total_fixup_other l stats hnd p SESSION_STATE_NONE (by decide),
          Nat.succ_mul (k + 1)]
        exact mod_step _ _ _ _ (gen_total_fixup_closed l stats hnd p hp)
      · simp only [hs, if_false]
        rw [gen_total_fixup_other l stats hnd p s hs]

theorem emit_report_events (pn : Nat → cstring) (t : Nat → Nat) (g : Nat → Nat → Nat) :
    emit_report pn t g =
      [json_event.jsonw_name "tcp".toList, json_event.jsonw_start_object,
       json_event.jsonw_uint_field "none".toList (t NPF_TCPS_NONE),
       json_event.jsonw_uint_field "syn_sent".toList (t NPF_TCPS_SYN_SENT),
       json_event.jsonw_uint_field "simsyn_sent".toList (t NPF_TCPS_SIMSYN_SENT),
       json_event.jsonw_uint_field "syn_received".toList (t NPF_TCPS_SYN_RECEIVED),
       json_event.jsonw_uint_field "established".toList (t NPF_TCPS_ESTABLISHED),
       json_event.jsonw_uint_field "fin_sent".toList (t NPF_TCPS_FIN_SENT),
       json_event.jsonw_uint_field "fin_received".toList (t NPF_TCPS_FIN_RECEIVED),
       json_event.jsonw_uint_field "close_wait".toList (t NPF_TCPS_CLOSE_WAIT),
       json_event.jsonw_uint_field "fin_wait".toList (t NPF_TCPS_FIN_WAIT),
       json_event.jsonw_uint_field "closing".toList (t NPF_TCPS_CLOSING),
       json_event.jsonw_uint_field "last_ack".toList (t NPF_TCPS_LAST_ACK),
       json_event.jsonw_uint_field "time_wait".toList (t NPF_TCPS_TIME_WAIT),
       json_event.jsonw_uint_field "rst_received".toList (t NPF_TCPS_RST_RECEIVED),
       json_event.jsonw_uint_field "closed".toList (t NPF_TCPS_CLOSED),
       json_event.jsonw_end_object,
       json_event.jsonw_name (pn NPF_PROTO_IDX_UDP), json_event.jsonw_start_object,
       json_event.jsonw_uint_field "none".toList (g NPF_PROTO_IDX_UDP SESSION_STATE_NONE),
       json_event.jsonw_uint_field "new".toList (g NPF_PROTO_IDX_UDP SESSION_STATE_NEW),
       json_event.jsonw_uint_field "established".toList
         (g NPF_PROTO_IDX_UDP SESSION_STATE_ESTABLISHED),
       json_event.jsonw_uint_field "none".toList (g NPF_PROTO_IDX_UDP SESSION_STATE_TERMINATING),
       json_event.jsonw_uint_field "closed".toList (g NPF_PROTO_IDX_UDP SESSION_STATE_CLOSED),
       json_event.jsonw_end_object,
       json_event.jsonw_name (pn NPF_PROTO_IDX_ICMP), json_event.jsonw_start_object,
       json_event.jsonw_uint_field "none".toList (g NPF_PROTO_IDX_ICMP SESSION_STATE_NONE),
       json_event.jsonw_uint_field "new".toList (g NPF_PROTO_IDX_ICMP SESSION_STATE_NEW),
       json_event.jsonw_uint_field "established".toList
         (g NPF_PROTO_IDX_ICMP SESSION_STATE_ESTABLISHED),
       json_event.jsonw_uint_field "none".toList (g NPF_PROTO_IDX_ICMP SESSION_STATE_TERMINATING),
       json_event.jsonw_uint_field "closed".toList (g NPF_PROTO_IDX_ICMP SESSION_STATE_CLOSED),
       json_event.jsonw_end_object,
       json_event.jsonw_name (pn NPF_PROTO_IDX_OTHER), json_event.jsonw_start_object,
       json_event.jsonw_uint_field "none".toList (g NPF_PROTO_IDX_OTHER SESSION_STATE_NONE),
       json_event.jsonw_uint_field "new".toList (g NPF_PROTO_IDX_OTHER SESSION_STATE_NEW),
       json_event.jsonw_uint_field "established".toList
         (g NPF_PROTO_IDX_OTHER SESSION_STATE_ESTABLISHED),
       json_event.jsonw_uint_field "none".toList
         (g NPF_PROTO_IDX_OTHER SESSION_STATE_TERMINATING),
       json_event.jsonw_uint_field "closed".toList (g NPF_PROTO_IDX_OTHER SESSION_STATE_CLOSED),
       json_event.jsonw_end_object] := by
  rfl

/-- C21: the statistics report.  With every core visited once,
`npf_state_stats_json` makes exactly the calls listed into the JSON writer: the
object "tcp" with one field per TCP state and then the objects of UDP, ICMP and
OTHER with one field per generic state.  The field "closed" of each object
carries the sum over the cores of the class's CLOSED bucket plus the sum over
the cores of its NONE bucket, and every other field the sum over the cores of
its bucket (the state TERMINATING is emitted under the name "none"), the buckets
being those of the table as it was when the report was called and the sums being
those of unsigned 32-bit arithmetic (modulo `2^32`); when the sums fit in 32
bits the emitted counts are the sums themselves. -/
theorem C21_report_counts (lcores : List Nat) (proto_name : Nat → cstring)
    (stats : Nat → npf_state_stats) (hnd : lcores.Nodup) :
    (npf_state_stats_json lcores proto_name stats).2 =
      [json_event.jsonw_name "tcp".toList, json_event.jsonw_start_object,
       json_event.jsonw_uint_field "none".toList
         (tcp_total lcores stats NPF_TCPS_NONE % UINT32_MOD),
       json_event.jsonw_uint_field "syn_sent".toList
         (tcp_total lcores stats NPF_TCPS_SYN_SENT % UINT32_MOD),
       json_event.jsonw_uint_field "simsyn_sent".toList
         (tcp_total lcores stats NPF_TCPS_SIMSYN_SENT % UINT32_MOD),
       json_event.jsonw_uint_field "syn_received".toList
         (tcp_total lcores stats NPF_TCPS_SYN_RECEIVED % UINT32_MOD),
       json_event.jsonw_uint_field "established".toList
         (tcp_total lcores stats NPF_TCPS_ESTABLISHED % UINT32_MOD),
       json_event.jsonw_uint_field "fin_sent".toList
         (tcp_total lcores stats NPF_TCPS_FIN_SENT % UINT32_MOD),
       json_event.jsonw_uint_field "fin_received".toList
         (tcp_total lcores stats NPF_TCPS_FIN_RECEIVED % UINT32_MOD),
       json_event.jsonw_uint_field "close_wait".toList
         (tcp_total lcores stats NPF_TCPS_CLOSE_WAIT % UINT32_MOD),
       json_event.jsonw_uint_field "fin_wait".toList
         (tcp_total lcores stats NPF_TCPS_FIN_WAIT % UINT32_MOD),
       json_event.jsonw_uint_field "closing".toList
         (tcp_total lcores stats NPF_TCPS_CLOSING % UINT32_MOD),
       json_event.jsonw_uint_field "last_ack".toList
         (tcp_total lcores stats NPF_TCPS_LAST_ACK % UINT32_MOD),
       json_event.jsonw_uint_field "time_wait".toList
         (tcp_total lcores stats NPF_TCPS_TIME_WAIT % UINT32_MOD),
       json_event.jsonw_uint_field "rst_received".toList
         (tcp_total lcores stats NPF_TCPS_RST_RECEIVED % UINT32_MOD),
       json_event.jsonw_uint_field "closed".toList
         ((tcp_total lcores stats NPF_TCPS_CLOSED
           + tcp_total lcores stats NPF_TCPS_NONE) % UINT32_MOD),
       json_event.jsonw_end_object,
       json_event.jsonw_name (proto_name NPF_PROTO_IDX_UDP), json_event.jsonw_start_object,
       json_event.jsonw_uint_field "none".toList
         (gen_total lcores stats NPF_PROTO_IDX_UDP SESSION_STATE_NONE % UINT32_MOD),
       json_event.jsonw_uint_field "new".toList
         (gen_total lcores stats NPF_PROTO_IDX_UDP SESSION_STATE_NEW % UINT32_MOD),
       json_event.jsonw_uint_field "established".toList
         (gen_total lcores stats NPF_PROTO_IDX_UDP SESSION_STATE_ESTABLISHED % UINT32_MOD),
       json_event.jsonw_uint_field "none".toList
         (gen_total lcores stats NPF_PROTO_IDX_UDP SESSION_STATE_TERMINATING % UINT32_MOD),
       json_event.jsonw_uint_field "closed".toList
         ((gen_total lcores stats NPF_PROTO_IDX_UDP SESSION_STATE_CLOSED
           + gen_total lcores stats NPF_PROTO_IDX_UDP SESSION_STATE_NONE) % UINT32_MOD),
       json_event.jsonw_end_object,
       json_event.jsonw_name (proto_name NPF_PROTO_IDX_ICMP), json_event.jsonw_start_object,
       json_event.jsonw_uint_field "none".toList
         (gen_total lcores stats NPF_PROTO_IDX_ICMP SESSION_STATE_NONE % UINT32_MOD),
       json_event.jsonw_uint_field "new".toList
         (gen_total lcores stats NPF_PROTO_IDX_ICMP SESSION_STATE_NEW % UINT32_MOD),
       json_event.jsonw_uint_field "established".toList
         (gen_total lcores stats NPF_PROTO_IDX_ICMP SESSION_STATE_ESTABLISHED % UINT32_MOD),
       json_event.jsonw_uint_field "none".toList
         (gen_total lcores stats NPF_PROTO_IDX_ICMP SESSION_STATE_TERMINATING % UINT32_MOD),
       json_event.jsonw_uint_field "closed".toList
         ((gen_total lcores stats NPF_PROTO_IDX_ICMP SESSION_STATE_CLOSED
           + gen_total lcores stats NPF_PROTO_IDX_ICMP SESSION_STATE_NONE) % UINT32_MOD),
       json_event.jsonw_end_object,
       json_event.jsonw_name (proto_name NPF_PROTO_IDX_OTHER), json_event.jsonw_start_object,
       json_event.jsonw_uint_field "none".toList
         (gen_total lcores stats NPF_PROTO_IDX_OTHER SESSION_STATE_NONE % UINT32_MOD),
       json_event.jsonw_uint_field "new".toList
         (gen_total lcores stats NPF_PROTO_IDX_OTHER SESSION_STATE_NEW % UINT32_MOD),
       json_event.jsonw_uint_field "established".toList
         (gen_total lcores stats NPF_PROTO_IDX_OTHER SESSION_STATE_ESTABLISHED % UINT32_MOD),
       json_event.jsonw_uint_field "none".toList
         (gen_total lcores stats NPF_PROTO_IDX_OTHER SESSION_STATE_TERMINATING % UINT32_MOD),
       json_event.jsonw_uint_field "closed".toList
         ((gen_total lcores stats NPF_PROTO_IDX_OTHER SESSION_STATE_CLOSED
           + gen_total lcores stats NPF_PROTO_IDX_OTHER SESSION_STATE_NONE) % UINT32_MOD),
       json_event.jsonw_end_object] ∧
    ((∀ s, s ≤ NPF_TCPS_LAST →
        tcp_total lcores stats s + tcp_total lcores stats NPF_TCPS_NONE < UINT32_MOD) →
      (∀ p, p ≤ NPF_PROTO_IDX_LAST → ∀ s, s ≤ SESSION_STATE_LAST →
        gen_total lcores stats p s + gen_total lcores stats p SESSION_STATE_NONE
          < UINT32_MOD) →
      (npf_state_stats_json lcores proto_name stats).2 =
        [json_event.jsonw_name "tcp".toList, json_event.jsonw_start_object,
         json_event.jsonw_uint_field "none".toList (tcp_total lcores stats NPF_TCPS_NONE),
         json_event.jsonw_uint_field "syn_sent".toList (tcp_total lcores stats NPF_TCPS_SYN_SENT),
         json_event.jsonw_uint_field "simsyn_sent".toList
           (tcp_total lcores stats NPF_TCPS_SIMSYN_SENT),
         json_event.jsonw_uint_field "syn_received".toList
           (tcp_total lcores stats NPF_TCPS_SYN_RECEIVED),
         json_event.jsonw_uint_field "established".toList
           (tcp_total lcores stats NPF_TCPS_ESTABLISHED),
         json_event.jsonw_uint_field "fin_sent".toList (tcp_total lcores stats NPF_TCPS_FIN_SENT),
         json_event.jsonw_uint_field "fin_received".toList
           (tcp_total lcores stats NPF_TCPS_FIN_RECEIVED),
         json_event.jsonw_uint_field "close_wait".toList
           (tcp_total lcores stats NPF_TCPS_CLOSE_WAIT),
         json_event.jsonw_uint_field "fin_wait".toList (tcp_total lcores stats NPF_TCPS_FIN_WAIT),
         json_event.jsonw_uint_field "closing".toList (tcp_total lcores stats NPF_TCPS_CLOSING),
         json_event.jsonw_uint_field "last_ack".toList (tcp_total lcores stats NPF_TCPS_LAST_ACK),
         json_event.jsonw_uint_field "time_wait".toList
           (tcp_total lcores stats NPF_TCPS_TIME_WAIT),
         json_event.jsonw_uint_field "rst_received".toList
           (tcp_total lcores stats NPF_TCPS_RST_RECEIVED),
         json_event.jsonw_uint_field "closed".toList
           (tcp_total lcores stats NPF_TCPS_CLOSED + tcp_total lcores stats NPF_TCPS_NONE),
         json_event.jsonw_end_object,
         json_event.jsonw_name (proto_name NPF_PROTO_IDX_UDP), json_event.jsonw_start_object,
         json_event.jsonw_uint_field "none".toList
           (gen_total lcores stats NPF_PROTO_IDX_UDP SESSION_STATE_NONE),
         json_event.jsonw_uint_field "new".toList
           (gen_total lcores stats NPF_PROTO_IDX_UDP SESSION_STATE_NEW),
         json_event.jsonw_uint_field "established".toList
           (gen_total lcores stats NPF_PROTO_IDX_UDP SESSION_STATE_ESTABLISHED),
         json_event.jsonw_uint_field "none".toList
           (gen_total lcores stats NPF_PROTO_IDX_UDP SESSION_STATE_TERMINATING),
         json_event.jsonw_uint_field "closed".toList
           (gen_total lcores stats NPF_PROTO_IDX_UDP SESSION_STATE_CLOSED
             + gen_total lcores stats NPF_PROTO_IDX_UDP SESSION_STATE_NONE),
         json_event.jsonw_end_object,
         json_event.jsonw_name (proto_name NPF_PROTO_IDX_ICMP), json_event.jsonw_start_object,
         json_event.jsonw_uint_field "none".toList
           (gen_total lcores stats NPF_PROTO_IDX_ICMP SESSION_STATE_NONE),
         json_event.jsonw_uint_field "new".toList
           (gen_total lcores stats NPF_PROTO_IDX_ICMP SESSION_STATE_NEW),
         json_event.jsonw_uint_field "established".toList
           (gen_total lcores stats NPF_PROTO_IDX_ICMP SESSION_STATE_ESTABLISHED),
         json_event.jsonw_uint_field "none".toList
           (gen_total lcores stats NPF_PROTO_IDX_ICMP SESSION_STATE_TERMINATING),
         json_event.jsonw_uint_field "closed".toList
           (gen_total lcores stats NPF_PROTO_IDX_ICMP SESSION_STATE_CLOSED
             + gen_total lcores stats NPF_PROTO_IDX_ICMP SESSION_STATE_NONE),
         json_event.jsonw_end_object,
         json_event.jsonw_name (proto_name NPF_PROTO_IDX_OTHER), json_event.jsonw_start_object,
         json_event.jsonw_uint_field "none".toList
           (gen_total lcores stats NPF_PROTO_IDX_OTHER SESSION_STATE_NONE),
         json_event.jsonw_uint_field "new".toList
           (gen_total lcores stats NPF_PROTO_IDX_OTHER SESSION_STATE_NEW),
         json_event.jsonw_uint_field "established".toList
           (gen_total lcores stats NPF_PROTO_IDX_OTHER SESSION_STATE_ESTABLISHED),
         json_event.jsonw_uint_field "none".toList
           (gen_total lcores stats NPF_PROTO_IDX_OTHER SESSION_STATE_TERMINATING),
         json_event.jsonw_uint_field "closed".toList
           (gen_total lcores stats NPF_PROTO_IDX_OTHER SESSION_STATE_CLOSED
             + gen_total lcores stats NPF_PROTO_IDX_OTHER SESSION_STATE_NONE),
         json_event.jsonw_end_object]) := by
  refine ⟨(stats_json_events_form lcores proto_name stats hnd).trans
    (emit_report_events _ _ _), ?_⟩
  intro ht hg
  have hexact : (npf_state_stats_json lcores proto_name stats).2
      = emit_report proto_name
          (fun s => if s = NPF_TCPS_CLOSED then
              tcp_total lcores stats NPF_TCPS_CLOSED + tcp_total lcores stats NPF_TCPS_NONE
            else tcp_total lcores stats s)
          (fun p s => if s = SESSION_STATE_CLOSED then
              gen_total lcores stats p SESSION_STATE_CLOSED
                + gen_total lcores stats p SESSION_STATE_NONE
            else gen_total lcores stats p s) := by
    rw [stats_json_events_form lcores proto_name stats hnd]
    apply emit_report_congr
    · intro s hs
      by_cases hc : s = NPF_TCPS_CLOSED
      · subst hc
        simp only [if_true]
        exact Nat.mod_eq_of_lt (ht NPF_TCPS_CLOSED hs)
      · simp only [hc, if_false]
        exact Nat.mod_eq_of_lt (Nat.lt_of_le_of_lt (Nat.le_add_right _ _) (ht s hs))
    · intro p hp s hs
      by_cases hc : s = SESSION_STATE_CLOSED
      · subst hc
        simp only [if_true]
        exact Nat.mod_eq_of_lt (hg p hp SESSION_STATE_CLOSED hs)
      · simp only [hc, if_false]
        exact Nat.mod_eq_of_lt (Nat.lt_of_le_of_lt (Nat.le_add_right _ _) (hg p hp s hs))
  exact hexact.trans (emit_report_events _ _ _)

/-- Witness of C21: the report on the sample table over the cores `0` and `1`.
The TCP buckets sum to 3 in NONE, 5 in ESTABLISHED and 3 in CLOSED, the UDP
buckets to 4 in NONE, 1 in NEW and 6 in CLOSED: the report emits 6 as the TCP
"closed" count and 10 as the UDP one. -/
theorem C21_report_counts_witness :
    [0, 1].Nodup ∧
    (npf_state_stats_json [0, 1] sample_proto_name sample_table).2 =
      [json_event.jsonw_name "tcp".toList, json_event.jsonw_start_object,
       json_event.jsonw_uint_field "none".toList 3,
       json_event.jsonw_uint_field "syn_sent".toList 0,
       json_event.jsonw_uint_field "simsyn_sent".toList 0,
       json_event.jsonw_uint_field "syn_received".toList 0,
       json_event.jsonw_uint_field "established".toList 5,
       json_event.jsonw_uint_field "fin_sent".toList 0,
       json_event.jsonw_uint_field "fin_received".toList 0,
       json_event.jsonw_uint_field "close_wait".toList 0,
       json_event.jsonw_uint_field "fin_wait".toList 0,
       json_event.jsonw_uint_field "closing".toList 0,
       json_event.jsonw_uint_field "last_ack".toList 0,
       json_event.jsonw_uint_field "time_wait".toList 0,
       json_event.jsonw_uint_field "rst_received".toList 0,
       json_event.jsonw_uint_field "closed".toList 6,
       json_event.jsonw_end_object,
       json_event.jsonw_name "udp".toList, json_event.jsonw_start_object,
       json_event.jsonw_uint_field "none".toList 4,
       json_event.jsonw_uint_field "new".toList 1,
       json_event.jsonw_uint_field "established".toList 0,
       json_event.jsonw_uint_field "none".toList 0,
       json_event.jsonw_uint_field "closed".toList 10,
       json_event.jsonw_end_object,
       json_event.jsonw_name "icmp".toList, json_event.jsonw_start_object,
       json_event.jsonw_uint_field "none".toList 0,
       json_event.jsonw_uint_field "new".toList 0,
       json_event.jsonw_uint_field "established".toList 0,
       json_event.jsonw_uint_field "none".toList 0,
       json_event.jsonw_uint_field "closed".toList 0,
       json_event.jsonw_end_object,
       json_event.jsonw_name "other".toList, json_event.jsonw_start_object,
       json_event.jsonw_uint_field "none".toList 0,
       json_event.jsonw_uint_field "new".toList 0,
       json_event.jsonw_uint_field "established".toList 0,
       json_event.jsonw_uint_field "none".toList 0,
       json_event.jsonw_uint_field "closed".toList 0,
       json_event.jsonw_end_object] :=
  ⟨by decide,
    ((C21_report_counts [0, 1] sample_proto_name sample_table (by decide)).2
      (by decide) (by decide)).trans (by decide)⟩

theorem destroy_after_report_gen (lcores : List Nat) (pn : Nat → cstring)
    (store : npf_timeout_store) (stats : Nat → npf_state_stats) (lcore vrfid p h : Nat)
    (nst : npf_state_t) (hnd : lcores.Nodup) (hl : lcore ∈ lcores)
    (hv : store.vrf_to vrfid = some h) (hp : p ≤ NPF_PROTO_IDX_LAST)
    (hq : p ≠ NPF_PROTO_IDX_TCP) :
    ((npf_state_destroy (npf_state_init store stats lcore vrfid p nst).store
        (npf_state_stats_json lcores pn (npf_state_init store stats lcore vrfid p nst).stats).1
        lcore (npf_state_init store stats lcore vrfid p nst).nst p).stats lcore).ss_ct p
        SESSION_STATE_CLOSED
      = u32_add ((stats lcore).ss_ct p SESSION_STATE_CLOSED)
          (u32_inc ((stats lcore).ss_ct p SESSION_STATE_NONE)) := by
  rw [init_gen_form store stats lcore vrfid p h nst hv hq, destroy_stats, if_neg hq]
  show ((stats_dec (stats_json_fixup lcores (stats_inc stats lcore p SESSION_STATE_NONE))
    lcore p SESSION_STATE_NONE) lcore).ss_ct p SESSION_STATE_CLOSED = _
  have hne : ¬ (lcore = lcore ∧ p = p ∧ SESSION_STATE_CLOSED = SESSION_STATE_NONE) :=
    fun hh => absurd hh.2.2 (by decide)
  rw [ss_ct_stats_dec _ _ _ _ _ _ _ (by decide) hp, if_neg hne,
    fixup_gen _ _ hnd, if_pos ⟨hl, hp, rfl⟩,
    ss_ct_stats_inc _ _ _ _ _ _ _ (by decide) hp, ss_ct_stats_inc _ _ _ _ _ _ _ (by decide) hp,
    if_neg hne, if_pos ⟨rfl, rfl, rfl⟩]

theorem destroy_after_report_tcp (lcores : List Nat) (pn : Nat → cstring)
    (store : npf_timeout_store) (stats : Nat → npf_state_stats) (lcore vrfid h : Nat)
    (nst : npf_state_t) (hnd : lcores.Nodup) (hl : lcore ∈ lcores)
    (hv : store.vrf_to vrfid = some h) :
    ((npf_state_destroy (npf_state_init store stats lcore vrfid NPF_PROTO_IDX_TCP nst).store
        (npf_state_stats_json lcores pn
          (npf_state_init store stats lcore vrfid NPF_PROTO_IDX_TCP nst).stats).1
        lcore (npf_state_init store stats lcore vrfid NPF_PROTO_IDX_TCP nst).nst
        NPF_PROTO_IDX_TCP).stats lcore).ss_tcp_ct NPF_TCPS_CLOSED
      = u32_add ((stats lcore).ss_tcp_ct NPF_TCPS_CLOSED)
          (u32_inc ((stats lcore).ss_tcp_ct NPF_TCPS_NONE)) := by
  rw [init_tcp_form store stats lcore vrfid h nst hv, destroy_stats, if_pos rfl]
  show ((stats_dec_tcp (stats_json_fixup lcores (stats_inc_tcp stats lcore NPF_TCPS_NONE))
    lcore NPF_TCPS_NONE) lcore).ss_tcp_ct NPF_TCPS_CLOSED = _
  have hne : ¬ (lcore = lcore ∧ NPF_TCPS_CLOSED = NPF_TCPS_NONE) :=
    fun hh => absurd hh.2 (by decide)
  rw [ss_tcp_ct_stats_dec_tcp _ _ _ _ _ (by decide), if_neg hne,
    fixup_tcp _ _ hnd, if_pos ⟨hl, rfl⟩,
    ss_tcp_ct_stats_inc_tcp _ _ _ _ _ (by decide), ss_tcp_ct_stats_inc_tcp _ _ _ _ _ (by decide),
    if_neg hne, if_pos ⟨rfl, rfl⟩]

theorem u32_add_inc_ne (c n : Nat) (hn : n + 1 < UINT32_MOD) :
    u32_add c (u32_inc n) = (c + n + 1) % UINT32_MOD ∧ u32_add c (u32_inc n) ≠ c := by
  unfold u32_add u32_inc
  simp only [UINT32_MOD] at hn ⊢
  omega

/-- C28: `npf_state_stats_json` modifies the table it reports.  With every core
visited once, a call leaves on every visited core the CLOSED bucket of TCP and
of every protocol class increased by that core's NONE bucket (as unsigned 32-bit
counters) and every other bucket, the NONE bucket among them, as it was, and it
leaves the rows of other cores as they were; with no transition in between, the
report that follows `k` earlier reports makes exactly the calls listed into the
JSON writer, the field "closed" of each object carrying the original CLOSED total
plus `k + 1` times the NONE total (modulo `2^32`) and every other field the
total of its bucket; and when a record is initialised on a visited core, reported
and destroyed, the CLOSED bucket of its class ends at its value before the
initialisation plus the NONE bucket plus one (modulo `2^32`), which differs from
the value before the initialisation as long as the NONE bucket is not at the
top of its range. -/
theorem C28_report_modifies_table (lcores : List Nat) (proto_name : Nat → cstring)
    (store : npf_timeout_store) (stats : Nat → npf_state_stats) (lcore vrfid p h k : Nat)
    (nst : npf_state_t) (hnd : lcores.Nodup) (hl : lcore ∈ lcores)
    (hv : store.vrf_to vrfid = some h) (hp : p ≤ NPF_PROTO_IDX_LAST)
    (hq : p ≠ NPF_PROTO_IDX_TCP)
    (hn : (stats lcore).ss_ct p SESSION_STATE_NONE + 1 < UINT32_MOD)
    (htn : (stats lcore).ss_tcp_ct NPF_TCPS_NONE + 1 < UINT32_MOD) :
    (∀ i s, ((npf_state_stats_json lcores proto_name stats).1 i).ss_tcp_ct s
      = if i ∈ lcores ∧ s = NPF_TCPS_CLOSED then
          u32_add ((stats i).ss_tcp_ct NPF_TCPS_CLOSED) ((stats i).ss_tcp_ct NPF_TCPS_NONE)
        else (stats i).ss_tcp_ct s) ∧
    (∀ i q s, ((npf_state_stats_json lcores proto_name stats).1 i).ss_ct q s
      = if i ∈ lcores ∧ q ≤ NPF_PROTO_IDX_LAST ∧ s = SESSION_STATE_CLOSED then
          u32_add ((stats i).ss_ct q SESSION_STATE_CLOSED) ((stats i).ss_ct q SESSION_STATE_NONE)
        else (stats i).ss_ct q s) ∧
    (npf_state_stats_json lcores proto_name
        (stats_after_reports lcores proto_name k stats)).2 =
      [json_event.jsonw_name "tcp".toList, json_event.jsonw_start_object,
       json_event.jsonw_uint_field "none".toList
         (tcp_total lcores stats NPF_TCPS_NONE % UINT32_MOD),
       json_event.jsonw_uint_field "syn_sent".toList
         (tcp_total lcores stats NPF_TCPS_SYN_SENT % UINT32_MOD),
       json_event.jsonw_uint_field "simsyn_sent".toList
         (tcp_total lcores stats NPF_TCPS_SIMSYN_SENT % UINT32_MOD),
       json_event.jsonw_uint_field "syn_received".toList
         (tcp_total lcores stats NPF_TCPS_SYN_RECEIVED % UINT32_MOD),
       json_event.jsonw_uint_field "established".toList
         (tcp_total lcores stats NPF_TCPS_ESTABLISHED % UINT32_MOD),
       json_event.jsonw_uint_field "fin_sent".toList
         (tcp_total lcores stats NPF_TCPS_FIN_SENT % UINT32_MOD),
       json_event.jsonw_uint_field "fin_received".toList
         (tcp_total lcores stats NPF_TCPS_FIN_RECEIVED % UINT32_MOD),
       json_event.jsonw_uint_field "close_wait".toList
         (tcp_total lcores stats NPF_TCPS_CLOSE_WAIT % UINT32_MOD),
       json_event.jsonw_uint_field "fin_wait".toList
         (tcp_total lcores stats NPF_TCPS_FIN_WAIT % UINT32_MOD),
       json_event.jsonw_uint_field "closing".toList
         (tcp_total lcores stats NPF_TCPS_CLOSING % UINT32_MOD),
       json_event.jsonw_uint_field "last_ack".toList
         (tcp_total lcores stats NPF_TCPS_LAST_ACK % UINT32_MOD),
       json_event.jsonw_uint_field "time_wait".toList
         (tcp_total lcores stats NPF_TCPS_TIME_WAIT % UINT32_MOD),
       json_event.jsonw_uint_field "rst_received".toList
         (tcp_total lcores stats NPF_TCPS_RST_RECEIVED % UINT32_MOD),
       json_event.jsonw_uint_field "closed".toList
         ((tcp_total lcores stats NPF_TCPS_CLOSED
           + (k + 1) * tcp_total lcores stats NPF_TCPS_NONE) % UINT32_MOD),
       json_event.jsonw_end_object,
       json_event.jsonw_name (proto_name NPF_PROTO_IDX_UDP), json_event.jsonw_start_object,
       json_event.jsonw_uint_field "none".toList
         (gen_total lcores stats NPF_PROTO_IDX_UDP SESSION_STATE_NONE % UINT32_MOD),
       json_event.jsonw_uint_field "new".toList
         (gen_total lcores stats NPF_PROTO_IDX_UDP SESSION_STATE_NEW % UINT32_MOD),
       json_event.jsonw_uint_field "established".toList
         (gen_total lcores stats NPF_PROTO_IDX_UDP SESSION_STATE_ESTABLISHED % UINT32_MOD),
       json_event.jsonw_uint_field "none".toList
         (gen_total lcores stats NPF_PROTO_IDX_UDP SESSION_STATE_TERMINATING % UINT32_MOD),
       json_event.jsonw_uint_field "closed".toList
         ((gen_total lcores stats NPF_PROTO_IDX_UDP SESSION_STATE_CLOSED
           + (k + 1) * gen_total lcores stats NPF_PROTO_IDX_UDP SESSION_STATE_NONE) % UINT32_MOD),
       json_event.jsonw_end_object,
       json_event.jsonw_name (proto_name NPF_PROTO_IDX_ICMP), json_event.jsonw_start_object,
       json_event.jsonw_uint_field "none".toList
         (gen_total lcores stats NPF_PROTO_IDX_ICMP SESSION_STATE_NONE % UINT32_MOD),
       json_event.jsonw_uint_field "new".toList
         (gen_total lcores stats NPF_PROTO_IDX_ICMP SESSION_STATE_NEW % UINT32_MOD),
       json_event.jsonw_uint_field "established".toList
         (gen_total lcores stats NPF_PROTO_IDX_ICMP SESSION_STATE_ESTABLISHED % UINT32_MOD),
       json_event.jsonw_uint_field "none".toList
         (gen_total lcores stats NPF_PROTO_IDX_ICMP SESSION_STATE_TERMINATING % UINT32_MOD),
       json_event.jsonw_uint_field "closed".toList
         ((gen_total lcores stats NPF_PROTO_IDX_ICMP SESSION_STATE_CLOSED
           + (k + 1) * gen_total lcores stats NPF_PROTO_IDX_ICMP SESSION_STATE_NONE) % UINT32_MOD),
       json_event.jsonw_end_object,
       json_event.jsonw_name (proto_name NPF_PROTO_IDX_OTHER), json_event.jsonw_start_object,
       json_event.jsonw_uint_field "none".toList
         (gen_total lcores stats NPF_PROTO_IDX_OTHER SESSION_STATE_NONE % UINT32_MOD),
       json_event.jsonw_uint_field "new".toList
         (gen_total lcores stats NPF_PROTO_IDX_OTHER SESSION_STATE_NEW % UINT32_MOD),
       json_event.jsonw_uint_field "established".toList
         (gen_total lcores stats NPF_PROTO_IDX_OTHER SESSION_STATE_ESTABLISHED % UINT32_MOD),
       json_event.jsonw_uint_field "none".toList
         (gen_total lcores stats NPF_PROTO_IDX_OTHER SESSION_STATE_TERMINATING % UINT32_MOD),
       json_event.jsonw_uint_field "closed".toList
         ((gen_total lcores stats NPF_PROTO_IDX_OTHER SESSION_STATE_CLOSED
           + (k + 1) * gen_total lcores stats NPF_PROTO_IDX_OTHER SESSION_STATE_NONE) % UINT32_MOD),
       json_event.jsonw_end_object] ∧
    ((npf_state_destroy (npf_state_init store stats lcore vrfid p nst).store
        (npf_state_stats_json lcores proto_name
          (npf_state_init store stats lcore vrfid p nst).stats).1
        lcore (npf_state_init store stats lcore vrfid p nst).nst p).stats lcore).ss_ct p
        SESSION_STATE_CLOSED
      = ((stats lcore).ss_ct p SESSION_STATE_CLOSED + (stats lcore).ss_ct p SESSION_STATE_NONE
          + 1) % UINT32_MOD ∧
    ((npf_state_destroy (npf_state_init store stats lcore vrfid p nst).store
        (npf_state_stats_json lcores proto_name
          (npf_state_init store stats lcore vrfid p nst).stats).1
        lcore (npf_state_init store stats lcore vrfid p nst).nst p).stats lcore).ss_ct p
        SESSION_STATE_CLOSED
      ≠ (stats lcore).ss_ct p SESSION_STATE_CLOSED ∧
    ((npf_state_destroy (npf_state_init store stats lcore vrfid NPF_PROTO_IDX_TCP nst).store
        (npf_state_stats_json lcores proto_name
          (npf_state_init store stats lcore vrfid NPF_PROTO_IDX_TCP nst).stats).1
        lcore (npf_state_init store stats lcore vrfid NPF_PROTO_IDX_TCP nst).nst
        NPF_PROTO_IDX_TCP).stats lcore).ss_tcp_ct NPF_TCPS_CLOSED
      = ((stats lcore).ss_tcp_ct NPF_TCPS_CLOSED + (stats lcore).ss_tcp_ct NPF_TCPS_NONE
          + 1) % UINT32_MOD ∧
    ((npf_state_destroy (npf_state_init store stats lcore vrfid NPF_PROTO_IDX_TCP nst).store
        (npf_state_stats_json lcores proto_name
          (npf_state_init store stats lcore vrfid NPF_PROTO_IDX_TCP nst).stats).1
        lcore (npf_state_init store stats lcore vrfid NPF_PROTO_IDX_TCP nst).nst
        NPF_PROTO_IDX_TCP).stats lcore).ss_tcp_ct NPF_TCPS_CLOSED
      ≠ (stats lcore).ss_tcp_ct NPF_TCPS_CLOSED := by
  have hg := destroy_after_report_gen lcores proto_name store stats lcore vrfid p h nst hnd hl
    hv hp hq
  have ht := destroy_after_report_tcp lcores proto_name store stats lcore vrfid h nst hnd hl hv
  have hga := u32_add_inc_ne ((stats lcore).ss_ct p SESSION_STATE_CLOSED) _ hn
  have hta := u32_add_inc_ne ((stats lcore).ss_tcp_ct NPF_TCPS_CLOSED) _ htn
  refine ⟨fun i s => fixup_tcp lcores stats hnd i s,
    fun i q s => fixup_gen lcores stats hnd i q s,
    (report_after_k lcores proto_name hnd k stats).trans (emit_report_events _ _ _),
    ?_, ?_, ?_, ?_⟩
  · rw [hg]; exact hga.1
  · rw [hg]; exact hga.2
  · rw [ht]; exact hta.1
  · rw [ht]; exact hta.2

/-- Witness of C28: on the sample table over the cores `0` and `1`, the third
consecutive report emits 3 + 3 x 3 = 12 as the TCP "closed" count and
6 + 3 x 4 = 18 as the UDP one; and a UDP record of domain `1` initialised on
core `1`, reported and destroyed leaves the UDP CLOSED bucket of that core at
6 + 4 + 1 = 11 where it was 6. -/
theorem C28_report_modifies_table_witness :
    [0, 1].Nodup ∧ 1 ∈ [0, 1] ∧ sample_store.vrf_to 1 = some 7 ∧
    NPF_PROTO_IDX_UDP ≤ NPF_PROTO_IDX_LAST ∧ NPF_PROTO_IDX_UDP ≠ NPF_PROTO_IDX_TCP ∧
    (sample_table 1).ss_ct NPF_PROTO_IDX_UDP SESSION_STATE_NONE + 1 < UINT32_MOD ∧
    (sample_table 1).ss_tcp_ct NPF_TCPS_NONE + 1 < UINT32_MOD ∧
    (npf_state_stats_json [0, 1] sample_proto_name
        (stats_after_reports [0, 1] sample_proto_name 2 sample_table)).2 =
      [json_event.jsonw_name "tcp".toList, json_event.jsonw_start_object,
       json_event.jsonw_uint_field "none".toList 3,
       json_event.jsonw_uint_field "syn_sent".toList 0,
       json_event.jsonw_uint_field "simsyn_sent".toList 0,
       json_event.jsonw_uint_field "syn_received".toList 0,
       json_event.jsonw_uint_field "established".toList 5,
       json_event.jsonw_uint_field "fin_sent".toList 0,
       json_event.jsonw_uint_field "fin_received".toList 0,
       json_event.jsonw_uint_field "close_wait".toList 0,
       json_event.jsonw_uint_field "fin_wait".toList 0,
       json_event.jsonw_uint_field "closing".toList 0,
       json_event.jsonw_uint_field "last_ack".toList 0,
       json_event.jsonw_uint_field "time_wait".toList 0,
       json_event.jsonw_uint_field "rst_received".toList 0,
       json_event.jsonw_uint_field "closed".toList 12,
       json_event.jsonw_end_object,
       json_event.jsonw_name "udp".toList, json_event.jsonw_start_object,
       json_event.jsonw_uint_field "none".toList 4,
       json_event.jsonw_uint_field "new".toList 1,
       json_event.jsonw_uint_field "established".toList 0,
       json_event.jsonw_uint_field "none".toList 0,
       json_event.jsonw_uint_field "closed".toList 18,
       json_event.jsonw_end_object,
       json_event.jsonw_name "icmp".toList, json_event.jsonw_start_object,
       json_event.jsonw_uint_field "none".toList 0,
       json_event.jsonw_uint_field "new".toList 0,
       json_event.jsonw_uint_field "established".toList 0,
       json_event.jsonw_uint_field "none".toList 0,
       json_event.jsonw_uint_field "closed".toList 0,
       json_event.jsonw_end_object,
       json_event.jsonw_name "other".toList, json_event.jsonw_start_object,
       json_event.jsonw_uint_field "none".toList 0,
       json_event.jsonw_uint_field "new".toList 0,
       json_event.jsonw_uint_field "established".toList 0,
       json_event.jsonw_uint_field "none".toList 0,
       json_event.jsonw_uint_field "closed".toList 0,
       json_event.jsonw_end_object] ∧
    (sample_table 1).ss_ct NPF_PROTO_IDX_UDP SESSION_STATE_CLOSED = 6 ∧
    ((npf_state_destroy
        (npf_state_init sample_store sample_table 1 1 NPF_PROTO_IDX_UDP zero_nst).store
        (npf_state_stats_json [0, 1] sample_proto_name
          (npf_state_init sample_store sample_table 1 1 NPF_PROTO_IDX_UDP zero_nst).stats).1
        1 (npf_state_init sample_store sample_table 1 1 NPF_PROTO_IDX_UDP zero_nst).nst
        NPF_PROTO_IDX_UDP).stats 1).ss_ct NPF_PROTO_IDX_UDP SESSION_STATE_CLOSED = 11 :=
  ⟨by decide, by decide, rfl, by decide, by decide, by decide, by decide,
    (C28_report_modifies_table [0, 1] sample_proto_name sample_store sample_table 1 1
      NPF_PROTO_IDX_UDP 7 2 zero_nst (by decide) (by decide) rfl (by decide) (by decide)
      (by decide) (by decide)).2.2.1.trans (by decide),
    by decide,
    (C28_report_modifies_table [0, 1] sample_proto_name sample_store sample_table 1 1
      NPF_PROTO_IDX_UDP 7 2 zero_nst (by decide) (by decide) rfl (by decide) (by decide)
      (by decide) (by decide)).2.2.2.1.trans (by decide)⟩

end NpfState
